import Mathlib

/-!
# Field registry of the runtime security probe (`pkg/security/probe/accessors.go`)

A shallow embedding of the generated accessors: the six registry operations
`GetFields`, `GetEvaluator`, `GetFieldValue`, `GetFieldEventType`, `GetFieldType` and
`SetFieldValue`, the evaluators they build, and the ancestor iteration they run.

Every generated `switch` is kept as its own table of `case` arms, in source order; the body
of an arm is recorded by the few shapes the generator emits, and one function per shape gives
the arm its meaning.
-/

set_option autoImplicit false

namespace Probe

/-! ## Values and errors -/

/-- Go `reflect.Kind`, restricted to the kinds `GetFieldType` returns. -/
inductive Kind where
  | Invalid
  | Bool
  | Int
  | String
  deriving DecidableEq, Repr

/-- The errors of the `eval` package that the accessors return. -/
inductive Error where
  | ErrFieldNotFound (Field : String)
  | ErrValueTypeMismatch (Field : String)
  | ErrIteratorNotSupported (Field : String)
  deriving DecidableEq, Repr

/-- A Go `interface{}` value, by dynamic type: `int`, `string`, `bool`, `[]int`, `[]string`,
the nil interface, or a value of any other dynamic type (named by `typeName`). -/
inductive Value where
  | nil
  | int (v : Int)
  | string (s : String)
  | bool (b : Bool)
  | ints (vs : List Int)
  | strings (vs : List String)
  | other (typeName : String)
  deriving DecidableEq, Repr

/-- The kind of the dynamic type of a value, as far as the type assertions `value.(int)`,
`value.(string)` and `value.(bool)` can tell. -/
def Value.kind : Value → Kind
  | .int _ => .Int
  | .string _ => .String
  | .bool _ => .Bool
  | _ => .Invalid

/-- Go conversion `int(x)` of an integer `x` of at most 64 bits: the value wraps into the
signed 64-bit range. -/
def toInt (x : Int) : Int := (x + 2 ^ 63) % 2 ^ 64 - 2 ^ 63

/-- The integer conversions `SetFieldValue` applies before it stores a value. -/
inductive Conv where
  | uint16
  | uint32
  | uint64
  | int64
  deriving DecidableEq, Repr

/-- Go conversions `uint16(v)`, `uint32(v)`, `uint64(v)` and `int64(v)` of an `int`. -/
def Conv.apply : Conv → Int → Int
  | .uint16, v => v % 2 ^ 16
  | .uint32, v => v % 2 ^ 32
  | .uint64, v => v % 2 ^ 64
  | .int64, v => v

/-! ## Event model -/

/-- Modelled from the spec: the struct declarations of the `model` package are not part of
the sources, so the attributes of a struct value are addressed by the selector path that
`accessors.go` spells (`Chmod.File.FileFields.GID`), one store per attribute type. -/
structure Struct where
  ints : String → Int
  strs : String → String
  bools : String → Bool

/-- The zero value of a struct: what `&model.ProcessCacheEntry{}` allocates. -/
def Struct.zero : Struct := ⟨fun _ => 0, fun _ => "", fun _ => false⟩

/-- Assignment of an integer attribute. -/
def Struct.setInt (s : Struct) (path : String) (v : Int) : Struct :=
  { s with ints := fun p => if p = path then v else s.ints p }

/-- Assignment of a string attribute. -/
def Struct.setStr (s : Struct) (path : String) (v : String) : Struct :=
  { s with strs := fun p => if p = path then v else s.strs p }

/-- Assignment of a boolean attribute. -/
def Struct.setBool (s : Struct) (path : String) (v : Bool) : Struct :=
  { s with bools := fun p => if p = path then v else s.bools p }

/-- Modelled from the spec: `model.ProcessCacheEntry`, one node of the process lineage: its
own attributes and the link `Ancestor` to the next older entry. The chain is finite and
acyclic (spec, data model), which the inductive type builds in. -/
inductive ProcessCacheEntry where
  | mk (attrs : Struct) (Ancestor : Option ProcessCacheEntry)

/-- Attributes of an entry. -/
def ProcessCacheEntry.attrs : ProcessCacheEntry → Struct
  | .mk a _ => a

/-- The link to the next older entry, `none` for a nil pointer. -/
def ProcessCacheEntry.Ancestor : ProcessCacheEntry → Option ProcessCacheEntry
  | .mk _ a => a

/-- Number of entries of the chain that starts at an entry. -/
def ProcessCacheEntry.depth : ProcessCacheEntry → Nat
  | .mk _ none => 1
  | .mk _ (some a) => a.depth + 1

/-- The entries of the chain that starts at an entry, nearest first. -/
def ProcessCacheEntry.chain : ProcessCacheEntry → List ProcessCacheEntry
  | .mk s none => [.mk s none]
  | .mk s (some a) => .mk s (some a) :: a.chain

/-- Modelled from the spec: the `Event` of the probe: its attributes (operation payloads,
process and container context) and the pointer `ProcessContext.Ancestor`. -/
structure Event where
  attrs : Struct
  Ancestor : Option ProcessCacheEntry

/-- The ancestor entries of an event, nearest parent first: `ProcessContext.Ancestor`, then
each entry's `Ancestor` link. -/
def Event.ancestors (e : Event) : List ProcessCacheEntry :=
  match e.Ancestor with
  | none => []
  | some a => a.chain

/-! ## Resolvers -/

/-- The sub-structure a resolver is pointed at: `&e.<path>` of the event, or
`&element.<path>` of an ancestor entry. -/
inductive Target where
  | event (path : String)
  | element (entry : ProcessCacheEntry) (path : String)

/-- The resolver methods of `Event` (`ResolveUser`, `ResolveFileInode`, `GetXAttrName`, ...)
are not part of the sources and are taken as a parameter, one family per result type, indexed
by method name. Following the resolver contract of the spec (side-effect-free from the
engine's perspective) a resolver is a function of the event and of the sub-structure it is
pointed at; that it was called is recorded as a `Call`. -/
structure Resolvers where
  int : String → Event → Target → Int
  string : String → Event → Target → String
  bool : String → Event → Target → Bool

/-- The observable steps of an accessor: iterator steps and resolver calls. -/
inductive Call where
  | Front
  | Next
  | Resolve (method : String) (arg : Target)

/-- A result together with the iterator steps and resolver calls made to compute it. -/
structure Traced (α : Type) where
  ret : α
  calls : List Call

/-! ## Evaluation context, evaluators, iterator -/

/-- What a pointer stored in `ctx.Cache` points at: a `[]int` or a `[]string`. -/
inductive CacheEntry where
  | ints (vs : List Int)
  | strings (vs : List String)
  deriving DecidableEq, Repr

/-- Modelled from the spec: `eval.Context`: the event under evaluation and the cache of
array results, keyed by field name (`none` for an absent key or a nil pointer). -/
structure Context where
  Object : Event
  Cache : String → Option CacheEntry

/-- Modelled from the spec: `eval.NewContext`, a context for an event with an empty cache. -/
def NewContext (e : Event) : Context := ⟨e, fun _ => none⟩

/-- The statement `ctx.Cache[field] = ptr`. -/
def Context.store (ctx : Context) (field : String) (entry : CacheEntry) : Context :=
  { ctx with Cache := fun f => if f = field then some entry else ctx.Cache f }

/-- What a call of an evaluation closure leaves behind: the returned value, the context
after the call, and the iterator steps and resolver calls it made. -/
structure Outcome (α : Type) where
  value : α
  ctx : Context
  calls : List Call

/-- Modelled from the spec: the evaluator weights of the `eval` package. -/
inductive Weight where
  | FunctionWeight
  | HandlerWeight
  | IteratorWeight
  deriving DecidableEq, Repr

/-- Modelled from the spec: the evaluator variants of the `eval` package, each with its
evaluation closure, field name and weight. An array closure has no result (`none`) when the
cache holds a slice of the other element type under its field: the source then reads that
memory through a cast of `unsafe.Pointer`, which is outside this model. -/
inductive Evaluator where
  | IntEvaluator (EvalFnc : Context → Outcome Int) (Field : String) (Weight : Weight)
  | StringEvaluator (EvalFnc : Context → Outcome String) (Field : String) (Weight : Weight)
  | BoolEvaluator (EvalFnc : Context → Outcome Bool) (Field : String) (Weight : Weight)
  | IntArrayEvaluator (EvalFnc : Context → Option (Outcome (List Int))) (Field : String)
      (Weight : Weight)
  | StringArrayEvaluator (EvalFnc : Context → Option (Outcome (List String))) (Field : String)
      (Weight : Weight)

/-- The `Field` of an evaluator. -/
def Evaluator.Field : Evaluator → String
  | .IntEvaluator _ f _ => f
  | .StringEvaluator _ f _ => f
  | .BoolEvaluator _ f _ => f
  | .IntArrayEvaluator _ f _ => f
  | .StringArrayEvaluator _ f _ => f

/-- The `Weight` of an evaluator. -/
def Evaluator.Weight : Evaluator → Weight
  | .IntEvaluator _ _ w => w
  | .StringEvaluator _ _ w => w
  | .BoolEvaluator _ _ w => w
  | .IntArrayEvaluator _ _ w => w
  | .StringArrayEvaluator _ _ w => w

/-- The five evaluator variants, as a tag. -/
inductive Variant where
  | IntEvaluator
  | StringEvaluator
  | BoolEvaluator
  | IntArrayEvaluator
  | StringArrayEvaluator
  deriving DecidableEq, Repr

/-- The variant of an evaluator. -/
def Evaluator.variant : Evaluator → Variant
  | .IntEvaluator _ _ _ => .IntEvaluator
  | .StringEvaluator _ _ _ => .StringEvaluator
  | .BoolEvaluator _ _ _ => .BoolEvaluator
  | .IntArrayEvaluator _ _ _ => .IntArrayEvaluator
  | .StringArrayEvaluator _ _ _ => .StringArrayEvaluator

/-- Modelled from the spec: `model.ProcessAncestorsIterator`, whose methods are not part of
the sources: a cursor `prev` over the lineage chain, owned by the iterator instance. -/
structure ProcessAncestorsIterator where
  prev : Option ProcessCacheEntry

/-- Modelled from the spec: `Front` returns the immediate parent of the event of the context
(null when the process has no tracked ancestor) and moves the cursor onto it. -/
def ProcessAncestorsIterator.Front (it : ProcessAncestorsIterator) (ctx : Context) :
    Option ProcessCacheEntry × ProcessAncestorsIterator :=
  match ctx.Object.Ancestor with
  | some front => (some front, { prev := some front })
  | none => (none, it)

/-- Modelled from the spec: `Next` returns the entry after the cursor (null at the oldest
tracked ancestor) and moves the cursor onto it. -/
def ProcessAncestorsIterator.Next (it : ProcessAncestorsIterator) :
    Option ProcessCacheEntry × ProcessAncestorsIterator :=
  match it.prev with
  | some (.mk _ (some next)) => (some next, { prev := some next })
  | _ => (none, it)

/-- Number of entries from the cursor on; the measure of the iteration loop. -/
def ProcessAncestorsIterator.depth (it : ProcessAncestorsIterator) : Nat :=
  match it.prev with
  | none => 0
  | some p => p.depth

/-- Modelled from the spec: the iterator of `GetIterator`, by the type it has. -/
inductive Iterator where
  | ProcessAncestorsIterator (it : ProcessAncestorsIterator)

/-! ## The shapes of the generated `case` arms -/

/-- Lookup of a field name among the `case` arms of a `switch`: the body of the first arm
whose label equals the field, `none` when the switch falls through. -/
def switchCase {β : Type} (field : String) : List (String × β) → Option β
  | [] => none
  | (label, body) :: rest => if field = label then some body else switchCase field rest

/-- The expression an arm computes its value with: an attribute read (`e.<path>`, or
`element.<path>` inside an ancestor loop) or a resolver call (`e.<method>(&e.<arg>)`, or
`e.<method>(&element.<arg>)` inside an ancestor loop). -/
inductive Expr where
  | attr (path : String)
  | resolve (method : String) (arg : String)
  deriving DecidableEq, Repr

/-- An arm of `GetEvaluator`: the evaluator variant it returns, the expression of its
closure and the weight it states. The closures of the `Int` variants wrap the expression in
`int(...)`; those of the array variants run the cached ancestor loop around it. -/
inductive EvalCase where
  | IntEvaluator (x : Expr) (w : Weight)
  | StringEvaluator (x : Expr) (w : Weight)
  | BoolEvaluator (x : Expr) (w : Weight)
  | IntArrayEvaluator (x : Expr) (w : Weight)
  | StringArrayEvaluator (x : Expr) (w : Weight)
  deriving DecidableEq, Repr

/-- An arm of `GetFieldValue`, by the type of the value it returns: `int(<expr>)`, a string
or boolean `<expr>` (the type is the one the same expression has in the typed closure of
`GetEvaluator`), or the ancestor loop collecting a `[]int` or a `[]string`. -/
inductive ValueCase where
  | int (x : Expr)
  | string (x : Expr)
  | bool (x : Expr)
  | ints (x : Expr)
  | strings (x : Expr)
  deriving DecidableEq, Repr

/-- The attribute an arm of `SetFieldValue` assigns: `e.<path>`, or
`e.ProcessContext.Ancestor.<path>` behind the ancestor pointer. -/
inductive Loc where
  | event (path : String)
  | ancestor (path : String)
  deriving DecidableEq, Repr

/-- The selector path of a location, as the source spells it after `e.`. -/
def Loc.path : Loc → String
  | .event p => p
  | .ancestor p => "ProcessContext.Ancestor." ++ p

/-- An arm of `SetFieldValue`: whether it starts with the guard that allocates a missing
ancestor entry, the `Field` of its `ErrValueTypeMismatch`, the attribute it assigns and, for
integers, the conversion applied. -/
inductive SetCase where
  | int (guard : Bool) (mismatch : String) (target : Loc) (conv : Conv)
  | string (guard : Bool) (mismatch : String) (target : Loc)
  | bool (guard : Bool) (mismatch : String) (target : Loc)
  deriving DecidableEq, Repr

/-- The `Field` of the type-mismatch error of an arm of `SetFieldValue`. -/
def SetCase.mismatch : SetCase → String
  | .int _ m _ _ => m
  | .string _ m _ => m
  | .bool _ m _ => m

/-- The attribute an arm of `SetFieldValue` assigns. -/
def SetCase.target : SetCase → Loc
  | .int _ _ t _ => t
  | .string _ _ t => t
  | .bool _ _ t => t

/-- Whether an arm of `SetFieldValue` starts with the guard that allocates the ancestor. -/
def SetCase.guard : SetCase → Bool
  | .int g _ _ _ => g
  | .string g _ _ => g
  | .bool g _ _ => g

/-- The kind of value an arm of `SetFieldValue` asserts. -/
def SetCase.kind : SetCase → Kind
  | .int _ _ _ _ => .Int
  | .string _ _ _ => .String
  | .bool _ _ _ => .Bool

/-- The evaluator variant an arm of `GetEvaluator` returns. -/
def EvalCase.variant : EvalCase → Variant
  | .IntEvaluator _ _ => .IntEvaluator
  | .StringEvaluator _ _ => .StringEvaluator
  | .BoolEvaluator _ _ => .BoolEvaluator
  | .IntArrayEvaluator _ _ => .IntArrayEvaluator
  | .StringArrayEvaluator _ _ => .StringArrayEvaluator

/-- The expression of an arm of `GetEvaluator`. -/
def EvalCase.expr : EvalCase → Expr
  | .IntEvaluator x _ => x
  | .StringEvaluator x _ => x
  | .BoolEvaluator x _ => x
  | .IntArrayEvaluator x _ => x
  | .StringArrayEvaluator x _ => x

/-- The weight an arm of `GetEvaluator` states. -/
def EvalCase.weight : EvalCase → Weight
  | .IntEvaluator _ w => w
  | .StringEvaluator _ w => w
  | .BoolEvaluator _ w => w
  | .IntArrayEvaluator _ w => w
  | .StringArrayEvaluator _ w => w

/-- Integer value of an expression over a struct value `s`; `mk` points a resolver at a
sub-structure of `s`. -/
def Expr.int (rs : Resolvers) (ev : Event) (s : Struct) (mk : String → Target) :
    Expr → Traced Int
  | .attr path => ⟨s.ints path, []⟩
  | .resolve method arg => ⟨rs.int method ev (mk arg), [.Resolve method (mk arg)]⟩

/-- String value of an expression over a struct value. -/
def Expr.string (rs : Resolvers) (ev : Event) (s : Struct) (mk : String → Target) :
    Expr → Traced String
  | .attr path => ⟨s.strs path, []⟩
  | .resolve method arg => ⟨rs.string method ev (mk arg), [.Resolve method (mk arg)]⟩

/-- Boolean value of an expression over a struct value. -/
def Expr.bool (rs : Resolvers) (ev : Event) (s : Struct) (mk : String → Target) :
    Expr → Traced Bool
  | .attr path => ⟨s.bools path, []⟩
  | .resolve method arg => ⟨rs.bool method ev (mk arg), [.Resolve method (mk arg)]⟩

/-- The body `result = int(<expr>)` of an ancestor loop, for one element. -/
def elementInt (rs : Resolvers) (ev : Event) (x : Expr) (element : ProcessCacheEntry) :
    Traced Int :=
  let r := x.int rs ev element.attrs (Target.element element)
  ⟨toInt r.ret, r.calls⟩

/-- The body `result = <expr>` of an ancestor loop over strings, for one element. -/
def elementString (rs : Resolvers) (ev : Event) (x : Expr) (element : ProcessCacheEntry) :
    Traced String :=
  x.string rs ev element.attrs (Target.element element)

/-- The loop `for value != nil { ...; results = append(results, result); value =
iterator.Next() }` of the ancestor arms: `body` computes `result` from the element, `results`
and `calls` accumulate the values and the steps made so far. -/
def collect {α : Type} (body : ProcessCacheEntry → Traced α) (value : Option ProcessCacheEntry)
    (iterator : ProcessAncestorsIterator) (results : List α) (calls : List Call) :
    Traced (List α) :=
  match value with
  | none => ⟨results, calls⟩
  | some element =>
    let r := body element
    collect body iterator.Next.1 iterator.Next.2 (results ++ [r.ret])
      (calls ++ r.calls ++ [Call.Next])
termination_by (if value.isSome then iterator.depth + 1 else 0)
decreasing_by
  simp only [Option.isSome_some, if_true]
  unfold ProcessAncestorsIterator.Next ProcessAncestorsIterator.depth
  rcases iterator with ⟨prev⟩
  rcases prev with _ | ⟨attrs, _ | next⟩ <;> simp [ProcessCacheEntry.depth]

/-- The ancestor traversal shared by the array arms: a fresh iterator, `Front`, then the
loop. -/
def traverse {α : Type} (body : ProcessCacheEntry → Traced α) (ctx : Context) :
    Traced (List α) :=
  let iterator : ProcessAncestorsIterator := { prev := none }
  let front := iterator.Front ctx
  collect body front.1 front.2 [] [Call.Front]

/-- Closure of an `IntEvaluator` arm: `return int(<expr>)`. -/
def evalInt (rs : Resolvers) (x : Expr) (ctx : Context) : Outcome Int :=
  let r := x.int rs ctx.Object ctx.Object.attrs Target.event
  ⟨toInt r.ret, ctx, r.calls⟩

/-- Closure of a `StringEvaluator` arm: `return <expr>`. -/
def evalString (rs : Resolvers) (x : Expr) (ctx : Context) : Outcome String :=
  let r := x.string rs ctx.Object ctx.Object.attrs Target.event
  ⟨r.ret, ctx, r.calls⟩

/-- Closure of a `BoolEvaluator` arm: `return <expr>`. -/
def evalBool (rs : Resolvers) (x : Expr) (ctx : Context) : Outcome Bool :=
  let r := x.bool rs ctx.Object ctx.Object.attrs Target.event
  ⟨r.ret, ctx, r.calls⟩

/-- Closure of an `IntArrayEvaluator` arm: the cached result if `ctx.Cache[field]` is set,
else the traversal, whose result is stored in the cache under `field`. -/
def evalIntArray (rs : Resolvers) (field : String) (x : Expr) (ctx : Context) :
    Option (Outcome (List Int)) :=
  match ctx.Cache field with
  | some (.ints result) => some ⟨result, ctx, []⟩
  | some (.strings _) => none
  | none =>
    let r := traverse (elementInt rs ctx.Object x) ctx
    some ⟨r.ret, ctx.store field (.ints r.ret), r.calls⟩

/-- Closure of a `StringArrayEvaluator` arm. -/
def evalStringArray (rs : Resolvers) (field : String) (x : Expr) (ctx : Context) :
    Option (Outcome (List String)) :=
  match ctx.Cache field with
  | some (.strings result) => some ⟨result, ctx, []⟩
  | some (.ints _) => none
  | none =>
    let r := traverse (elementString rs ctx.Object x) ctx
    some ⟨r.ret, ctx.store field (.strings r.ret), r.calls⟩

/-- The evaluator an arm of `GetEvaluator` returns for `field`. -/
def EvalCase.build (rs : Resolvers) (field : String) : EvalCase → Evaluator
  | .IntEvaluator x w => .IntEvaluator (evalInt rs x) field w
  | .StringEvaluator x w => .StringEvaluator (evalString rs x) field w
  | .BoolEvaluator x w => .BoolEvaluator (evalBool rs x) field w
  | .IntArrayEvaluator x w => .IntArrayEvaluator (evalIntArray rs field x) field w
  | .StringArrayEvaluator x w => .StringArrayEvaluator (evalStringArray rs field x) field w

/-- The value an arm of `GetFieldValue` returns for the event `e`; the array arms traverse
the ancestors under a new context `eval.NewContext(unsafe.Pointer(e))`, without a cache
lookup. -/
def ValueCase.run (rs : Resolvers) (e : Event) : ValueCase → Traced Value
  | .int x =>
    let r := x.int rs e e.attrs Target.event
    ⟨.int (toInt r.ret), r.calls⟩
  | .string x =>
    let r := x.string rs e e.attrs Target.event
    ⟨.string r.ret, r.calls⟩
  | .bool x =>
    let r := x.bool rs e e.attrs Target.event
    ⟨.bool r.ret, r.calls⟩
  | .ints x =>
    let r := traverse (elementInt rs e x) (NewContext e)
    ⟨.ints r.ret, r.calls⟩
  | .strings x =>
    let r := traverse (elementString rs e x) (NewContext e)
    ⟨.strings r.ret, r.calls⟩

/-- The guard `if e.ProcessContext.Ancestor == nil { e.ProcessContext.Ancestor =
&model.ProcessCacheEntry{} }` at the head of the ancestor arms of `SetFieldValue`. -/
def Event.allocAncestor (e : Event) : Event :=
  match e.Ancestor with
  | none => { e with Ancestor := some (.mk Struct.zero none) }
  | some _ => e

/-- Assignment `e.<loc> = ...`, given as an update `f` of the struct value that holds the
attribute; `none` is the run-time panic of an assignment through a nil
`ProcessContext.Ancestor`. -/
def Event.assign (e : Event) (f : String → Struct → Struct) : Loc → Option Event
  | .event path => some { e with attrs := f path e.attrs }
  | .ancestor path =>
    match e.Ancestor with
    | none => none
    | some (.mk attrs anc) => some { e with Ancestor := some (.mk (f path attrs) anc) }

/-- The event and error an arm of `SetFieldValue` leaves for `value`; `none` is a panic. An
integer or string arm asserts the type first and assigns on success; a boolean arm assigns
the result of the assertion (`false` when it fails) before it tests `ok`. -/
def SetCase.run (e : Event) (value : Value) : SetCase → Option (Event × Option Error)
  | .int guard mismatch target conv =>
    let e := if guard then e.allocAncestor else e
    match value with
    | .int v =>
      (e.assign (fun p s => s.setInt p (conv.apply v)) target).map fun e => (e, none)
    | _ => some (e, some (.ErrValueTypeMismatch mismatch))
  | .string guard mismatch target =>
    let e := if guard then e.allocAncestor else e
    match value with
    | .string str => (e.assign (fun p s => s.setStr p str) target).map fun e => (e, none)
    | _ => some (e, some (.ErrValueTypeMismatch mismatch))
  | .bool guard mismatch target =>
    let e := if guard then e.allocAncestor else e
    match value with
    | .bool b => (e.assign (fun p s => s.setBool p b) target).map fun e => (e, none)
    | _ =>
      (e.assign (fun p s => s.setBool p false) target).map fun e =>
        (e, some (.ErrValueTypeMismatch mismatch))

/-! ## The generated tables -/

/-- The field names listed by `Event.GetFields`, in source order. -/
def GetFields : List String := [
  "capset.cap_effective",
  "capset.cap_permitted",
  "chmod.file.container_path",
  "chmod.file.destination.mode",
  "chmod.file.filesystem",
  "chmod.file.gid",
  "chmod.file.group",
  "chmod.file.in_upper_layer",
  "chmod.file.inode",
  "chmod.file.mode",
  "chmod.file.mount_id",
  "chmod.file.name",
  "chmod.file.path",
  "chmod.file.uid",
  "chmod.file.user",
  "chmod.retval",
  "chown.file.container_path",
  "chown.file.destination.gid",
  "chown.file.destination.group",
  "chown.file.destination.uid",
  "chown.file.destination.user",
  "chown.file.filesystem",
  "chown.file.gid",
  "chown.file.group",
  "chown.file.in_upper_layer",
  "chown.file.inode",
  "chown.file.mode",
  "chown.file.mount_id",
  "chown.file.name",
  "chown.file.path",
  "chown.file.uid",
  "chown.file.user",
  "chown.retval",
  "container.id",
  "exec.args",
  "exec.args_truncated",
  "exec.cap_effective",
  "exec.cap_permitted",
  "exec.comm",
  "exec.cookie",
  "exec.egid",
  "exec.egroup",
  "exec.envs",
  "exec.envs_truncated",
  "exec.euid",
  "exec.euser",
  "exec.file.container_path",
  "exec.file.filesystem",
  "exec.file.gid",
  "exec.file.group",
  "exec.file.inode",
  "exec.file.mode",
  "exec.file.mount_id",
  "exec.file.name",
  "exec.file.path",
  "exec.file.uid",
  "exec.file.user",
  "exec.fsgid",
  "exec.fsgroup",
  "exec.fsuid",
  "exec.fsuser",
  "exec.gid",
  "exec.group",
  "exec.ppid",
  "exec.tty_name",
  "exec.uid",
  "exec.user",
  "link.file.container_path",
  "link.file.destination.container_path",
  "link.file.destination.filesystem",
  "link.file.destination.gid",
  "link.file.destination.group",
  "link.file.destination.in_upper_layer",
  "link.file.destination.inode",
  "link.file.destination.mode",
  "link.file.destination.mount_id",
  "link.file.destination.name",
  "link.file.destination.path",
  "link.file.destination.uid",
  "link.file.destination.user",
  "link.file.filesystem",
  "link.file.gid",
  "link.file.group",
  "link.file.in_upper_layer",
  "link.file.inode",
  "link.file.mode",
  "link.file.mount_id",
  "link.file.name",
  "link.file.path",
  "link.file.uid",
  "link.file.user",
  "link.retval",
  "mkdir.file.container_path",
  "mkdir.file.destination.mode",
  "mkdir.file.filesystem",
  "mkdir.file.gid",
  "mkdir.file.group",
  "mkdir.file.in_upper_layer",
  "mkdir.file.inode",
  "mkdir.file.mode",
  "mkdir.file.mount_id",
  "mkdir.file.name",
  "mkdir.file.path",
  "mkdir.file.uid",
  "mkdir.file.user",
  "mkdir.retval",
  "open.file.container_path",
  "open.file.destination.mode",
  "open.file.filesystem",
  "open.file.gid",
  "open.file.group",
  "open.file.in_upper_layer",
  "open.file.inode",
  "open.file.mode",
  "open.file.mount_id",
  "open.file.name",
  "open.file.path",
  "open.file.uid",
  "open.file.user",
  "open.flags",
  "open.retval",
  "process.ancestors.cap_effective",
  "process.ancestors.cap_permitted",
  "process.ancestors.comm",
  "process.ancestors.cookie",
  "process.ancestors.egid",
  "process.ancestors.egroup",
  "process.ancestors.euid",
  "process.ancestors.euser",
  "process.ancestors.file.container_path",
  "process.ancestors.file.filesystem",
  "process.ancestors.file.gid",
  "process.ancestors.file.group",
  "process.ancestors.file.inode",
  "process.ancestors.file.mode",
  "process.ancestors.file.mount_id",
  "process.ancestors.file.name",
  "process.ancestors.file.path",
  "process.ancestors.file.uid",
  "process.ancestors.file.user",
  "process.ancestors.fsgid",
  "process.ancestors.fsgroup",
  "process.ancestors.fsuid",
  "process.ancestors.fsuser",
  "process.ancestors.gid",
  "process.ancestors.group",
  "process.ancestors.id",
  "process.ancestors.pid",
  "process.ancestors.ppid",
  "process.ancestors.tid",
  "process.ancestors.tty_name",
  "process.ancestors.uid",
  "process.ancestors.user",
  "process.cap_effective",
  "process.cap_permitted",
  "process.comm",
  "process.cookie",
  "process.egid",
  "process.egroup",
  "process.euid",
  "process.euser",
  "process.file.container_path",
  "process.file.filesystem",
  "process.file.gid",
  "process.file.group",
  "process.file.inode",
  "process.file.mode",
  "process.file.mount_id",
  "process.file.name",
  "process.file.path",
  "process.file.uid",
  "process.file.user",
  "process.fsgid",
  "process.fsgroup",
  "process.fsuid",
  "process.fsuser",
  "process.gid",
  "process.group",
  "process.pid",
  "process.ppid",
  "process.tid",
  "process.tty_name",
  "process.uid",
  "process.user",
  "removexattr.file.container_path",
  "removexattr.file.destination.name",
  "removexattr.file.destination.namespace",
  "removexattr.file.filesystem",
  "removexattr.file.gid",
  "removexattr.file.group",
  "removexattr.file.in_upper_layer",
  "removexattr.file.inode",
  "removexattr.file.mode",
  "removexattr.file.mount_id",
  "removexattr.file.name",
  "removexattr.file.path",
  "removexattr.file.uid",
  "removexattr.file.user",
  "removexattr.retval",
  "rename.file.container_path",
  "rename.file.destination.container_path",
  "rename.file.destination.filesystem",
  "rename.file.destination.gid",
  "rename.file.destination.group",
  "rename.file.destination.in_upper_layer",
  "rename.file.destination.inode",
  "rename.file.destination.mode",
  "rename.file.destination.mount_id",
  "rename.file.destination.name",
  "rename.file.destination.path",
  "rename.file.destination.uid",
  "rename.file.destination.user",
  "rename.file.filesystem",
  "rename.file.gid",
  "rename.file.group",
  "rename.file.in_upper_layer",
  "rename.file.inode",
  "rename.file.mode",
  "rename.file.mount_id",
  "rename.file.name",
  "rename.file.path",
  "rename.file.uid",
  "rename.file.user",
  "rename.retval",
  "rmdir.file.container_path",
  "rmdir.file.filesystem",
  "rmdir.file.gid",
  "rmdir.file.group",
  "rmdir.file.in_upper_layer",
  "rmdir.file.inode",
  "rmdir.file.mode",
  "rmdir.file.mount_id",
  "rmdir.file.name",
  "rmdir.file.path",
  "rmdir.file.uid",
  "rmdir.file.user",
  "rmdir.retval",
  "setgid.egid",
  "setgid.egroup",
  "setgid.fsgid",
  "setgid.fsgroup",
  "setgid.gid",
  "setgid.group",
  "setuid.euid",
  "setuid.euser",
  "setuid.fsuid",
  "setuid.fsuser",
  "setuid.uid",
  "setuid.user",
  "setxattr.file.container_path",
  "setxattr.file.destination.name",
  "setxattr.file.destination.namespace",
  "setxattr.file.filesystem",
  "setxattr.file.gid",
  "setxattr.file.group",
  "setxattr.file.in_upper_layer",
  "setxattr.file.inode",
  "setxattr.file.mode",
  "setxattr.file.mount_id",
  "setxattr.file.name",
  "setxattr.file.path",
  "setxattr.file.uid",
  "setxattr.file.user",
  "setxattr.retval",
  "unlink.file.container_path",
  "unlink.file.filesystem",
  "unlink.file.gid",
  "unlink.file.group",
  "unlink.file.in_upper_layer",
  "unlink.file.inode",
  "unlink.file.mode",
  "unlink.file.mount_id",
  "unlink.file.name",
  "unlink.file.path",
  "unlink.file.uid",
  "unlink.file.user",
  "unlink.retval",
  "utimes.file.container_path",
  "utimes.file.filesystem",
  "utimes.file.gid",
  "utimes.file.group",
  "utimes.file.in_upper_layer",
  "utimes.file.inode",
  "utimes.file.mode",
  "utimes.file.mount_id",
  "utimes.file.name",
  "utimes.file.path",
  "utimes.file.uid",
  "utimes.file.user",
  "utimes.retval"]

/-- The `case` arms of the switch in `Model.GetEvaluator`, in source order. -/
def GetEvaluatorCases : List (String × EvalCase) := [
  ("capset.cap_effective", EvalCase.IntEvaluator (Expr.attr "Capset.CapEffective") Weight.FunctionWeight),
  ("capset.cap_permitted", EvalCase.IntEvaluator (Expr.attr "Capset.CapPermitted") Weight.FunctionWeight),
  ("chmod.file.container_path", EvalCase.StringEvaluator (Expr.resolve "ResolveFileContainerPath" "Chmod.File") Weight.HandlerWeight),
  ("chmod.file.destination.mode", EvalCase.IntEvaluator (Expr.attr "Chmod.Mode") Weight.FunctionWeight),
  ("chmod.file.filesystem", EvalCase.StringEvaluator (Expr.resolve "ResolveFileFilesystem" "Chmod.File") Weight.HandlerWeight),
  ("chmod.file.gid", EvalCase.IntEvaluator (Expr.attr "Chmod.File.FileFields.GID") Weight.FunctionWeight),
  ("chmod.file.group", EvalCase.StringEvaluator (Expr.resolve "ResolveGroup" "Chmod.File.FileFields") Weight.HandlerWeight),
  ("chmod.file.in_upper_layer", EvalCase.BoolEvaluator (Expr.resolve "ResolveFileInUpperLayer" "Chmod.File") Weight.HandlerWeight),
  ("chmod.file.inode", EvalCase.IntEvaluator (Expr.attr "Chmod.File.FileFields.Inode") Weight.FunctionWeight),
  ("chmod.file.mode", EvalCase.IntEvaluator (Expr.attr "Chmod.File.FileFields.Mode") Weight.FunctionWeight),
  ("chmod.file.mount_id", EvalCase.IntEvaluator (Expr.attr "Chmod.File.FileFields.MountID") Weight.FunctionWeight),
  ("chmod.file.name", EvalCase.StringEvaluator (Expr.resolve "ResolveFileBasename" "Chmod.File") Weight.HandlerWeight),
  ("chmod.file.path", EvalCase.StringEvaluator (Expr.resolve "ResolveFileInode" "Chmod.File") Weight.HandlerWeight),
  ("chmod.file.uid", EvalCase.IntEvaluator (Expr.attr "Chmod.File.FileFields.UID") Weight.FunctionWeight),
  ("chmod.file.user", EvalCase.StringEvaluator (Expr.resolve "ResolveUser" "Chmod.File.FileFields") Weight.HandlerWeight),
  ("chmod.retval", EvalCase.IntEvaluator (Expr.attr "Chmod.SyscallEvent.Retval") Weight.FunctionWeight),
  ("chown.file.container_path", EvalCase.StringEvaluator (Expr.resolve "ResolveFileContainerPath" "Chown.File") Weight.HandlerWeight),
  ("chown.file.destination.gid", EvalCase.IntEvaluator (Expr.attr "Chown.GID") Weight.FunctionWeight),
  ("chown.file.destination.group", EvalCase.StringEvaluator (Expr.resolve "ResolveChownGID" "Chown") Weight.HandlerWeight),
  ("chown.file.destination.uid", EvalCase.IntEvaluator (Expr.attr "Chown.UID") Weight.FunctionWeight),
  ("chown.file.destination.user", EvalCase.StringEvaluator (Expr.resolve "ResolveChownUID" "Chown") Weight.HandlerWeight),
  ("chown.file.filesystem", EvalCase.StringEvaluator (Expr.resolve "ResolveFileFilesystem" "Chown.File") Weight.HandlerWeight),
  ("chown.file.gid", EvalCase.IntEvaluator (Expr.attr "Chown.File.FileFields.GID") Weight.FunctionWeight),
  ("chown.file.group", EvalCase.StringEvaluator (Expr.resolve "ResolveGroup" "Chown.File.FileFields") Weight.HandlerWeight),
  ("chown.file.in_upper_layer", EvalCase.BoolEvaluator (Expr.resolve "ResolveFileInUpperLayer" "Chown.File") Weight.HandlerWeight),
  ("chown.file.inode", EvalCase.IntEvaluator (Expr.attr "Chown.File.FileFields.Inode") Weight.FunctionWeight),
  ("chown.file.mode", EvalCase.IntEvaluator (Expr.attr "Chown.File.FileFields.Mode") Weight.FunctionWeight),
  ("chown.file.mount_id", EvalCase.IntEvaluator (Expr.attr "Chown.File.FileFields.MountID") Weight.FunctionWeight),
  ("chown.file.name", EvalCase.StringEvaluator (Expr.resolve "ResolveFileBasename" "Chown.File") Weight.HandlerWeight),
  ("chown.file.path", EvalCase.StringEvaluator (Expr.resolve "ResolveFileInode" "Chown.File") Weight.HandlerWeight),
  ("chown.file.uid", EvalCase.IntEvaluator (Expr.attr "Chown.File.FileFields.UID") Weight.FunctionWeight),
  ("chown.file.user", EvalCase.StringEvaluator (Expr.resolve "ResolveUser" "Chown.File.FileFields") Weight.HandlerWeight),
  ("chown.retval", EvalCase.IntEvaluator (Expr.attr "Chown.SyscallEvent.Retval") Weight.FunctionWeight),
  ("container.id", EvalCase.StringEvaluator (Expr.resolve "ResolveContainerID" "ContainerContext") Weight.HandlerWeight),
  ("exec.args", EvalCase.StringEvaluator (Expr.resolve "ResolveExecArgs" "Exec") Weight.HandlerWeight),
  ("exec.args_truncated", EvalCase.BoolEvaluator (Expr.attr "Exec.ArgsTruncated") Weight.FunctionWeight),
  ("exec.cap_effective", EvalCase.IntEvaluator (Expr.resolve "ResolveCredentialsCapEffective" "Exec.Process.Credentials") Weight.HandlerWeight),
  ("exec.cap_permitted", EvalCase.IntEvaluator (Expr.resolve "ResolveCredentialsCapPermitted" "Exec.Process.Credentials") Weight.HandlerWeight),
  ("exec.comm", EvalCase.StringEvaluator (Expr.resolve "ResolveProcessComm" "Exec.Process") Weight.HandlerWeight),
  ("exec.cookie", EvalCase.IntEvaluator (Expr.resolve "ResolveProcessCookie" "Exec.Process") Weight.HandlerWeight),
  ("exec.egid", EvalCase.IntEvaluator (Expr.resolve "ResolveCredentialsEGID" "Exec.Process.Credentials") Weight.HandlerWeight),
  ("exec.egroup", EvalCase.StringEvaluator (Expr.resolve "ResolveCredentialsEGroup" "Exec.Process.Credentials") Weight.HandlerWeight),
  ("exec.envs", EvalCase.StringEvaluator (Expr.resolve "ResolveExecEnvs" "Exec") Weight.HandlerWeight),
  ("exec.envs_truncated", EvalCase.BoolEvaluator (Expr.attr "Exec.EnvsTruncated") Weight.FunctionWeight),
  ("exec.euid", EvalCase.IntEvaluator (Expr.resolve "ResolveCredentialsEUID" "Exec.Process.Credentials") Weight.HandlerWeight),
  ("exec.euser", EvalCase.StringEvaluator (Expr.resolve "ResolveCredentialsEUser" "Exec.Process.Credentials") Weight.HandlerWeight),
  ("exec.file.container_path", EvalCase.StringEvaluator (Expr.resolve "ResolveProcessContainerPath" "Exec.Process") Weight.HandlerWeight),
  ("exec.file.filesystem", EvalCase.StringEvaluator (Expr.resolve "ResolveProcessFilesystem" "Exec.Process") Weight.HandlerWeight),
  ("exec.file.gid", EvalCase.IntEvaluator (Expr.attr "Exec.Process.FileFields.GID") Weight.FunctionWeight),
  ("exec.file.group", EvalCase.StringEvaluator (Expr.resolve "ResolveGroup" "Exec.Process.FileFields") Weight.HandlerWeight),
  ("exec.file.inode", EvalCase.IntEvaluator (Expr.attr "Exec.Process.FileFields.Inode") Weight.FunctionWeight),
  ("exec.file.mode", EvalCase.IntEvaluator (Expr.attr "Exec.Process.FileFields.Mode") Weight.FunctionWeight),
  ("exec.file.mount_id", EvalCase.IntEvaluator (Expr.attr "Exec.Process.FileFields.MountID") Weight.FunctionWeight),
  ("exec.file.name", EvalCase.StringEvaluator (Expr.resolve "ResolveProcessBasename" "Exec.Process") Weight.HandlerWeight),
  ("exec.file.path", EvalCase.StringEvaluator (Expr.resolve "ResolveProcessInode" "Exec.Process") Weight.HandlerWeight),
  ("exec.file.uid", EvalCase.IntEvaluator (Expr.attr "Exec.Process.FileFields.UID") Weight.FunctionWeight),
  ("exec.file.user", EvalCase.StringEvaluator (Expr.resolve "ResolveUser" "Exec.Process.FileFields") Weight.HandlerWeight),
  ("exec.fsgid", EvalCase.IntEvaluator (Expr.resolve "ResolveCredentialsFSGID" "Exec.Process.Credentials") Weight.HandlerWeight),
  ("exec.fsgroup", EvalCase.StringEvaluator (Expr.resolve "ResolveCredentialsFSGroup" "Exec.Process.Credentials") Weight.HandlerWeight),
  ("exec.fsuid", EvalCase.IntEvaluator (Expr.resolve "ResolveCredentialsFSUID" "Exec.Process.Credentials") Weight.HandlerWeight),
  ("exec.fsuser", EvalCase.StringEvaluator (Expr.resolve "ResolveCredentialsFSUser" "Exec.Process.Credentials") Weight.HandlerWeight),
  ("exec.gid", EvalCase.IntEvaluator (Expr.resolve "ResolveCredentialsGID" "Exec.Process.Credentials") Weight.HandlerWeight),
  ("exec.group", EvalCase.StringEvaluator (Expr.resolve "ResolveCredentialsGroup" "Exec.Process.Credentials") Weight.HandlerWeight),
  ("exec.ppid", EvalCase.IntEvaluator (Expr.resolve "ResolveProcessPPID" "Exec.Process") Weight.HandlerWeight),
  ("exec.tty_name", EvalCase.StringEvaluator (Expr.resolve "ResolveProcessTTY" "Exec.Process") Weight.HandlerWeight),
  ("exec.uid", EvalCase.IntEvaluator (Expr.resolve "ResolveCredentialsUID" "Exec.Process.Credentials") Weight.HandlerWeight),
  ("exec.user", EvalCase.StringEvaluator (Expr.resolve "ResolveCredentialsUser" "Exec.Process.Credentials") Weight.HandlerWeight),
  ("link.file.container_path", EvalCase.StringEvaluator (Expr.resolve "ResolveFileContainerPath" "Link.Source") Weight.HandlerWeight),
  ("link.file.destination.container_path", EvalCase.StringEvaluator (Expr.resolve "ResolveFileContainerPath" "Link.Target") Weight.HandlerWeight),
  ("link.file.destination.filesystem", EvalCase.StringEvaluator (Expr.resolve "ResolveFileFilesystem" "Link.Target") Weight.HandlerWeight),
  ("link.file.destination.gid", EvalCase.IntEvaluator (Expr.attr "Link.Target.FileFields.GID") Weight.FunctionWeight),
  ("link.file.destination.group", EvalCase.StringEvaluator (Expr.resolve "ResolveGroup" "Link.Target.FileFields") Weight.HandlerWeight),
  ("link.file.destination.in_upper_layer", EvalCase.BoolEvaluator (Expr.resolve "ResolveFileInUpperLayer" "Link.Target") Weight.HandlerWeight),
  ("link.file.destination.inode", EvalCase.IntEvaluator (Expr.attr "Link.Target.FileFields.Inode") Weight.FunctionWeight),
  ("link.file.destination.mode", EvalCase.IntEvaluator (Expr.attr "Link.Target.FileFields.Mode") Weight.FunctionWeight),
  ("link.file.destination.mount_id", EvalCase.IntEvaluator (Expr.attr "Link.Target.FileFields.MountID") Weight.FunctionWeight),
  ("link.file.destination.name", EvalCase.StringEvaluator (Expr.resolve "ResolveFileBasename" "Link.Target") Weight.HandlerWeight),
  ("link.file.destination.path", EvalCase.StringEvaluator (Expr.resolve "ResolveFileInode" "Link.Target") Weight.HandlerWeight),
  ("link.file.destination.uid", EvalCase.IntEvaluator (Expr.attr "Link.Target.FileFields.UID") Weight.FunctionWeight),
  ("link.file.destination.user", EvalCase.StringEvaluator (Expr.resolve "ResolveUser" "Link.Target.FileFields") Weight.HandlerWeight),
  ("link.file.filesystem", EvalCase.StringEvaluator (Expr.resolve "ResolveFileFilesystem" "Link.Source") Weight.HandlerWeight),
  ("link.file.gid", EvalCase.IntEvaluator (Expr.attr "Link.Source.FileFields.GID") Weight.FunctionWeight),
  ("link.file.group", EvalCase.StringEvaluator (Expr.resolve "ResolveGroup" "Link.Source.FileFields") Weight.HandlerWeight),
  ("link.file.in_upper_layer", EvalCase.BoolEvaluator (Expr.resolve "ResolveFileInUpperLayer" "Link.Source") Weight.HandlerWeight),
  ("link.file.inode", EvalCase.IntEvaluator (Expr.attr "Link.Source.FileFields.Inode") Weight.FunctionWeight),
  ("link.file.mode", EvalCase.IntEvaluator (Expr.attr "Link.Source.FileFields.Mode") Weight.FunctionWeight),
  ("link.file.mount_id", EvalCase.IntEvaluator (Expr.attr "Link.Source.FileFields.MountID") Weight.FunctionWeight),
  ("link.file.name", EvalCase.StringEvaluator (Expr.resolve "ResolveFileBasename" "Link.Source") Weight.HandlerWeight),
  ("link.file.path", EvalCase.StringEvaluator (Expr.resolve "ResolveFileInode" "Link.Source") Weight.HandlerWeight),
  ("link.file.uid", EvalCase.IntEvaluator (Expr.attr "Link.Source.FileFields.UID") Weight.FunctionWeight),
  ("link.file.user", EvalCase.StringEvaluator (Expr.resolve "ResolveUser" "Link.Source.FileFields") Weight.HandlerWeight),
  ("link.retval", EvalCase.IntEvaluator (Expr.attr "Link.SyscallEvent.Retval") Weight.FunctionWeight),
  ("mkdir.file.container_path", EvalCase.StringEvaluator (Expr.resolve "ResolveFileContainerPath" "Mkdir.File") Weight.HandlerWeight),
  ("mkdir.file.destination.mode", EvalCase.IntEvaluator (Expr.attr "Mkdir.Mode") Weight.FunctionWeight),
  ("mkdir.file.filesystem", EvalCase.StringEvaluator (Expr.resolve "ResolveFileFilesystem" "Mkdir.File") Weight.HandlerWeight),
  ("mkdir.file.gid", EvalCase.IntEvaluator (Expr.attr "Mkdir.File.FileFields.GID") Weight.FunctionWeight),
  ("mkdir.file.group", EvalCase.StringEvaluator (Expr.resolve "ResolveGroup" "Mkdir.File.FileFields") Weight.HandlerWeight),
  ("mkdir.file.in_upper_layer", EvalCase.BoolEvaluator (Expr.resolve "ResolveFileInUpperLayer" "Mkdir.File") Weight.HandlerWeight),
  ("mkdir.file.inode", EvalCase.IntEvaluator (Expr.attr "Mkdir.File.FileFields.Inode") Weight.FunctionWeight),
  ("mkdir.file.mode", EvalCase.IntEvaluator (Expr.attr "Mkdir.File.FileFields.Mode") Weight.FunctionWeight),
  ("mkdir.file.mount_id", EvalCase.IntEvaluator (Expr.attr "Mkdir.File.FileFields.MountID") Weight.FunctionWeight),
  ("mkdir.file.name", EvalCase.StringEvaluator (Expr.resolve "ResolveFileBasename" "Mkdir.File") Weight.HandlerWeight),
  ("mkdir.file.path", EvalCase.StringEvaluator (Expr.resolve "ResolveFileInode" "Mkdir.File") Weight.HandlerWeight),
  ("mkdir.file.uid", EvalCase.IntEvaluator (Expr.attr "Mkdir.File.FileFields.UID") Weight.FunctionWeight),
  ("mkdir.file.user", EvalCase.StringEvaluator (Expr.resolve "ResolveUser" "Mkdir.File.FileFields") Weight.HandlerWeight),
  ("mkdir.retval", EvalCase.IntEvaluator (Expr.attr "Mkdir.SyscallEvent.Retval") Weight.FunctionWeight),
  ("open.file.container_path", EvalCase.StringEvaluator (Expr.resolve "ResolveFileContainerPath" "Open.File") Weight.HandlerWeight),
  ("open.file.destination.mode", EvalCase.IntEvaluator (Expr.attr "Open.Mode") Weight.FunctionWeight),
  ("open.file.filesystem", EvalCase.StringEvaluator (Expr.resolve "ResolveFileFilesystem" "Open.File") Weight.HandlerWeight),
  ("open.file.gid", EvalCase.IntEvaluator (Expr.attr "Open.File.FileFields.GID") Weight.FunctionWeight),
  ("open.file.group", EvalCase.StringEvaluator (Expr.resolve "ResolveGroup" "Open.File.FileFields") Weight.HandlerWeight),
  ("open.file.in_upper_layer", EvalCase.BoolEvaluator (Expr.resolve "ResolveFileInUpperLayer" "Open.File") Weight.HandlerWeight),
  ("open.file.inode", EvalCase.IntEvaluator (Expr.attr "Open.File.FileFields.Inode") Weight.FunctionWeight),
  ("open.file.mode", EvalCase.IntEvaluator (Expr.attr "Open.File.FileFields.Mode") Weight.FunctionWeight),
  ("open.file.mount_id", EvalCase.IntEvaluator (Expr.attr "Open.File.FileFields.MountID") Weight.FunctionWeight),
  ("open.file.name", EvalCase.StringEvaluator (Expr.resolve "ResolveFileBasename" "Open.File") Weight.HandlerWeight),
  ("open.file.path", EvalCase.StringEvaluator (Expr.resolve "ResolveFileInode" "Open.File") Weight.HandlerWeight),
  ("open.file.uid", EvalCase.IntEvaluator (Expr.attr "Open.File.FileFields.UID") Weight.FunctionWeight),
  ("open.file.user", EvalCase.StringEvaluator (Expr.resolve "ResolveUser" "Open.File.FileFields") Weight.HandlerWeight),
  ("open.flags", EvalCase.IntEvaluator (Expr.attr "Open.Flags") Weight.FunctionWeight),
  ("open.retval", EvalCase.IntEvaluator (Expr.attr "Open.SyscallEvent.Retval") Weight.FunctionWeight),
  ("process.ancestors.cap_effective", EvalCase.IntArrayEvaluator (Expr.resolve "ResolveCredentialsCapEffective" "Credentials") Weight.IteratorWeight),
  ("process.ancestors.cap_permitted", EvalCase.IntArrayEvaluator (Expr.resolve "ResolveCredentialsCapPermitted" "Credentials") Weight.IteratorWeight),
  ("process.ancestors.comm", EvalCase.StringArrayEvaluator (Expr.resolve "ResolveProcessComm" "Process") Weight.IteratorWeight),
  ("process.ancestors.cookie", EvalCase.IntArrayEvaluator (Expr.resolve "ResolveProcessCookie" "Process") Weight.IteratorWeight),
  ("process.ancestors.egid", EvalCase.IntArrayEvaluator (Expr.resolve "ResolveCredentialsEGID" "Credentials") Weight.IteratorWeight),
  ("process.ancestors.egroup", EvalCase.StringArrayEvaluator (Expr.resolve "ResolveCredentialsEGroup" "Credentials") Weight.IteratorWeight),
  ("process.ancestors.euid", EvalCase.IntArrayEvaluator (Expr.resolve "ResolveCredentialsEUID" "Credentials") Weight.IteratorWeight),
  ("process.ancestors.euser", EvalCase.StringArrayEvaluator (Expr.resolve "ResolveCredentialsEUser" "Credentials") Weight.IteratorWeight),
  ("process.ancestors.file.container_path", EvalCase.StringArrayEvaluator (Expr.resolve "ResolveProcessContainerPath" "Process") Weight.IteratorWeight),
  ("process.ancestors.file.filesystem", EvalCase.StringArrayEvaluator (Expr.resolve "ResolveProcessFilesystem" "Process") Weight.IteratorWeight),
  ("process.ancestors.file.gid", EvalCase.IntArrayEvaluator (Expr.attr "ProcessContext.Process.FileFields.GID") Weight.IteratorWeight),
  ("process.ancestors.file.group", EvalCase.StringArrayEvaluator (Expr.resolve "ResolveGroup" "FileFields") Weight.IteratorWeight),
  ("process.ancestors.file.inode", EvalCase.IntArrayEvaluator (Expr.attr "ProcessContext.Process.FileFields.Inode") Weight.IteratorWeight),
  ("process.ancestors.file.mode", EvalCase.IntArrayEvaluator (Expr.attr "ProcessContext.Process.FileFields.Mode") Weight.IteratorWeight),
  ("process.ancestors.file.mount_id", EvalCase.IntArrayEvaluator (Expr.attr "ProcessContext.Process.FileFields.MountID") Weight.IteratorWeight),
  ("process.ancestors.file.name", EvalCase.StringArrayEvaluator (Expr.resolve "ResolveProcessBasename" "Process") Weight.IteratorWeight),
  ("process.ancestors.file.path", EvalCase.StringArrayEvaluator (Expr.resolve "ResolveProcessInode" "Process") Weight.IteratorWeight),
  ("process.ancestors.file.uid", EvalCase.IntArrayEvaluator (Expr.attr "ProcessContext.Process.FileFields.UID") Weight.IteratorWeight),
  ("process.ancestors.file.user", EvalCase.StringArrayEvaluator (Expr.resolve "ResolveUser" "FileFields") Weight.IteratorWeight),
  ("process.ancestors.fsgid", EvalCase.IntArrayEvaluator (Expr.resolve "ResolveCredentialsFSGID" "Credentials") Weight.IteratorWeight),
  ("process.ancestors.fsgroup", EvalCase.StringArrayEvaluator (Expr.resolve "ResolveCredentialsFSGroup" "Credentials") Weight.IteratorWeight),
  ("process.ancestors.fsuid", EvalCase.IntArrayEvaluator (Expr.resolve "ResolveCredentialsFSUID" "Credentials") Weight.IteratorWeight),
  ("process.ancestors.fsuser", EvalCase.StringArrayEvaluator (Expr.resolve "ResolveCredentialsFSUser" "Credentials") Weight.IteratorWeight),
  ("process.ancestors.gid", EvalCase.IntArrayEvaluator (Expr.resolve "ResolveCredentialsGID" "Credentials") Weight.IteratorWeight),
  ("process.ancestors.group", EvalCase.StringArrayEvaluator (Expr.resolve "ResolveCredentialsGroup" "Credentials") Weight.IteratorWeight),
  ("process.ancestors.id", EvalCase.StringArrayEvaluator (Expr.resolve "ResolveContainerID" "ContainerContext") Weight.IteratorWeight),
  ("process.ancestors.pid", EvalCase.IntArrayEvaluator (Expr.attr "ProcessContext.Pid") Weight.IteratorWeight),
  ("process.ancestors.ppid", EvalCase.IntArrayEvaluator (Expr.resolve "ResolveProcessPPID" "Process") Weight.IteratorWeight),
  ("process.ancestors.tid", EvalCase.IntArrayEvaluator (Expr.attr "ProcessContext.Tid") Weight.IteratorWeight),
  ("process.ancestors.tty_name", EvalCase.StringArrayEvaluator (Expr.resolve "ResolveProcessTTY" "Process") Weight.IteratorWeight),
  ("process.ancestors.uid", EvalCase.IntArrayEvaluator (Expr.resolve "ResolveCredentialsUID" "Credentials") Weight.IteratorWeight),
  ("process.ancestors.user", EvalCase.StringArrayEvaluator (Expr.resolve "ResolveCredentialsUser" "Credentials") Weight.IteratorWeight),
  ("process.cap_effective", EvalCase.IntEvaluator (Expr.resolve "ResolveCredentialsCapEffective" "ProcessContext.Process.Credentials") Weight.HandlerWeight),
  ("process.cap_permitted", EvalCase.IntEvaluator (Expr.resolve "ResolveCredentialsCapPermitted" "ProcessContext.Process.Credentials") Weight.HandlerWeight),
  ("process.comm", EvalCase.StringEvaluator (Expr.resolve "ResolveProcessComm" "ProcessContext.Process") Weight.HandlerWeight),
  ("process.cookie", EvalCase.IntEvaluator (Expr.resolve "ResolveProcessCookie" "ProcessContext.Process") Weight.HandlerWeight),
  ("process.egid", EvalCase.IntEvaluator (Expr.resolve "ResolveCredentialsEGID" "ProcessContext.Process.Credentials") Weight.HandlerWeight),
  ("process.egroup", EvalCase.StringEvaluator (Expr.resolve "ResolveCredentialsEGroup" "ProcessContext.Process.Credentials") Weight.HandlerWeight),
  ("process.euid", EvalCase.IntEvaluator (Expr.resolve "ResolveCredentialsEUID" "ProcessContext.Process.Credentials") Weight.HandlerWeight),
  ("process.euser", EvalCase.StringEvaluator (Expr.resolve "ResolveCredentialsEUser" "ProcessContext.Process.Credentials") Weight.HandlerWeight),
  ("process.file.container_path", EvalCase.StringEvaluator (Expr.resolve "ResolveProcessContainerPath" "ProcessContext.Process") Weight.HandlerWeight),
  ("process.file.filesystem", EvalCase.StringEvaluator (Expr.resolve "ResolveProcessFilesystem" "ProcessContext.Process") Weight.HandlerWeight),
  ("process.file.gid", EvalCase.IntEvaluator (Expr.attr "ProcessContext.Process.FileFields.GID") Weight.FunctionWeight),
  ("process.file.group", EvalCase.StringEvaluator (Expr.resolve "ResolveGroup" "ProcessContext.Process.FileFields") Weight.HandlerWeight),
  ("process.file.inode", EvalCase.IntEvaluator (Expr.attr "ProcessContext.Process.FileFields.Inode") Weight.FunctionWeight),
  ("process.file.mode", EvalCase.IntEvaluator (Expr.attr "ProcessContext.Process.FileFields.Mode") Weight.FunctionWeight),
  ("process.file.mount_id", EvalCase.IntEvaluator (Expr.attr "ProcessContext.Process.FileFields.MountID") Weight.FunctionWeight),
  ("process.file.name", EvalCase.StringEvaluator (Expr.resolve "ResolveProcessBasename" "ProcessContext.Process") Weight.HandlerWeight),
  ("process.file.path", EvalCase.StringEvaluator (Expr.resolve "ResolveProcessInode" "ProcessContext.Process") Weight.HandlerWeight),
  ("process.file.uid", EvalCase.IntEvaluator (Expr.attr "ProcessContext.Process.FileFields.UID") Weight.FunctionWeight),
  ("process.file.user", EvalCase.StringEvaluator (Expr.resolve "ResolveUser" "ProcessContext.Process.FileFields") Weight.HandlerWeight),
  ("process.fsgid", EvalCase.IntEvaluator (Expr.resolve "ResolveCredentialsFSGID" "ProcessContext.Process.Credentials") Weight.HandlerWeight),
  ("process.fsgroup", EvalCase.StringEvaluator (Expr.resolve "ResolveCredentialsFSGroup" "ProcessContext.Process.Credentials") Weight.HandlerWeight),
  ("process.fsuid", EvalCase.IntEvaluator (Expr.resolve "ResolveCredentialsFSUID" "ProcessContext.Process.Credentials") Weight.HandlerWeight),
  ("process.fsuser", EvalCase.StringEvaluator (Expr.resolve "ResolveCredentialsFSUser" "ProcessContext.Process.Credentials") Weight.HandlerWeight),
  ("process.gid", EvalCase.IntEvaluator (Expr.resolve "ResolveCredentialsGID" "ProcessContext.Process.Credentials") Weight.HandlerWeight),
  ("process.group", EvalCase.StringEvaluator (Expr.resolve "ResolveCredentialsGroup" "ProcessContext.Process.Credentials") Weight.HandlerWeight),
  ("process.pid", EvalCase.IntEvaluator (Expr.attr "ProcessContext.Pid") Weight.FunctionWeight),
  ("process.ppid", EvalCase.IntEvaluator (Expr.resolve "ResolveProcessPPID" "ProcessContext.Process") Weight.HandlerWeight),
  ("process.tid", EvalCase.IntEvaluator (Expr.attr "ProcessContext.Tid") Weight.FunctionWeight),
  ("process.tty_name", EvalCase.StringEvaluator (Expr.resolve "ResolveProcessTTY" "ProcessContext.Process") Weight.HandlerWeight),
  ("process.uid", EvalCase.IntEvaluator (Expr.resolve "ResolveCredentialsUID" "ProcessContext.Process.Credentials") Weight.HandlerWeight),
  ("process.user", EvalCase.StringEvaluator (Expr.resolve "ResolveCredentialsUser" "ProcessContext.Process.Credentials") Weight.HandlerWeight),
  ("removexattr.file.container_path", EvalCase.StringEvaluator (Expr.resolve "ResolveFileContainerPath" "RemoveXAttr.File") Weight.HandlerWeight),
  ("removexattr.file.destination.name", EvalCase.StringEvaluator (Expr.resolve "GetXAttrName" "RemoveXAttr") Weight.HandlerWeight),
  ("removexattr.file.destination.namespace", EvalCase.StringEvaluator (Expr.resolve "GetXAttrNamespace" "RemoveXAttr") Weight.HandlerWeight),
  ("removexattr.file.filesystem", EvalCase.StringEvaluator (Expr.resolve "ResolveFileFilesystem" "RemoveXAttr.File") Weight.HandlerWeight),
  ("removexattr.file.gid", EvalCase.IntEvaluator (Expr.attr "RemoveXAttr.File.FileFields.GID") Weight.FunctionWeight),
  ("removexattr.file.group", EvalCase.StringEvaluator (Expr.resolve "ResolveGroup" "RemoveXAttr.File.FileFields") Weight.HandlerWeight),
  ("removexattr.file.in_upper_layer", EvalCase.BoolEvaluator (Expr.resolve "ResolveFileInUpperLayer" "RemoveXAttr.File") Weight.HandlerWeight),
  ("removexattr.file.inode", EvalCase.IntEvaluator (Expr.attr "RemoveXAttr.File.FileFields.Inode") Weight.FunctionWeight),
  ("removexattr.file.mode", EvalCase.IntEvaluator (Expr.attr "RemoveXAttr.File.FileFields.Mode") Weight.FunctionWeight),
  ("removexattr.file.mount_id", EvalCase.IntEvaluator (Expr.attr "RemoveXAttr.File.FileFields.MountID") Weight.FunctionWeight),
  ("removexattr.file.name", EvalCase.StringEvaluator (Expr.resolve "ResolveFileBasename" "RemoveXAttr.File") Weight.HandlerWeight),
  ("removexattr.file.path", EvalCase.StringEvaluator (Expr.resolve "ResolveFileInode" "RemoveXAttr.File") Weight.HandlerWeight),
  ("removexattr.file.uid", EvalCase.IntEvaluator (Expr.attr "RemoveXAttr.File.FileFields.UID") Weight.FunctionWeight),
  ("removexattr.file.user", EvalCase.StringEvaluator (Expr.resolve "ResolveUser" "RemoveXAttr.File.FileFields") Weight.HandlerWeight),
  ("removexattr.retval", EvalCase.IntEvaluator (Expr.attr "RemoveXAttr.SyscallEvent.Retval") Weight.FunctionWeight),
  ("rename.file.container_path", EvalCase.StringEvaluator (Expr.resolve "ResolveFileContainerPath" "Rename.Old") Weight.HandlerWeight),
  ("rename.file.destination.container_path", EvalCase.StringEvaluator (Expr.resolve "ResolveFileContainerPath" "Rename.New") Weight.HandlerWeight),
  ("rename.file.destination.filesystem", EvalCase.StringEvaluator (Expr.resolve "ResolveFileFilesystem" "Rename.New") Weight.HandlerWeight),
  ("rename.file.destination.gid", EvalCase.IntEvaluator (Expr.attr "Rename.New.FileFields.GID") Weight.FunctionWeight),
  ("rename.file.destination.group", EvalCase.StringEvaluator (Expr.resolve "ResolveGroup" "Rename.New.FileFields") Weight.HandlerWeight),
  ("rename.file.destination.in_upper_layer", EvalCase.BoolEvaluator (Expr.resolve "ResolveFileInUpperLayer" "Rename.New") Weight.HandlerWeight),
  ("rename.file.destination.inode", EvalCase.IntEvaluator (Expr.attr "Rename.New.FileFields.Inode") Weight.FunctionWeight),
  ("rename.file.destination.mode", EvalCase.IntEvaluator (Expr.attr "Rename.New.FileFields.Mode") Weight.FunctionWeight),
  ("rename.file.destination.mount_id", EvalCase.IntEvaluator (Expr.attr "Rename.New.FileFields.MountID") Weight.FunctionWeight),
  ("rename.file.destination.name", EvalCase.StringEvaluator (Expr.resolve "ResolveFileBasename" "Rename.New") Weight.HandlerWeight),
  ("rename.file.destination.path", EvalCase.StringEvaluator (Expr.resolve "ResolveFileInode" "Rename.New") Weight.HandlerWeight),
  ("rename.file.destination.uid", EvalCase.IntEvaluator (Expr.attr "Rename.New.FileFields.UID") Weight.FunctionWeight),
  ("rename.file.destination.user", EvalCase.StringEvaluator (Expr.resolve "ResolveUser" "Rename.New.FileFields") Weight.HandlerWeight),
  ("rename.file.filesystem", EvalCase.StringEvaluator (Expr.resolve "ResolveFileFilesystem" "Rename.Old") Weight.HandlerWeight),
  ("rename.file.gid", EvalCase.IntEvaluator (Expr.attr "Rename.Old.FileFields.GID") Weight.FunctionWeight),
  ("rename.file.group", EvalCase.StringEvaluator (Expr.resolve "ResolveGroup" "Rename.Old.FileFields") Weight.HandlerWeight),
  ("rename.file.in_upper_layer", EvalCase.BoolEvaluator (Expr.resolve "ResolveFileInUpperLayer" "Rename.Old") Weight.HandlerWeight),
  ("rename.file.inode", EvalCase.IntEvaluator (Expr.attr "Rename.Old.FileFields.Inode") Weight.FunctionWeight),
  ("rename.file.mode", EvalCase.IntEvaluator (Expr.attr "Rename.Old.FileFields.Mode") Weight.FunctionWeight),
  ("rename.file.mount_id", EvalCase.IntEvaluator (Expr.attr "Rename.Old.FileFields.MountID") Weight.FunctionWeight),
  ("rename.file.name", EvalCase.StringEvaluator (Expr.resolve "ResolveFileBasename" "Rename.Old") Weight.HandlerWeight),
  ("rename.file.path", EvalCase.StringEvaluator (Expr.resolve "ResolveFileInode" "Rename.Old") Weight.HandlerWeight),
  ("rename.file.uid", EvalCase.IntEvaluator (Expr.attr "Rename.Old.FileFields.UID") Weight.FunctionWeight),
  ("rename.file.user", EvalCase.StringEvaluator (Expr.resolve "ResolveUser" "Rename.Old.FileFields") Weight.HandlerWeight),
  ("rename.retval", EvalCase.IntEvaluator (Expr.attr "Rename.SyscallEvent.Retval") Weight.FunctionWeight),
  ("rmdir.file.container_path", EvalCase.StringEvaluator (Expr.resolve "ResolveFileContainerPath" "Rmdir.File") Weight.HandlerWeight),
  ("rmdir.file.filesystem", EvalCase.StringEvaluator (Expr.resolve "ResolveFileFilesystem" "Rmdir.File") Weight.HandlerWeight),
  ("rmdir.file.gid", EvalCase.IntEvaluator (Expr.attr "Rmdir.File.FileFields.GID") Weight.FunctionWeight),
  ("rmdir.file.group", EvalCase.StringEvaluator (Expr.resolve "ResolveGroup" "Rmdir.File.FileFields") Weight.HandlerWeight),
  ("rmdir.file.in_upper_layer", EvalCase.BoolEvaluator (Expr.resolve "ResolveFileInUpperLayer" "Rmdir.File") Weight.HandlerWeight),
  ("rmdir.file.inode", EvalCase.IntEvaluator (Expr.attr "Rmdir.File.FileFields.Inode") Weight.FunctionWeight),
  ("rmdir.file.mode", EvalCase.IntEvaluator (Expr.attr "Rmdir.File.FileFields.Mode") Weight.FunctionWeight),
  ("rmdir.file.mount_id", EvalCase.IntEvaluator (Expr.attr "Rmdir.File.FileFields.MountID") Weight.FunctionWeight),
  ("rmdir.file.name", EvalCase.StringEvaluator (Expr.resolve "ResolveFileBasename" "Rmdir.File") Weight.HandlerWeight),
  ("rmdir.file.path", EvalCase.StringEvaluator (Expr.resolve "ResolveFileInode" "Rmdir.File") Weight.HandlerWeight),
  ("rmdir.file.uid", EvalCase.IntEvaluator (Expr.attr "Rmdir.File.FileFields.UID") Weight.FunctionWeight),
  ("rmdir.file.user", EvalCase.StringEvaluator (Expr.resolve "ResolveUser" "Rmdir.File.FileFields") Weight.HandlerWeight),
  ("rmdir.retval", EvalCase.IntEvaluator (Expr.attr "Rmdir.SyscallEvent.Retval") Weight.FunctionWeight),
  ("setgid.egid", EvalCase.IntEvaluator (Expr.attr "SetGID.EGID") Weight.FunctionWeight),
  ("setgid.egroup", EvalCase.StringEvaluator (Expr.resolve "ResolveSetgidEGroup" "SetGID") Weight.HandlerWeight),
  ("setgid.fsgid", EvalCase.IntEvaluator (Expr.attr "SetGID.FSGID") Weight.FunctionWeight),
  ("setgid.fsgroup", EvalCase.StringEvaluator (Expr.resolve "ResolveSetgidFSGroup" "SetGID") Weight.HandlerWeight),
  ("setgid.gid", EvalCase.IntEvaluator (Expr.attr "SetGID.GID") Weight.FunctionWeight),
  ("setgid.group", EvalCase.StringEvaluator (Expr.resolve "ResolveSetgidGroup" "SetGID") Weight.HandlerWeight),
  ("setuid.euid", EvalCase.IntEvaluator (Expr.attr "SetUID.EUID") Weight.FunctionWeight),
  ("setuid.euser", EvalCase.StringEvaluator (Expr.resolve "ResolveSetuidEUser" "SetUID") Weight.HandlerWeight),
  ("setuid.fsuid", EvalCase.IntEvaluator (Expr.attr "SetUID.FSUID") Weight.FunctionWeight),
  ("setuid.fsuser", EvalCase.StringEvaluator (Expr.resolve "ResolveSetuidFSUser" "SetUID") Weight.HandlerWeight),
  ("setuid.uid", EvalCase.IntEvaluator (Expr.attr "SetUID.UID") Weight.FunctionWeight),
  ("setuid.user", EvalCase.StringEvaluator (Expr.resolve "ResolveSetuidUser" "SetUID") Weight.HandlerWeight),
  ("setxattr.file.container_path", EvalCase.StringEvaluator (Expr.resolve "ResolveFileContainerPath" "SetXAttr.File") Weight.HandlerWeight),
  ("setxattr.file.destination.name", EvalCase.StringEvaluator (Expr.resolve "GetXAttrName" "SetXAttr") Weight.HandlerWeight),
  ("setxattr.file.destination.namespace", EvalCase.StringEvaluator (Expr.resolve "GetXAttrNamespace" "SetXAttr") Weight.HandlerWeight),
  ("setxattr.file.filesystem", EvalCase.StringEvaluator (Expr.resolve "ResolveFileFilesystem" "SetXAttr.File") Weight.HandlerWeight),
  ("setxattr.file.gid", EvalCase.IntEvaluator (Expr.attr "SetXAttr.File.FileFields.GID") Weight.FunctionWeight),
  ("setxattr.file.group", EvalCase.StringEvaluator (Expr.resolve "ResolveGroup" "SetXAttr.File.FileFields") Weight.HandlerWeight),
  ("setxattr.file.in_upper_layer", EvalCase.BoolEvaluator (Expr.resolve "ResolveFileInUpperLayer" "SetXAttr.File") Weight.HandlerWeight),
  ("setxattr.file.inode", EvalCase.IntEvaluator (Expr.attr "SetXAttr.File.FileFields.Inode") Weight.FunctionWeight),
  ("setxattr.file.mode", EvalCase.IntEvaluator (Expr.attr "SetXAttr.File.FileFields.Mode") Weight.FunctionWeight),
  ("setxattr.file.mount_id", EvalCase.IntEvaluator (Expr.attr "SetXAttr.File.FileFields.MountID") Weight.FunctionWeight),
  ("setxattr.file.name", EvalCase.StringEvaluator (Expr.resolve "ResolveFileBasename" "SetXAttr.File") Weight.HandlerWeight),
  ("setxattr.file.path", EvalCase.StringEvaluator (Expr.resolve "ResolveFileInode" "SetXAttr.File") Weight.HandlerWeight),
  ("setxattr.file.uid", EvalCase.IntEvaluator (Expr.attr "SetXAttr.File.FileFields.UID") Weight.FunctionWeight),
  ("setxattr.file.user", EvalCase.StringEvaluator (Expr.resolve "ResolveUser" "SetXAttr.File.FileFields") Weight.HandlerWeight),
  ("setxattr.retval", EvalCase.IntEvaluator (Expr.attr "SetXAttr.SyscallEvent.Retval") Weight.FunctionWeight),
  ("unlink.file.container_path", EvalCase.StringEvaluator (Expr.resolve "ResolveFileContainerPath" "Unlink.File") Weight.HandlerWeight),
  ("unlink.file.filesystem", EvalCase.StringEvaluator (Expr.resolve "ResolveFileFilesystem" "Unlink.File") Weight.HandlerWeight),
  ("unlink.file.gid", EvalCase.IntEvaluator (Expr.attr "Unlink.File.FileFields.GID") Weight.FunctionWeight),
  ("unlink.file.group", EvalCase.StringEvaluator (Expr.resolve "ResolveGroup" "Unlink.File.FileFields") Weight.HandlerWeight),
  ("unlink.file.in_upper_layer", EvalCase.BoolEvaluator (Expr.resolve "ResolveFileInUpperLayer" "Unlink.File") Weight.HandlerWeight),
  ("unlink.file.inode", EvalCase.IntEvaluator (Expr.attr "Unlink.File.FileFields.Inode") Weight.FunctionWeight),
  ("unlink.file.mode", EvalCase.IntEvaluator (Expr.attr "Unlink.File.FileFields.Mode") Weight.FunctionWeight),
  ("unlink.file.mount_id", EvalCase.IntEvaluator (Expr.attr "Unlink.File.FileFields.MountID") Weight.FunctionWeight),
  ("unlink.file.name", EvalCase.StringEvaluator (Expr.resolve "ResolveFileBasename" "Unlink.File") Weight.HandlerWeight),
  ("unlink.file.path", EvalCase.StringEvaluator (Expr.resolve "ResolveFileInode" "Unlink.File") Weight.HandlerWeight),
  ("unlink.file.uid", EvalCase.IntEvaluator (Expr.attr "Unlink.File.FileFields.UID") Weight.FunctionWeight),
  ("unlink.file.user", EvalCase.StringEvaluator (Expr.resolve "ResolveUser" "Unlink.File.FileFields") Weight.HandlerWeight),
  ("unlink.retval", EvalCase.IntEvaluator (Expr.attr "Unlink.SyscallEvent.Retval") Weight.FunctionWeight),
  ("utimes.file.container_path", EvalCase.StringEvaluator (Expr.resolve "ResolveFileContainerPath" "Utimes.File") Weight.HandlerWeight),
  ("utimes.file.filesystem", EvalCase.StringEvaluator (Expr.resolve "ResolveFileFilesystem" "Utimes.File") Weight.HandlerWeight),
  ("utimes.file.gid", EvalCase.IntEvaluator (Expr.attr "Utimes.File.FileFields.GID") Weight.FunctionWeight),
  ("utimes.file.group", EvalCase.StringEvaluator (Expr.resolve "ResolveGroup" "Utimes.File.FileFields") Weight.HandlerWeight),
  ("utimes.file.in_upper_layer", EvalCase.BoolEvaluator (Expr.resolve "ResolveFileInUpperLayer" "Utimes.File") Weight.HandlerWeight),
  ("utimes.file.inode", EvalCase.IntEvaluator (Expr.attr "Utimes.File.FileFields.Inode") Weight.FunctionWeight),
  ("utimes.file.mode", EvalCase.IntEvaluator (Expr.attr "Utimes.File.FileFields.Mode") Weight.FunctionWeight),
  ("utimes.file.mount_id", EvalCase.IntEvaluator (Expr.attr "Utimes.File.FileFields.MountID") Weight.FunctionWeight),
  ("utimes.file.name", EvalCase.StringEvaluator (Expr.resolve "ResolveFileBasename" "Utimes.File") Weight.HandlerWeight),
  ("utimes.file.path", EvalCase.StringEvaluator (Expr.resolve "ResolveFileInode" "Utimes.File") Weight.HandlerWeight),
  ("utimes.file.uid", EvalCase.IntEvaluator (Expr.attr "Utimes.File.FileFields.UID") Weight.FunctionWeight),
  ("utimes.file.user", EvalCase.StringEvaluator (Expr.resolve "ResolveUser" "Utimes.File.FileFields") Weight.HandlerWeight),
  ("utimes.retval", EvalCase.IntEvaluator (Expr.attr "Utimes.SyscallEvent.Retval") Weight.FunctionWeight)]

/-- The `case` arms of the switch in `Event.GetFieldValue`, in source order. -/
def GetFieldValueCases : List (String × ValueCase) := [
  ("capset.cap_effective", ValueCase.int (Expr.attr "Capset.CapEffective")),
  ("capset.cap_permitted", ValueCase.int (Expr.attr "Capset.CapPermitted")),
  ("chmod.file.container_path", ValueCase.string (Expr.resolve "ResolveFileContainerPath" "Chmod.File")),
  ("chmod.file.destination.mode", ValueCase.int (Expr.attr "Chmod.Mode")),
  ("chmod.file.filesystem", ValueCase.string (Expr.resolve "ResolveFileFilesystem" "Chmod.File")),
  ("chmod.file.gid", ValueCase.int (Expr.attr "Chmod.File.FileFields.GID")),
  ("chmod.file.group", ValueCase.string (Expr.resolve "ResolveGroup" "Chmod.File.FileFields")),
  ("chmod.file.in_upper_layer", ValueCase.bool (Expr.resolve "ResolveFileInUpperLayer" "Chmod.File")),
  ("chmod.file.inode", ValueCase.int (Expr.attr "Chmod.File.FileFields.Inode")),
  ("chmod.file.mode", ValueCase.int (Expr.attr "Chmod.File.FileFields.Mode")),
  ("chmod.file.mount_id", ValueCase.int (Expr.attr "Chmod.File.FileFields.MountID")),
  ("chmod.file.name", ValueCase.string (Expr.resolve "ResolveFileBasename" "Chmod.File")),
  ("chmod.file.path", ValueCase.string (Expr.resolve "ResolveFileInode" "Chmod.File")),
  ("chmod.file.uid", ValueCase.int (Expr.attr "Chmod.File.FileFields.UID")),
  ("chmod.file.user", ValueCase.string (Expr.resolve "ResolveUser" "Chmod.File.FileFields")),
  ("chmod.retval", ValueCase.int (Expr.attr "Chmod.SyscallEvent.Retval")),
  ("chown.file.container_path", ValueCase.string (Expr.resolve "ResolveFileContainerPath" "Chown.File")),
  ("chown.file.destination.gid", ValueCase.int (Expr.attr "Chown.GID")),
  ("chown.file.destination.group", ValueCase.string (Expr.resolve "ResolveChownGID" "Chown")),
  ("chown.file.destination.uid", ValueCase.int (Expr.attr "Chown.UID")),
  ("chown.file.destination.user", ValueCase.string (Expr.resolve "ResolveChownUID" "Chown")),
  ("chown.file.filesystem", ValueCase.string (Expr.resolve "ResolveFileFilesystem" "Chown.File")),
  ("chown.file.gid", ValueCase.int (Expr.attr "Chown.File.FileFields.GID")),
  ("chown.file.group", ValueCase.string (Expr.resolve "ResolveGroup" "Chown.File.FileFields")),
  ("chown.file.in_upper_layer", ValueCase.bool (Expr.resolve "ResolveFileInUpperLayer" "Chown.File")),
  ("chown.file.inode", ValueCase.int (Expr.attr "Chown.File.FileFields.Inode")),
  ("chown.file.mode", ValueCase.int (Expr.attr "Chown.File.FileFields.Mode")),
  ("chown.file.mount_id", ValueCase.int (Expr.attr "Chown.File.FileFields.MountID")),
  ("chown.file.name", ValueCase.string (Expr.resolve "ResolveFileBasename" "Chown.File")),
  ("chown.file.path", ValueCase.string (Expr.resolve "ResolveFileInode" "Chown.File")),
  ("chown.file.uid", ValueCase.int (Expr.attr "Chown.File.FileFields.UID")),
  ("chown.file.user", ValueCase.string (Expr.resolve "ResolveUser" "Chown.File.FileFields")),
  ("chown.retval", ValueCase.int (Expr.attr "Chown.SyscallEvent.Retval")),
  ("container.id", ValueCase.string (Expr.resolve "ResolveContainerID" "ContainerContext")),
  ("exec.args", ValueCase.string (Expr.resolve "ResolveExecArgs" "Exec")),
  ("exec.args_truncated", ValueCase.bool (Expr.attr "Exec.ArgsTruncated")),
  ("exec.cap_effective", ValueCase.int (Expr.resolve "ResolveCredentialsCapEffective" "Exec.Process.Credentials")),
  ("exec.cap_permitted", ValueCase.int (Expr.resolve "ResolveCredentialsCapPermitted" "Exec.Process.Credentials")),
  ("exec.comm", ValueCase.string (Expr.resolve "ResolveProcessComm" "Exec.Process")),
  ("exec.cookie", ValueCase.int (Expr.resolve "ResolveProcessCookie" "Exec.Process")),
  ("exec.egid", ValueCase.int (Expr.resolve "ResolveCredentialsEGID" "Exec.Process.Credentials")),
  ("exec.egroup", ValueCase.string (Expr.resolve "ResolveCredentialsEGroup" "Exec.Process.Credentials")),
  ("exec.envs", ValueCase.string (Expr.resolve "ResolveExecEnvs" "Exec")),
  ("exec.envs_truncated", ValueCase.bool (Expr.attr "Exec.EnvsTruncated")),
  ("exec.euid", ValueCase.int (Expr.resolve "ResolveCredentialsEUID" "Exec.Process.Credentials")),
  ("exec.euser", ValueCase.string (Expr.resolve "ResolveCredentialsEUser" "Exec.Process.Credentials")),
  ("exec.file.container_path", ValueCase.string (Expr.resolve "ResolveProcessContainerPath" "Exec.Process")),
  ("exec.file.filesystem", ValueCase.string (Expr.resolve "ResolveProcessFilesystem" "Exec.Process")),
  ("exec.file.gid", ValueCase.int (Expr.attr "Exec.Process.FileFields.GID")),
  ("exec.file.group", ValueCase.string (Expr.resolve "ResolveGroup" "Exec.Process.FileFields")),
  ("exec.file.inode", ValueCase.int (Expr.attr "Exec.Process.FileFields.Inode")),
  ("exec.file.mode", ValueCase.int (Expr.attr "Exec.Process.FileFields.Mode")),
  ("exec.file.mount_id", ValueCase.int (Expr.attr "Exec.Process.FileFields.MountID")),
  ("exec.file.name", ValueCase.string (Expr.resolve "ResolveProcessBasename" "Exec.Process")),
  ("exec.file.path", ValueCase.string (Expr.resolve "ResolveProcessInode" "Exec.Process")),
  ("exec.file.uid", ValueCase.int (Expr.attr "Exec.Process.FileFields.UID")),
  ("exec.file.user", ValueCase.string (Expr.resolve "ResolveUser" "Exec.Process.FileFields")),
  ("exec.fsgid", ValueCase.int (Expr.resolve "ResolveCredentialsFSGID" "Exec.Process.Credentials")),
  ("exec.fsgroup", ValueCase.string (Expr.resolve "ResolveCredentialsFSGroup" "Exec.Process.Credentials")),
  ("exec.fsuid", ValueCase.int (Expr.resolve "ResolveCredentialsFSUID" "Exec.Process.Credentials")),
  ("exec.fsuser", ValueCase.string (Expr.resolve "ResolveCredentialsFSUser" "Exec.Process.Credentials")),
  ("exec.gid", ValueCase.int (Expr.resolve "ResolveCredentialsGID" "Exec.Process.Credentials")),
  ("exec.group", ValueCase.string (Expr.resolve "ResolveCredentialsGroup" "Exec.Process.Credentials")),
  ("exec.ppid", ValueCase.int (Expr.resolve "ResolveProcessPPID" "Exec.Process")),
  ("exec.tty_name", ValueCase.string (Expr.resolve "ResolveProcessTTY" "Exec.Process")),
  ("exec.uid", ValueCase.int (Expr.resolve "ResolveCredentialsUID" "Exec.Process.Credentials")),
  ("exec.user", ValueCase.string (Expr.resolve "ResolveCredentialsUser" "Exec.Process.Credentials")),
  ("link.file.container_path", ValueCase.string (Expr.resolve "ResolveFileContainerPath" "Link.Source")),
  ("link.file.destination.container_path", ValueCase.string (Expr.resolve "ResolveFileContainerPath" "Link.Target")),
  ("link.file.destination.filesystem", ValueCase.string (Expr.resolve "ResolveFileFilesystem" "Link.Target")),
  ("link.file.destination.gid", ValueCase.int (Expr.attr "Link.Target.FileFields.GID")),
  ("link.file.destination.group", ValueCase.string (Expr.resolve "ResolveGroup" "Link.Target.FileFields")),
  ("link.file.destination.in_upper_layer", ValueCase.bool (Expr.resolve "ResolveFileInUpperLayer" "Link.Target")),
  ("link.file.destination.inode", ValueCase.int (Expr.attr "Link.Target.FileFields.Inode")),
  ("link.file.destination.mode", ValueCase.int (Expr.attr "Link.Target.FileFields.Mode")),
  ("link.file.destination.mount_id", ValueCase.int (Expr.attr "Link.Target.FileFields.MountID")),
  ("link.file.destination.name", ValueCase.string (Expr.resolve "ResolveFileBasename" "Link.Target")),
  ("link.file.destination.path", ValueCase.string (Expr.resolve "ResolveFileInode" "Link.Target")),
  ("link.file.destination.uid", ValueCase.int (Expr.attr "Link.Target.FileFields.UID")),
  ("link.file.destination.user", ValueCase.string (Expr.resolve "ResolveUser" "Link.Target.FileFields")),
  ("link.file.filesystem", ValueCase.string (Expr.resolve "ResolveFileFilesystem" "Link.Source")),
  ("link.file.gid", ValueCase.int (Expr.attr "Link.Source.FileFields.GID")),
  ("link.file.group", ValueCase.string (Expr.resolve "ResolveGroup" "Link.Source.FileFields")),
  ("link.file.in_upper_layer", ValueCase.bool (Expr.resolve "ResolveFileInUpperLayer" "Link.Source")),
  ("link.file.inode", ValueCase.int (Expr.attr "Link.Source.FileFields.Inode")),
  ("link.file.mode", ValueCase.int (Expr.attr "Link.Source.FileFields.Mode")),
  ("link.file.mount_id", ValueCase.int (Expr.attr "Link.Source.FileFields.MountID")),
  ("link.file.name", ValueCase.string (Expr.resolve "ResolveFileBasename" "Link.Source")),
  ("link.file.path", ValueCase.string (Expr.resolve "ResolveFileInode" "Link.Source")),
  ("link.file.uid", ValueCase.int (Expr.attr "Link.Source.FileFields.UID")),
  ("link.file.user", ValueCase.string (Expr.resolve "ResolveUser" "Link.Source.FileFields")),
  ("link.retval", ValueCase.int (Expr.attr "Link.SyscallEvent.Retval")),
  ("mkdir.file.container_path", ValueCase.string (Expr.resolve "ResolveFileContainerPath" "Mkdir.File")),
  ("mkdir.file.destination.mode", ValueCase.int (Expr.attr "Mkdir.Mode")),
  ("mkdir.file.filesystem", ValueCase.string (Expr.resolve "ResolveFileFilesystem" "Mkdir.File")),
  ("mkdir.file.gid", ValueCase.int (Expr.attr "Mkdir.File.FileFields.GID")),
  ("mkdir.file.group", ValueCase.string (Expr.resolve "ResolveGroup" "Mkdir.File.FileFields")),
  ("mkdir.file.in_upper_layer", ValueCase.bool (Expr.resolve "ResolveFileInUpperLayer" "Mkdir.File")),
  ("mkdir.file.inode", ValueCase.int (Expr.attr "Mkdir.File.FileFields.Inode")),
  ("mkdir.file.mode", ValueCase.int (Expr.attr "Mkdir.File.FileFields.Mode")),
  ("mkdir.file.mount_id", ValueCase.int (Expr.attr "Mkdir.File.FileFields.MountID")),
  ("mkdir.file.name", ValueCase.string (Expr.resolve "ResolveFileBasename" "Mkdir.File")),
  ("mkdir.file.path", ValueCase.string (Expr.resolve "ResolveFileInode" "Mkdir.File")),
  ("mkdir.file.uid", ValueCase.int (Expr.attr "Mkdir.File.FileFields.UID")),
  ("mkdir.file.user", ValueCase.string (Expr.resolve "ResolveUser" "Mkdir.File.FileFields")),
  ("mkdir.retval", ValueCase.int (Expr.attr "Mkdir.SyscallEvent.Retval")),
  ("open.file.container_path", ValueCase.string (Expr.resolve "ResolveFileContainerPath" "Open.File")),
  ("open.file.destination.mode", ValueCase.int (Expr.attr "Open.Mode")),
  ("open.file.filesystem", ValueCase.string (Expr.resolve "ResolveFileFilesystem" "Open.File")),
  ("open.file.gid", ValueCase.int (Expr.attr "Open.File.FileFields.GID")),
  ("open.file.group", ValueCase.string (Expr.resolve "ResolveGroup" "Open.File.FileFields")),
  ("open.file.in_upper_layer", ValueCase.bool (Expr.resolve "ResolveFileInUpperLayer" "Open.File")),
  ("open.file.inode", ValueCase.int (Expr.attr "Open.File.FileFields.Inode")),
  ("open.file.mode", ValueCase.int (Expr.attr "Open.File.FileFields.Mode")),
  ("open.file.mount_id", ValueCase.int (Expr.attr "Open.File.FileFields.MountID")),
  ("open.file.name", ValueCase.string (Expr.resolve "ResolveFileBasename" "Open.File")),
  ("open.file.path", ValueCase.string (Expr.resolve "ResolveFileInode" "Open.File")),
  ("open.file.uid", ValueCase.int (Expr.attr "Open.File.FileFields.UID")),
  ("open.file.user", ValueCase.string (Expr.resolve "ResolveUser" "Open.File.FileFields")),
  ("open.flags", ValueCase.int (Expr.attr "Open.Flags")),
  ("open.retval", ValueCase.int (Expr.attr "Open.SyscallEvent.Retval")),
  ("process.ancestors.cap_effective", ValueCase.ints (Expr.resolve "ResolveCredentialsCapEffective" "Credentials")),
  ("process.ancestors.cap_permitted", ValueCase.ints (Expr.resolve "ResolveCredentialsCapPermitted" "Credentials")),
  ("process.ancestors.comm", ValueCase.strings (Expr.resolve "ResolveProcessComm" "Process")),
  ("process.ancestors.cookie", ValueCase.ints (Expr.resolve "ResolveProcessCookie" "Process")),
  ("process.ancestors.egid", ValueCase.ints (Expr.resolve "ResolveCredentialsEGID" "Credentials")),
  ("process.ancestors.egroup", ValueCase.strings (Expr.resolve "ResolveCredentialsEGroup" "Credentials")),
  ("process.ancestors.euid", ValueCase.ints (Expr.resolve "ResolveCredentialsEUID" "Credentials")),
  ("process.ancestors.euser", ValueCase.strings (Expr.resolve "ResolveCredentialsEUser" "Credentials")),
  ("process.ancestors.file.container_path", ValueCase.strings (Expr.resolve "ResolveProcessContainerPath" "Process")),
  ("process.ancestors.file.filesystem", ValueCase.strings (Expr.resolve "ResolveProcessFilesystem" "Process")),
  ("process.ancestors.file.gid", ValueCase.ints (Expr.attr "ProcessContext.Process.FileFields.GID")),
  ("process.ancestors.file.group", ValueCase.strings (Expr.resolve "ResolveGroup" "FileFields")),
  ("process.ancestors.file.inode", ValueCase.ints (Expr.attr "ProcessContext.Process.FileFields.Inode")),
  ("process.ancestors.file.mode", ValueCase.ints (Expr.attr "ProcessContext.Process.FileFields.Mode")),
  ("process.ancestors.file.mount_id", ValueCase.ints (Expr.attr "ProcessContext.Process.FileFields.MountID")),
  ("process.ancestors.file.name", ValueCase.strings (Expr.resolve "ResolveProcessBasename" "Process")),
  ("process.ancestors.file.path", ValueCase.strings (Expr.resolve "ResolveProcessInode" "Process")),
  ("process.ancestors.file.uid", ValueCase.ints (Expr.attr "ProcessContext.Process.FileFields.UID")),
  ("process.ancestors.file.user", ValueCase.strings (Expr.resolve "ResolveUser" "FileFields")),
  ("process.ancestors.fsgid", ValueCase.ints (Expr.resolve "ResolveCredentialsFSGID" "Credentials")),
  ("process.ancestors.fsgroup", ValueCase.strings (Expr.resolve "ResolveCredentialsFSGroup" "Credentials")),
  ("process.ancestors.fsuid", ValueCase.ints (Expr.resolve "ResolveCredentialsFSUID" "Credentials")),
  ("process.ancestors.fsuser", ValueCase.strings (Expr.resolve "ResolveCredentialsFSUser" "Credentials")),
  ("process.ancestors.gid", ValueCase.ints (Expr.resolve "ResolveCredentialsGID" "Credentials")),
  ("process.ancestors.group", ValueCase.strings (Expr.resolve "ResolveCredentialsGroup" "Credentials")),
  ("process.ancestors.id", ValueCase.strings (Expr.resolve "ResolveContainerID" "ContainerContext")),
  ("process.ancestors.pid", ValueCase.ints (Expr.attr "ProcessContext.Pid")),
  ("process.ancestors.ppid", ValueCase.ints (Expr.resolve "ResolveProcessPPID" "Process")),
  ("process.ancestors.tid", ValueCase.ints (Expr.attr "ProcessContext.Tid")),
  ("process.ancestors.tty_name", ValueCase.strings (Expr.resolve "ResolveProcessTTY" "Process")),
  ("process.ancestors.uid", ValueCase.ints (Expr.resolve "ResolveCredentialsUID" "Credentials")),
  ("process.ancestors.user", ValueCase.strings (Expr.resolve "ResolveCredentialsUser" "Credentials")),
  ("process.cap_effective", ValueCase.int (Expr.resolve "ResolveCredentialsCapEffective" "ProcessContext.Process.Credentials")),
  ("process.cap_permitted", ValueCase.int (Expr.resolve "ResolveCredentialsCapPermitted" "ProcessContext.Process.Credentials")),
  ("process.comm", ValueCase.string (Expr.resolve "ResolveProcessComm" "ProcessContext.Process")),
  ("process.cookie", ValueCase.int (Expr.resolve "ResolveProcessCookie" "ProcessContext.Process")),
  ("process.egid", ValueCase.int (Expr.resolve "ResolveCredentialsEGID" "ProcessContext.Process.Credentials")),
  ("process.egroup", ValueCase.string (Expr.resolve "ResolveCredentialsEGroup" "ProcessContext.Process.Credentials")),
  ("process.euid", ValueCase.int (Expr.resolve "ResolveCredentialsEUID" "ProcessContext.Process.Credentials")),
  ("process.euser", ValueCase.string (Expr.resolve "ResolveCredentialsEUser" "ProcessContext.Process.Credentials")),
  ("process.file.container_path", ValueCase.string (Expr.resolve "ResolveProcessContainerPath" "ProcessContext.Process")),
  ("process.file.filesystem", ValueCase.string (Expr.resolve "ResolveProcessFilesystem" "ProcessContext.Process")),
  ("process.file.gid", ValueCase.int (Expr.attr "ProcessContext.Process.FileFields.GID")),
  ("process.file.group", ValueCase.string (Expr.resolve "ResolveGroup" "ProcessContext.Process.FileFields")),
  ("process.file.inode", ValueCase.int (Expr.attr "ProcessContext.Process.FileFields.Inode")),
  ("process.file.mode", ValueCase.int (Expr.attr "ProcessContext.Process.FileFields.Mode")),
  ("process.file.mount_id", ValueCase.int (Expr.attr "ProcessContext.Process.FileFields.MountID")),
  ("process.file.name", ValueCase.string (Expr.resolve "ResolveProcessBasename" "ProcessContext.Process")),
  ("process.file.path", ValueCase.string (Expr.resolve "ResolveProcessInode" "ProcessContext.Process")),
  ("process.file.uid", ValueCase.int (Expr.attr "ProcessContext.Process.FileFields.UID")),
  ("process.file.user", ValueCase.string (Expr.resolve "ResolveUser" "ProcessContext.Process.FileFields")),
  ("process.fsgid", ValueCase.int (Expr.resolve "ResolveCredentialsFSGID" "ProcessContext.Process.Credentials")),
  ("process.fsgroup", ValueCase.string (Expr.resolve "ResolveCredentialsFSGroup" "ProcessContext.Process.Credentials")),
  ("process.fsuid", ValueCase.int (Expr.resolve "ResolveCredentialsFSUID" "ProcessContext.Process.Credentials")),
  ("process.fsuser", ValueCase.string (Expr.resolve "ResolveCredentialsFSUser" "ProcessContext.Process.Credentials")),
  ("process.gid", ValueCase.int (Expr.resolve "ResolveCredentialsGID" "ProcessContext.Process.Credentials")),
  ("process.group", ValueCase.string (Expr.resolve "ResolveCredentialsGroup" "ProcessContext.Process.Credentials")),
  ("process.pid", ValueCase.int (Expr.attr "ProcessContext.Pid")),
  ("process.ppid", ValueCase.int (Expr.resolve "ResolveProcessPPID" "ProcessContext.Process")),
  ("process.tid", ValueCase.int (Expr.attr "ProcessContext.Tid")),
  ("process.tty_name", ValueCase.string (Expr.resolve "ResolveProcessTTY" "ProcessContext.Process")),
  ("process.uid", ValueCase.int (Expr.resolve "ResolveCredentialsUID" "ProcessContext.Process.Credentials")),
  ("process.user", ValueCase.string (Expr.resolve "ResolveCredentialsUser" "ProcessContext.Process.Credentials")),
  ("removexattr.file.container_path", ValueCase.string (Expr.resolve "ResolveFileContainerPath" "RemoveXAttr.File")),
  ("removexattr.file.destination.name", ValueCase.string (Expr.resolve "GetXAttrName" "RemoveXAttr")),
  ("removexattr.file.destination.namespace", ValueCase.string (Expr.resolve "GetXAttrNamespace" "RemoveXAttr")),
  ("removexattr.file.filesystem", ValueCase.string (Expr.resolve "ResolveFileFilesystem" "RemoveXAttr.File")),
  ("removexattr.file.gid", ValueCase.int (Expr.attr "RemoveXAttr.File.FileFields.GID")),
  ("removexattr.file.group", ValueCase.string (Expr.resolve "ResolveGroup" "RemoveXAttr.File.FileFields")),
  ("removexattr.file.in_upper_layer", ValueCase.bool (Expr.resolve "ResolveFileInUpperLayer" "RemoveXAttr.File")),
  ("removexattr.file.inode", ValueCase.int (Expr.attr "RemoveXAttr.File.FileFields.Inode")),
  ("removexattr.file.mode", ValueCase.int (Expr.attr "RemoveXAttr.File.FileFields.Mode")),
  ("removexattr.file.mount_id", ValueCase.int (Expr.attr "RemoveXAttr.File.FileFields.MountID")),
  ("removexattr.file.name", ValueCase.string (Expr.resolve "ResolveFileBasename" "RemoveXAttr.File")),
  ("removexattr.file.path", ValueCase.string (Expr.resolve "ResolveFileInode" "RemoveXAttr.File")),
  ("removexattr.file.uid", ValueCase.int (Expr.attr "RemoveXAttr.File.FileFields.UID")),
  ("removexattr.file.user", ValueCase.string (Expr.resolve "ResolveUser" "RemoveXAttr.File.FileFields")),
  ("removexattr.retval", ValueCase.int (Expr.attr "RemoveXAttr.SyscallEvent.Retval")),
  ("rename.file.container_path", ValueCase.string (Expr.resolve "ResolveFileContainerPath" "Rename.Old")),
  ("rename.file.destination.container_path", ValueCase.string (Expr.resolve "ResolveFileContainerPath" "Rename.New")),
  ("rename.file.destination.filesystem", ValueCase.string (Expr.resolve "ResolveFileFilesystem" "Rename.New")),
  ("rename.file.destination.gid", ValueCase.int (Expr.attr "Rename.New.FileFields.GID")),
  ("rename.file.destination.group", ValueCase.string (Expr.resolve "ResolveGroup" "Rename.New.FileFields")),
  ("rename.file.destination.in_upper_layer", ValueCase.bool (Expr.resolve "ResolveFileInUpperLayer" "Rename.New")),
  ("rename.file.destination.inode", ValueCase.int (Expr.attr "Rename.New.FileFields.Inode")),
  ("rename.file.destination.mode", ValueCase.int (Expr.attr "Rename.New.FileFields.Mode")),
  ("rename.file.destination.mount_id", ValueCase.int (Expr.attr "Rename.New.FileFields.MountID")),
  ("rename.file.destination.name", ValueCase.string (Expr.resolve "ResolveFileBasename" "Rename.New")),
  ("rename.file.destination.path", ValueCase.string (Expr.resolve "ResolveFileInode" "Rename.New")),
  ("rename.file.destination.uid", ValueCase.int (Expr.attr "Rename.New.FileFields.UID")),
  ("rename.file.destination.user", ValueCase.string (Expr.resolve "ResolveUser" "Rename.New.FileFields")),
  ("rename.file.filesystem", ValueCase.string (Expr.resolve "ResolveFileFilesystem" "Rename.Old")),
  ("rename.file.gid", ValueCase.int (Expr.attr "Rename.Old.FileFields.GID")),
  ("rename.file.group", ValueCase.string (Expr.resolve "ResolveGroup" "Rename.Old.FileFields")),
  ("rename.file.in_upper_layer", ValueCase.bool (Expr.resolve "ResolveFileInUpperLayer" "Rename.Old")),
  ("rename.file.inode", ValueCase.int (Expr.attr "Rename.Old.FileFields.Inode")),
  ("rename.file.mode", ValueCase.int (Expr.attr "Rename.Old.FileFields.Mode")),
  ("rename.file.mount_id", ValueCase.int (Expr.attr "Rename.Old.FileFields.MountID")),
  ("rename.file.name", ValueCase.string (Expr.resolve "ResolveFileBasename" "Rename.Old")),
  ("rename.file.path", ValueCase.string (Expr.resolve "ResolveFileInode" "Rename.Old")),
  ("rename.file.uid", ValueCase.int (Expr.attr "Rename.Old.FileFields.UID")),
  ("rename.file.user", ValueCase.string (Expr.resolve "ResolveUser" "Rename.Old.FileFields")),
  ("rename.retval", ValueCase.int (Expr.attr "Rename.SyscallEvent.Retval")),
  ("rmdir.file.container_path", ValueCase.string (Expr.resolve "ResolveFileContainerPath" "Rmdir.File")),
  ("rmdir.file.filesystem", ValueCase.string (Expr.resolve "ResolveFileFilesystem" "Rmdir.File")),
  ("rmdir.file.gid", ValueCase.int (Expr.attr "Rmdir.File.FileFields.GID")),
  ("rmdir.file.group", ValueCase.string (Expr.resolve "ResolveGroup" "Rmdir.File.FileFields")),
  ("rmdir.file.in_upper_layer", ValueCase.bool (Expr.resolve "ResolveFileInUpperLayer" "Rmdir.File")),
  ("rmdir.file.inode", ValueCase.int (Expr.attr "Rmdir.File.FileFields.Inode")),
  ("rmdir.file.mode", ValueCase.int (Expr.attr "Rmdir.File.FileFields.Mode")),
  ("rmdir.file.mount_id", ValueCase.int (Expr.attr "Rmdir.File.FileFields.MountID")),
  ("rmdir.file.name", ValueCase.string (Expr.resolve "ResolveFileBasename" "Rmdir.File")),
  ("rmdir.file.path", ValueCase.string (Expr.resolve "ResolveFileInode" "Rmdir.File")),
  ("rmdir.file.uid", ValueCase.int (Expr.attr "Rmdir.File.FileFields.UID")),
  ("rmdir.file.user", ValueCase.string (Expr.resolve "ResolveUser" "Rmdir.File.FileFields")),
  ("rmdir.retval", ValueCase.int (Expr.attr "Rmdir.SyscallEvent.Retval")),
  ("setgid.egid", ValueCase.int (Expr.attr "SetGID.EGID")),
  ("setgid.egroup", ValueCase.string (Expr.resolve "ResolveSetgidEGroup" "SetGID")),
  ("setgid.fsgid", ValueCase.int (Expr.attr "SetGID.FSGID")),
  ("setgid.fsgroup", ValueCase.string (Expr.resolve "ResolveSetgidFSGroup" "SetGID")),
  ("setgid.gid", ValueCase.int (Expr.attr "SetGID.GID")),
  ("setgid.group", ValueCase.string (Expr.resolve "ResolveSetgidGroup" "SetGID")),
  ("setuid.euid", ValueCase.int (Expr.attr "SetUID.EUID")),
  ("setuid.euser", ValueCase.string (Expr.resolve "ResolveSetuidEUser" "SetUID")),
  ("setuid.fsuid", ValueCase.int (Expr.attr "SetUID.FSUID")),
  ("setuid.fsuser", ValueCase.string (Expr.resolve "ResolveSetuidFSUser" "SetUID")),
  ("setuid.uid", ValueCase.int (Expr.attr "SetUID.UID")),
  ("setuid.user", ValueCase.string (Expr.resolve "ResolveSetuidUser" "SetUID")),
  ("setxattr.file.container_path", ValueCase.string (Expr.resolve "ResolveFileContainerPath" "SetXAttr.File")),
  ("setxattr.file.destination.name", ValueCase.string (Expr.resolve "GetXAttrName" "SetXAttr")),
  ("setxattr.file.destination.namespace", ValueCase.string (Expr.resolve "GetXAttrNamespace" "SetXAttr")),
  ("setxattr.file.filesystem", ValueCase.string (Expr.resolve "ResolveFileFilesystem" "SetXAttr.File")),
  ("setxattr.file.gid", ValueCase.int (Expr.attr "SetXAttr.File.FileFields.GID")),
  ("setxattr.file.group", ValueCase.string (Expr.resolve "ResolveGroup" "SetXAttr.File.FileFields")),
  ("setxattr.file.in_upper_layer", ValueCase.bool (Expr.resolve "ResolveFileInUpperLayer" "SetXAttr.File")),
  ("setxattr.file.inode", ValueCase.int (Expr.attr "SetXAttr.File.FileFields.Inode")),
  ("setxattr.file.mode", ValueCase.int (Expr.attr "SetXAttr.File.FileFields.Mode")),
  ("setxattr.file.mount_id", ValueCase.int (Expr.attr "SetXAttr.File.FileFields.MountID")),
  ("setxattr.file.name", ValueCase.string (Expr.resolve "ResolveFileBasename" "SetXAttr.File")),
  ("setxattr.file.path", ValueCase.string (Expr.resolve "ResolveFileInode" "SetXAttr.File")),
  ("setxattr.file.uid", ValueCase.int (Expr.attr "SetXAttr.File.FileFields.UID")),
  ("setxattr.file.user", ValueCase.string (Expr.resolve "ResolveUser" "SetXAttr.File.FileFields")),
  ("setxattr.retval", ValueCase.int (Expr.attr "SetXAttr.SyscallEvent.Retval")),
  ("unlink.file.container_path", ValueCase.string (Expr.resolve "ResolveFileContainerPath" "Unlink.File")),
  ("unlink.file.filesystem", ValueCase.string (Expr.resolve "ResolveFileFilesystem" "Unlink.File")),
  ("unlink.file.gid", ValueCase.int (Expr.attr "Unlink.File.FileFields.GID")),
  ("unlink.file.group", ValueCase.string (Expr.resolve "ResolveGroup" "Unlink.File.FileFields")),
  ("unlink.file.in_upper_layer", ValueCase.bool (Expr.resolve "ResolveFileInUpperLayer" "Unlink.File")),
  ("unlink.file.inode", ValueCase.int (Expr.attr "Unlink.File.FileFields.Inode")),
  ("unlink.file.mode", ValueCase.int (Expr.attr "Unlink.File.FileFields.Mode")),
  ("unlink.file.mount_id", ValueCase.int (Expr.attr "Unlink.File.FileFields.MountID")),
  ("unlink.file.name", ValueCase.string (Expr.resolve "ResolveFileBasename" "Unlink.File")),
  ("unlink.file.path", ValueCase.string (Expr.resolve "ResolveFileInode" "Unlink.File")),
  ("unlink.file.uid", ValueCase.int (Expr.attr "Unlink.File.FileFields.UID")),
  ("unlink.file.user", ValueCase.string (Expr.resolve "ResolveUser" "Unlink.File.FileFields")),
  ("unlink.retval", ValueCase.int (Expr.attr "Unlink.SyscallEvent.Retval")),
  ("utimes.file.container_path", ValueCase.string (Expr.resolve "ResolveFileContainerPath" "Utimes.File")),
  ("utimes.file.filesystem", ValueCase.string (Expr.resolve "ResolveFileFilesystem" "Utimes.File")),
  ("utimes.file.gid", ValueCase.int (Expr.attr "Utimes.File.FileFields.GID")),
  ("utimes.file.group", ValueCase.string (Expr.resolve "ResolveGroup" "Utimes.File.FileFields")),
  ("utimes.file.in_upper_layer", ValueCase.bool (Expr.resolve "ResolveFileInUpperLayer" "Utimes.File")),
  ("utimes.file.inode", ValueCase.int (Expr.attr "Utimes.File.FileFields.Inode")),
  ("utimes.file.mode", ValueCase.int (Expr.attr "Utimes.File.FileFields.Mode")),
  ("utimes.file.mount_id", ValueCase.int (Expr.attr "Utimes.File.FileFields.MountID")),
  ("utimes.file.name", ValueCase.string (Expr.resolve "ResolveFileBasename" "Utimes.File")),
  ("utimes.file.path", ValueCase.string (Expr.resolve "ResolveFileInode" "Utimes.File")),
  ("utimes.file.uid", ValueCase.int (Expr.attr "Utimes.File.FileFields.UID")),
  ("utimes.file.user", ValueCase.string (Expr.resolve "ResolveUser" "Utimes.File.FileFields")),
  ("utimes.retval", ValueCase.int (Expr.attr "Utimes.SyscallEvent.Retval"))]

/-- The `case` arms of the switch in `Event.GetFieldEventType`, in source order. -/
def GetFieldEventTypeCases : List (String × String) := [
  ("capset.cap_effective", "capset"),
  ("capset.cap_permitted", "capset"),
  ("chmod.file.container_path", "chmod"),
  ("chmod.file.destination.mode", "chmod"),
  ("chmod.file.filesystem", "chmod"),
  ("chmod.file.gid", "chmod"),
  ("chmod.file.group", "chmod"),
  ("chmod.file.in_upper_layer", "chmod"),
  ("chmod.file.inode", "chmod"),
  ("chmod.file.mode", "chmod"),
  ("chmod.file.mount_id", "chmod"),
  ("chmod.file.name", "chmod"),
  ("chmod.file.path", "chmod"),
  ("chmod.file.uid", "chmod"),
  ("chmod.file.user", "chmod"),
  ("chmod.retval", "chmod"),
  ("chown.file.container_path", "chown"),
  ("chown.file.destination.gid", "chown"),
  ("chown.file.destination.group", "chown"),
  ("chown.file.destination.uid", "chown"),
  ("chown.file.destination.user", "chown"),
  ("chown.file.filesystem", "chown"),
  ("chown.file.gid", "chown"),
  ("chown.file.group", "chown"),
  ("chown.file.in_upper_layer", "chown"),
  ("chown.file.inode", "chown"),
  ("chown.file.mode", "chown"),
  ("chown.file.mount_id", "chown"),
  ("chown.file.name", "chown"),
  ("chown.file.path", "chown"),
  ("chown.file.uid", "chown"),
  ("chown.file.user", "chown"),
  ("chown.retval", "chown"),
  ("container.id", "*"),
  ("exec.args", "exec"),
  ("exec.args_truncated", "exec"),
  ("exec.cap_effective", "exec"),
  ("exec.cap_permitted", "exec"),
  ("exec.comm", "exec"),
  ("exec.cookie", "exec"),
  ("exec.egid", "exec"),
  ("exec.egroup", "exec"),
  ("exec.envs", "exec"),
  ("exec.envs_truncated", "exec"),
  ("exec.euid", "exec"),
  ("exec.euser", "exec"),
  ("exec.file.container_path", "exec"),
  ("exec.file.filesystem", "exec"),
  ("exec.file.gid", "exec"),
  ("exec.file.group", "exec"),
  ("exec.file.inode", "exec"),
  ("exec.file.mode", "exec"),
  ("exec.file.mount_id", "exec"),
  ("exec.file.name", "exec"),
  ("exec.file.path", "exec"),
  ("exec.file.uid", "exec"),
  ("exec.file.user", "exec"),
  ("exec.fsgid", "exec"),
  ("exec.fsgroup", "exec"),
  ("exec.fsuid", "exec"),
  ("exec.fsuser", "exec"),
  ("exec.gid", "exec"),
  ("exec.group", "exec"),
  ("exec.ppid", "exec"),
  ("exec.tty_name", "exec"),
  ("exec.uid", "exec"),
  ("exec.user", "exec"),
  ("link.file.container_path", "link"),
  ("link.file.destination.container_path", "link"),
  ("link.file.destination.filesystem", "link"),
  ("link.file.destination.gid", "link"),
  ("link.file.destination.group", "link"),
  ("link.file.destination.in_upper_layer", "link"),
  ("link.file.destination.inode", "link"),
  ("link.file.destination.mode", "link"),
  ("link.file.destination.mount_id", "link"),
  ("link.file.destination.name", "link"),
  ("link.file.destination.path", "link"),
  ("link.file.destination.uid", "link"),
  ("link.file.destination.user", "link"),
  ("link.file.filesystem", "link"),
  ("link.file.gid", "link"),
  ("link.file.group", "link"),
  ("link.file.in_upper_layer", "link"),
  ("link.file.inode", "link"),
  ("link.file.mode", "link"),
  ("link.file.mount_id", "link"),
  ("link.file.name", "link"),
  ("link.file.path", "link"),
  ("link.file.uid", "link"),
  ("link.file.user", "link"),
  ("link.retval", "link"),
  ("mkdir.file.container_path", "mkdir"),
  ("mkdir.file.destination.mode", "mkdir"),
  ("mkdir.file.filesystem", "mkdir"),
  ("mkdir.file.gid", "mkdir"),
  ("mkdir.file.group", "mkdir"),
  ("mkdir.file.in_upper_layer", "mkdir"),
  ("mkdir.file.inode", "mkdir"),
  ("mkdir.file.mode", "mkdir"),
  ("mkdir.file.mount_id", "mkdir"),
  ("mkdir.file.name", "mkdir"),
  ("mkdir.file.path", "mkdir"),
  ("mkdir.file.uid", "mkdir"),
  ("mkdir.file.user", "mkdir"),
  ("mkdir.retval", "mkdir"),
  ("open.file.container_path", "open"),
  ("open.file.destination.mode", "open"),
  ("open.file.filesystem", "open"),
  ("open.file.gid", "open"),
  ("open.file.group", "open"),
  ("open.file.in_upper_layer", "open"),
  ("open.file.inode", "open"),
  ("open.file.mode", "open"),
  ("open.file.mount_id", "open"),
  ("open.file.name", "open"),
  ("open.file.path", "open"),
  ("open.file.uid", "open"),
  ("open.file.user", "open"),
  ("open.flags", "open"),
  ("open.retval", "open"),
  ("process.ancestors.cap_effective", "*"),
  ("process.ancestors.cap_permitted", "*"),
  ("process.ancestors.comm", "*"),
  ("process.ancestors.cookie", "*"),
  ("process.ancestors.egid", "*"),
  ("process.ancestors.egroup", "*"),
  ("process.ancestors.euid", "*"),
  ("process.ancestors.euser", "*"),
  ("process.ancestors.file.container_path", "*"),
  ("process.ancestors.file.filesystem", "*"),
  ("process.ancestors.file.gid", "*"),
  ("process.ancestors.file.group", "*"),
  ("process.ancestors.file.inode", "*"),
  ("process.ancestors.file.mode", "*"),
  ("process.ancestors.file.mount_id", "*"),
  ("process.ancestors.file.name", "*"),
  ("process.ancestors.file.path", "*"),
  ("process.ancestors.file.uid", "*"),
  ("process.ancestors.file.user", "*"),
  ("process.ancestors.fsgid", "*"),
  ("process.ancestors.fsgroup", "*"),
  ("process.ancestors.fsuid", "*"),
  ("process.ancestors.fsuser", "*"),
  ("process.ancestors.gid", "*"),
  ("process.ancestors.group", "*"),
  ("process.ancestors.id", "*"),
  ("process.ancestors.pid", "*"),
  ("process.ancestors.ppid", "*"),
  ("process.ancestors.tid", "*"),
  ("process.ancestors.tty_name", "*"),
  ("process.ancestors.uid", "*"),
  ("process.ancestors.user", "*"),
  ("process.cap_effective", "*"),
  ("process.cap_permitted", "*"),
  ("process.comm", "*"),
  ("process.cookie", "*"),
  ("process.egid", "*"),
  ("process.egroup", "*"),
  ("process.euid", "*"),
  ("process.euser", "*"),
  ("process.file.container_path", "*"),
  ("process.file.filesystem", "*"),
  ("process.file.gid", "*"),
  ("process.file.group", "*"),
  ("process.file.inode", "*"),
  ("process.file.mode", "*"),
  ("process.file.mount_id", "*"),
  ("process.file.name", "*"),
  ("process.file.path", "*"),
  ("process.file.uid", "*"),
  ("process.file.user", "*"),
  ("process.fsgid", "*"),
  ("process.fsgroup", "*"),
  ("process.fsuid", "*"),
  ("process.fsuser", "*"),
  ("process.gid", "*"),
  ("process.group", "*"),
  ("process.pid", "*"),
  ("process.ppid", "*"),
  ("process.tid", "*"),
  ("process.tty_name", "*"),
  ("process.uid", "*"),
  ("process.user", "*"),
  ("removexattr.file.container_path", "removexattr"),
  ("removexattr.file.destination.name", "removexattr"),
  ("removexattr.file.destination.namespace", "removexattr"),
  ("removexattr.file.filesystem", "removexattr"),
  ("removexattr.file.gid", "removexattr"),
  ("removexattr.file.group", "removexattr"),
  ("removexattr.file.in_upper_layer", "removexattr"),
  ("removexattr.file.inode", "removexattr"),
  ("removexattr.file.mode", "removexattr"),
  ("removexattr.file.mount_id", "removexattr"),
  ("removexattr.file.name", "removexattr"),
  ("removexattr.file.path", "removexattr"),
  ("removexattr.file.uid", "removexattr"),
  ("removexattr.file.user", "removexattr"),
  ("removexattr.retval", "removexattr"),
  ("rename.file.container_path", "rename"),
  ("rename.file.destination.container_path", "rename"),
  ("rename.file.destination.filesystem", "rename"),
  ("rename.file.destination.gid", "rename"),
  ("rename.file.destination.group", "rename"),
  ("rename.file.destination.in_upper_layer", "rename"),
  ("rename.file.destination.inode", "rename"),
  ("rename.file.destination.mode", "rename"),
  ("rename.file.destination.mount_id", "rename"),
  ("rename.file.destination.name", "rename"),
  ("rename.file.destination.path", "rename"),
  ("rename.file.destination.uid", "rename"),
  ("rename.file.destination.user", "rename"),
  ("rename.file.filesystem", "rename"),
  ("rename.file.gid", "rename"),
  ("rename.file.group", "rename"),
  ("rename.file.in_upper_layer", "rename"),
  ("rename.file.inode", "rename"),
  ("rename.file.mode", "rename"),
  ("rename.file.mount_id", "rename"),
  ("rename.file.name", "rename"),
  ("rename.file.path", "rename"),
  ("rename.file.uid", "rename"),
  ("rename.file.user", "rename"),
  ("rename.retval", "rename"),
  ("rmdir.file.container_path", "rmdir"),
  ("rmdir.file.filesystem", "rmdir"),
  ("rmdir.file.gid", "rmdir"),
  ("rmdir.file.group", "rmdir"),
  ("rmdir.file.in_upper_layer", "rmdir"),
  ("rmdir.file.inode", "rmdir"),
  ("rmdir.file.mode", "rmdir"),
  ("rmdir.file.mount_id", "rmdir"),
  ("rmdir.file.name", "rmdir"),
  ("rmdir.file.path", "rmdir"),
  ("rmdir.file.uid", "rmdir"),
  ("rmdir.file.user", "rmdir"),
  ("rmdir.retval", "rmdir"),
  ("setgid.egid", "setgid"),
  ("setgid.egroup", "setgid"),
  ("setgid.fsgid", "setgid"),
  ("setgid.fsgroup", "setgid"),
  ("setgid.gid", "setgid"),
  ("setgid.group", "setgid"),
  ("setuid.euid", "setuid"),
  ("setuid.euser", "setuid"),
  ("setuid.fsuid", "setuid"),
  ("setuid.fsuser", "setuid"),
  ("setuid.uid", "setuid"),
  ("setuid.user", "setuid"),
  ("setxattr.file.container_path", "setxattr"),
  ("setxattr.file.destination.name", "setxattr"),
  ("setxattr.file.destination.namespace", "setxattr"),
  ("setxattr.file.filesystem", "setxattr"),
  ("setxattr.file.gid", "setxattr"),
  ("setxattr.file.group", "setxattr"),
  ("setxattr.file.in_upper_layer", "setxattr"),
  ("setxattr.file.inode", "setxattr"),
  ("setxattr.file.mode", "setxattr"),
  ("setxattr.file.mount_id", "setxattr"),
  ("setxattr.file.name", "setxattr"),
  ("setxattr.file.path", "setxattr"),
  ("setxattr.file.uid", "setxattr"),
  ("setxattr.file.user", "setxattr"),
  ("setxattr.retval", "setxattr"),
  ("unlink.file.container_path", "unlink"),
  ("unlink.file.filesystem", "unlink"),
  ("unlink.file.gid", "unlink"),
  ("unlink.file.group", "unlink"),
  ("unlink.file.in_upper_layer", "unlink"),
  ("unlink.file.inode", "unlink"),
  ("unlink.file.mode", "unlink"),
  ("unlink.file.mount_id", "unlink"),
  ("unlink.file.name", "unlink"),
  ("unlink.file.path", "unlink"),
  ("unlink.file.uid", "unlink"),
  ("unlink.file.user", "unlink"),
  ("unlink.retval", "unlink"),
  ("utimes.file.container_path", "utimes"),
  ("utimes.file.filesystem", "utimes"),
  ("utimes.file.gid", "utimes"),
  ("utimes.file.group", "utimes"),
  ("utimes.file.in_upper_layer", "utimes"),
  ("utimes.file.inode", "utimes"),
  ("utimes.file.mode", "utimes"),
  ("utimes.file.mount_id", "utimes"),
  ("utimes.file.name", "utimes"),
  ("utimes.file.path", "utimes"),
  ("utimes.file.uid", "utimes"),
  ("utimes.file.user", "utimes"),
  ("utimes.retval", "utimes")]

/-- The `case` arms of the switch in `Event.GetFieldType`, in source order. -/
def GetFieldTypeCases : List (String × Kind) := [
  ("capset.cap_effective", Kind.Int),
  ("capset.cap_permitted", Kind.Int),
  ("chmod.file.container_path", Kind.String),
  ("chmod.file.destination.mode", Kind.Int),
  ("chmod.file.filesystem", Kind.String),
  ("chmod.file.gid", Kind.Int),
  ("chmod.file.group", Kind.String),
  ("chmod.file.in_upper_layer", Kind.Bool),
  ("chmod.file.inode", Kind.Int),
  ("chmod.file.mode", Kind.Int),
  ("chmod.file.mount_id", Kind.Int),
  ("chmod.file.name", Kind.String),
  ("chmod.file.path", Kind.String),
  ("chmod.file.uid", Kind.Int),
  ("chmod.file.user", Kind.String),
  ("chmod.retval", Kind.Int),
  ("chown.file.container_path", Kind.String),
  ("chown.file.destination.gid", Kind.Int),
  ("chown.file.destination.group", Kind.String),
  ("chown.file.destination.uid", Kind.Int),
  ("chown.file.destination.user", Kind.String),
  ("chown.file.filesystem", Kind.String),
  ("chown.file.gid", Kind.Int),
  ("chown.file.group", Kind.String),
  ("chown.file.in_upper_layer", Kind.Bool),
  ("chown.file.inode", Kind.Int),
  ("chown.file.mode", Kind.Int),
  ("chown.file.mount_id", Kind.Int),
  ("chown.file.name", Kind.String),
  ("chown.file.path", Kind.String),
  ("chown.file.uid", Kind.Int),
  ("chown.file.user", Kind.String),
  ("chown.retval", Kind.Int),
  ("container.id", Kind.String),
  ("exec.args", Kind.String),
  ("exec.args_truncated", Kind.Bool),
  ("exec.cap_effective", Kind.Int),
  ("exec.cap_permitted", Kind.Int),
  ("exec.comm", Kind.String),
  ("exec.cookie", Kind.Int),
  ("exec.egid", Kind.Int),
  ("exec.egroup", Kind.String),
  ("exec.envs", Kind.String),
  ("exec.envs_truncated", Kind.Bool),
  ("exec.euid", Kind.Int),
  ("exec.euser", Kind.String),
  ("exec.file.container_path", Kind.String),
  ("exec.file.filesystem", Kind.String),
  ("exec.file.gid", Kind.Int),
  ("exec.file.group", Kind.String),
  ("exec.file.inode", Kind.Int),
  ("exec.file.mode", Kind.Int),
  ("exec.file.mount_id", Kind.Int),
  ("exec.file.name", Kind.String),
  ("exec.file.path", Kind.String),
  ("exec.file.uid", Kind.Int),
  ("exec.file.user", Kind.String),
  ("exec.fsgid", Kind.Int),
  ("exec.fsgroup", Kind.String),
  ("exec.fsuid", Kind.Int),
  ("exec.fsuser", Kind.String),
  ("exec.gid", Kind.Int),
  ("exec.group", Kind.String),
  ("exec.ppid", Kind.Int),
  ("exec.tty_name", Kind.String),
  ("exec.uid", Kind.Int),
  ("exec.user", Kind.String),
  ("link.file.container_path", Kind.String),
  ("link.file.destination.container_path", Kind.String),
  ("link.file.destination.filesystem", Kind.String),
  ("link.file.destination.gid", Kind.Int),
  ("link.file.destination.group", Kind.String),
  ("link.file.destination.in_upper_layer", Kind.Bool),
  ("link.file.destination.inode", Kind.Int),
  ("link.file.destination.mode", Kind.Int),
  ("link.file.destination.mount_id", Kind.Int),
  ("link.file.destination.name", Kind.String),
  ("link.file.destination.path", Kind.String),
  ("link.file.destination.uid", Kind.Int),
  ("link.file.destination.user", Kind.String),
  ("link.file.filesystem", Kind.String),
  ("link.file.gid", Kind.Int),
  ("link.file.group", Kind.String),
  ("link.file.in_upper_layer", Kind.Bool),
  ("link.file.inode", Kind.Int),
  ("link.file.mode", Kind.Int),
  ("link.file.mount_id", Kind.Int),
  ("link.file.name", Kind.String),
  ("link.file.path", Kind.String),
  ("link.file.uid", Kind.Int),
  ("link.file.user", Kind.String),
  ("link.retval", Kind.Int),
  ("mkdir.file.container_path", Kind.String),
  ("mkdir.file.destination.mode", Kind.Int),
  ("mkdir.file.filesystem", Kind.String),
  ("mkdir.file.gid", Kind.Int),
  ("mkdir.file.group", Kind.String),
  ("mkdir.file.in_upper_layer", Kind.Bool),
  ("mkdir.file.inode", Kind.Int),
  ("mkdir.file.mode", Kind.Int),
  ("mkdir.file.mount_id", Kind.Int),
  ("mkdir.file.name", Kind.String),
  ("mkdir.file.path", Kind.String),
  ("mkdir.file.uid", Kind.Int),
  ("mkdir.file.user", Kind.String),
  ("mkdir.retval", Kind.Int),
  ("open.file.container_path", Kind.String),
  ("open.file.destination.mode", Kind.Int),
  ("open.file.filesystem", Kind.String),
  ("open.file.gid", Kind.Int),
  ("open.file.group", Kind.String),
  ("open.file.in_upper_layer", Kind.Bool),
  ("open.file.inode", Kind.Int),
  ("open.file.mode", Kind.Int),
  ("open.file.mount_id", Kind.Int),
  ("open.file.name", Kind.String),
  ("open.file.path", Kind.String),
  ("open.file.uid", Kind.Int),
  ("open.file.user", Kind.String),
  ("open.flags", Kind.Int),
  ("open.retval", Kind.Int),
  ("process.ancestors.cap_effective", Kind.Int),
  ("process.ancestors.cap_permitted", Kind.Int),
  ("process.ancestors.comm", Kind.String),
  ("process.ancestors.cookie", Kind.Int),
  ("process.ancestors.egid", Kind.Int),
  ("process.ancestors.egroup", Kind.String),
  ("process.ancestors.euid", Kind.Int),
  ("process.ancestors.euser", Kind.String),
  ("process.ancestors.file.container_path", Kind.String),
  ("process.ancestors.file.filesystem", Kind.String),
  ("process.ancestors.file.gid", Kind.Int),
  ("process.ancestors.file.group", Kind.String),
  ("process.ancestors.file.inode", Kind.Int),
  ("process.ancestors.file.mode", Kind.Int),
  ("process.ancestors.file.mount_id", Kind.Int),
  ("process.ancestors.file.name", Kind.String),
  ("process.ancestors.file.path", Kind.String),
  ("process.ancestors.file.uid", Kind.Int),
  ("process.ancestors.file.user", Kind.String),
  ("process.ancestors.fsgid", Kind.Int),
  ("process.ancestors.fsgroup", Kind.String),
  ("process.ancestors.fsuid", Kind.Int),
  ("process.ancestors.fsuser", Kind.String),
  ("process.ancestors.gid", Kind.Int),
  ("process.ancestors.group", Kind.String),
  ("process.ancestors.id", Kind.String),
  ("process.ancestors.pid", Kind.Int),
  ("process.ancestors.ppid", Kind.Int),
  ("process.ancestors.tid", Kind.Int),
  ("process.ancestors.tty_name", Kind.String),
  ("process.ancestors.uid", Kind.Int),
  ("process.ancestors.user", Kind.String),
  ("process.cap_effective", Kind.Int),
  ("process.cap_permitted", Kind.Int),
  ("process.comm", Kind.String),
  ("process.cookie", Kind.Int),
  ("process.egid", Kind.Int),
  ("process.egroup", Kind.String),
  ("process.euid", Kind.Int),
  ("process.euser", Kind.String),
  ("process.file.container_path", Kind.String),
  ("process.file.filesystem", Kind.String),
  ("process.file.gid", Kind.Int),
  ("process.file.group", Kind.String),
  ("process.file.inode", Kind.Int),
  ("process.file.mode", Kind.Int),
  ("process.file.mount_id", Kind.Int),
  ("process.file.name", Kind.String),
  ("process.file.path", Kind.String),
  ("process.file.uid", Kind.Int),
  ("process.file.user", Kind.String),
  ("process.fsgid", Kind.Int),
  ("process.fsgroup", Kind.String),
  ("process.fsuid", Kind.Int),
  ("process.fsuser", Kind.String),
  ("process.gid", Kind.Int),
  ("process.group", Kind.String),
  ("process.pid", Kind.Int),
  ("process.ppid", Kind.Int),
  ("process.tid", Kind.Int),
  ("process.tty_name", Kind.String),
  ("process.uid", Kind.Int),
  ("process.user", Kind.String),
  ("removexattr.file.container_path", Kind.String),
  ("removexattr.file.destination.name", Kind.String),
  ("removexattr.file.destination.namespace", Kind.String),
  ("removexattr.file.filesystem", Kind.String),
  ("removexattr.file.gid", Kind.Int),
  ("removexattr.file.group", Kind.String),
  ("removexattr.file.in_upper_layer", Kind.Bool),
  ("removexattr.file.inode", Kind.Int),
  ("removexattr.file.mode", Kind.Int),
  ("removexattr.file.mount_id", Kind.Int),
  ("removexattr.file.name", Kind.String),
  ("removexattr.file.path", Kind.String),
  ("removexattr.file.uid", Kind.Int),
  ("removexattr.file.user", Kind.String),
  ("removexattr.retval", Kind.Int),
  ("rename.file.container_path", Kind.String),
  ("rename.file.destination.container_path", Kind.String),
  ("rename.file.destination.filesystem", Kind.String),
  ("rename.file.destination.gid", Kind.Int),
  ("rename.file.destination.group", Kind.String),
  ("rename.file.destination.in_upper_layer", Kind.Bool),
  ("rename.file.destination.inode", Kind.Int),
  ("rename.file.destination.mode", Kind.Int),
  ("rename.file.destination.mount_id", Kind.Int),
  ("rename.file.destination.name", Kind.String),
  ("rename.file.destination.path", Kind.String),
  ("rename.file.destination.uid", Kind.Int),
  ("rename.file.destination.user", Kind.String),
  ("rename.file.filesystem", Kind.String),
  ("rename.file.gid", Kind.Int),
  ("rename.file.group", Kind.String),
  ("rename.file.in_upper_layer", Kind.Bool),
  ("rename.file.inode", Kind.Int),
  ("rename.file.mode", Kind.Int),
  ("rename.file.mount_id", Kind.Int),
  ("rename.file.name", Kind.String),
  ("rename.file.path", Kind.String),
  ("rename.file.uid", Kind.Int),
  ("rename.file.user", Kind.String),
  ("rename.retval", Kind.Int),
  ("rmdir.file.container_path", Kind.String),
  ("rmdir.file.filesystem", Kind.String),
  ("rmdir.file.gid", Kind.Int),
  ("rmdir.file.group", Kind.String),
  ("rmdir.file.in_upper_layer", Kind.Bool),
  ("rmdir.file.inode", Kind.Int),
  ("rmdir.file.mode", Kind.Int),
  ("rmdir.file.mount_id", Kind.Int),
  ("rmdir.file.name", Kind.String),
  ("rmdir.file.path", Kind.String),
  ("rmdir.file.uid", Kind.Int),
  ("rmdir.file.user", Kind.String),
  ("rmdir.retval", Kind.Int),
  ("setgid.egid", Kind.Int),
  ("setgid.egroup", Kind.String),
  ("setgid.fsgid", Kind.Int),
  ("setgid.fsgroup", Kind.String),
  ("setgid.gid", Kind.Int),
  ("setgid.group", Kind.String),
  ("setuid.euid", Kind.Int),
  ("setuid.euser", Kind.String),
  ("setuid.fsuid", Kind.Int),
  ("setuid.fsuser", Kind.String),
  ("setuid.uid", Kind.Int),
  ("setuid.user", Kind.String),
  ("setxattr.file.container_path", Kind.String),
  ("setxattr.file.destination.name", Kind.String),
  ("setxattr.file.destination.namespace", Kind.String),
  ("setxattr.file.filesystem", Kind.String),
  ("setxattr.file.gid", Kind.Int),
  ("setxattr.file.group", Kind.String),
  ("setxattr.file.in_upper_layer", Kind.Bool),
  ("setxattr.file.inode", Kind.Int),
  ("setxattr.file.mode", Kind.Int),
  ("setxattr.file.mount_id", Kind.Int),
  ("setxattr.file.name", Kind.String),
  ("setxattr.file.path", Kind.String),
  ("setxattr.file.uid", Kind.Int),
  ("setxattr.file.user", Kind.String),
  ("setxattr.retval", Kind.Int),
  ("unlink.file.container_path", Kind.String),
  ("unlink.file.filesystem", Kind.String),
  ("unlink.file.gid", Kind.Int),
  ("unlink.file.group", Kind.String),
  ("unlink.file.in_upper_layer", Kind.Bool),
  ("unlink.file.inode", Kind.Int),
  ("unlink.file.mode", Kind.Int),
  ("unlink.file.mount_id", Kind.Int),
  ("unlink.file.name", Kind.String),
  ("unlink.file.path", Kind.String),
  ("unlink.file.uid", Kind.Int),
  ("unlink.file.user", Kind.String),
  ("unlink.retval", Kind.Int),
  ("utimes.file.container_path", Kind.String),
  ("utimes.file.filesystem", Kind.String),
  ("utimes.file.gid", Kind.Int),
  ("utimes.file.group", Kind.String),
  ("utimes.file.in_upper_layer", Kind.Bool),
  ("utimes.file.inode", Kind.Int),
  ("utimes.file.mode", Kind.Int),
  ("utimes.file.mount_id", Kind.Int),
  ("utimes.file.name", Kind.String),
  ("utimes.file.path", Kind.String),
  ("utimes.file.uid", Kind.Int),
  ("utimes.file.user", Kind.String),
  ("utimes.retval", Kind.Int)]

/-- The `case` arms of the switch in `Event.SetFieldValue`, in source order. -/
def SetFieldValueCases : List (String × SetCase) := [
  ("capset.cap_effective", SetCase.int false "Capset.CapEffective" (Loc.event "Capset.CapEffective") Conv.uint64),
  ("capset.cap_permitted", SetCase.int false "Capset.CapPermitted" (Loc.event "Capset.CapPermitted") Conv.uint64),
  ("chmod.file.container_path", SetCase.string false "Chmod.File.ContainerPath" (Loc.event "Chmod.File.ContainerPath")),
  ("chmod.file.destination.mode", SetCase.int false "Chmod.Mode" (Loc.event "Chmod.Mode") Conv.uint32),
  ("chmod.file.filesystem", SetCase.string false "Chmod.File.Filesytem" (Loc.event "Chmod.File.Filesytem")),
  ("chmod.file.gid", SetCase.int false "Chmod.File.FileFields.GID" (Loc.event "Chmod.File.FileFields.GID") Conv.uint32),
  ("chmod.file.group", SetCase.string false "Chmod.File.FileFields.Group" (Loc.event "Chmod.File.FileFields.Group")),
  ("chmod.file.in_upper_layer", SetCase.bool false "Chmod.File.InUpperLayer" (Loc.event "Chmod.File.InUpperLayer")),
  ("chmod.file.inode", SetCase.int false "Chmod.File.FileFields.Inode" (Loc.event "Chmod.File.FileFields.Inode") Conv.uint64),
  ("chmod.file.mode", SetCase.int false "Chmod.File.FileFields.Mode" (Loc.event "Chmod.File.FileFields.Mode") Conv.uint16),
  ("chmod.file.mount_id", SetCase.int false "Chmod.File.FileFields.MountID" (Loc.event "Chmod.File.FileFields.MountID") Conv.uint32),
  ("chmod.file.name", SetCase.string false "Chmod.File.BasenameStr" (Loc.event "Chmod.File.BasenameStr")),
  ("chmod.file.path", SetCase.string false "Chmod.File.PathnameStr" (Loc.event "Chmod.File.PathnameStr")),
  ("chmod.file.uid", SetCase.int false "Chmod.File.FileFields.UID" (Loc.event "Chmod.File.FileFields.UID") Conv.uint32),
  ("chmod.file.user", SetCase.string false "Chmod.File.FileFields.User" (Loc.event "Chmod.File.FileFields.User")),
  ("chmod.retval", SetCase.int false "Chmod.SyscallEvent.Retval" (Loc.event "Chmod.SyscallEvent.Retval") Conv.int64),
  ("chown.file.container_path", SetCase.string false "Chown.File.ContainerPath" (Loc.event "Chown.File.ContainerPath")),
  ("chown.file.destination.gid", SetCase.int false "Chown.GID" (Loc.event "Chown.GID") Conv.uint32),
  ("chown.file.destination.group", SetCase.string false "Chown.Group" (Loc.event "Chown.Group")),
  ("chown.file.destination.uid", SetCase.int false "Chown.UID" (Loc.event "Chown.UID") Conv.uint32),
  ("chown.file.destination.user", SetCase.string false "Chown.User" (Loc.event "Chown.User")),
  ("chown.file.filesystem", SetCase.string false "Chown.File.Filesytem" (Loc.event "Chown.File.Filesytem")),
  ("chown.file.gid", SetCase.int false "Chown.File.FileFields.GID" (Loc.event "Chown.File.FileFields.GID") Conv.uint32),
  ("chown.file.group", SetCase.string false "Chown.File.FileFields.Group" (Loc.event "Chown.File.FileFields.Group")),
  ("chown.file.in_upper_layer", SetCase.bool false "Chown.File.InUpperLayer" (Loc.event "Chown.File.InUpperLayer")),
  ("chown.file.inode", SetCase.int false "Chown.File.FileFields.Inode" (Loc.event "Chown.File.FileFields.Inode") Conv.uint64),
  ("chown.file.mode", SetCase.int false "Chown.File.FileFields.Mode" (Loc.event "Chown.File.FileFields.Mode") Conv.uint16),
  ("chown.file.mount_id", SetCase.int false "Chown.File.FileFields.MountID" (Loc.event "Chown.File.FileFields.MountID") Conv.uint32),
  ("chown.file.name", SetCase.string false "Chown.File.BasenameStr" (Loc.event "Chown.File.BasenameStr")),
  ("chown.file.path", SetCase.string false "Chown.File.PathnameStr" (Loc.event "Chown.File.PathnameStr")),
  ("chown.file.uid", SetCase.int false "Chown.File.FileFields.UID" (Loc.event "Chown.File.FileFields.UID") Conv.uint32),
  ("chown.file.user", SetCase.string false "Chown.File.FileFields.User" (Loc.event "Chown.File.FileFields.User")),
  ("chown.retval", SetCase.int false "Chown.SyscallEvent.Retval" (Loc.event "Chown.SyscallEvent.Retval") Conv.int64),
  ("container.id", SetCase.string false "ContainerContext.ID" (Loc.event "ContainerContext.ID")),
  ("exec.args", SetCase.string false "Exec.Args" (Loc.event "Exec.Args")),
  ("exec.args_truncated", SetCase.bool false "Exec.ArgsTruncated" (Loc.event "Exec.ArgsTruncated")),
  ("exec.cap_effective", SetCase.int false "Exec.Process.Credentials.CapEffective" (Loc.event "Exec.Process.Credentials.CapEffective") Conv.uint64),
  ("exec.cap_permitted", SetCase.int false "Exec.Process.Credentials.CapPermitted" (Loc.event "Exec.Process.Credentials.CapPermitted") Conv.uint64),
  ("exec.comm", SetCase.string false "Exec.Process.Comm" (Loc.event "Exec.Process.Comm")),
  ("exec.cookie", SetCase.int false "Exec.Process.Cookie" (Loc.event "Exec.Process.Cookie") Conv.uint32),
  ("exec.egid", SetCase.int false "Exec.Process.Credentials.EGID" (Loc.event "Exec.Process.Credentials.EGID") Conv.uint32),
  ("exec.egroup", SetCase.string false "Exec.Process.Credentials.EGroup" (Loc.event "Exec.Process.Credentials.EGroup")),
  ("exec.envs", SetCase.string false "Exec.Envs" (Loc.event "Exec.Envs")),
  ("exec.envs_truncated", SetCase.bool false "Exec.EnvsTruncated" (Loc.event "Exec.EnvsTruncated")),
  ("exec.euid", SetCase.int false "Exec.Process.Credentials.EUID" (Loc.event "Exec.Process.Credentials.EUID") Conv.uint32),
  ("exec.euser", SetCase.string false "Exec.Process.Credentials.EUser" (Loc.event "Exec.Process.Credentials.EUser")),
  ("exec.file.container_path", SetCase.string false "Exec.Process.ContainerPath" (Loc.event "Exec.Process.ContainerPath")),
  ("exec.file.filesystem", SetCase.string false "Exec.Process.Filesystem" (Loc.event "Exec.Process.Filesystem")),
  ("exec.file.gid", SetCase.int false "Exec.Process.FileFields.GID" (Loc.event "Exec.Process.FileFields.GID") Conv.uint32),
  ("exec.file.group", SetCase.string false "Exec.Process.FileFields.Group" (Loc.event "Exec.Process.FileFields.Group")),
  ("exec.file.inode", SetCase.int false "Exec.Process.FileFields.Inode" (Loc.event "Exec.Process.FileFields.Inode") Conv.uint64),
  ("exec.file.mode", SetCase.int false "Exec.Process.FileFields.Mode" (Loc.event "Exec.Process.FileFields.Mode") Conv.uint16),
  ("exec.file.mount_id", SetCase.int false "Exec.Process.FileFields.MountID" (Loc.event "Exec.Process.FileFields.MountID") Conv.uint32),
  ("exec.file.name", SetCase.string false "Exec.Process.BasenameStr" (Loc.event "Exec.Process.BasenameStr")),
  ("exec.file.path", SetCase.string false "Exec.Process.PathnameStr" (Loc.event "Exec.Process.PathnameStr")),
  ("exec.file.uid", SetCase.int false "Exec.Process.FileFields.UID" (Loc.event "Exec.Process.FileFields.UID") Conv.uint32),
  ("exec.file.user", SetCase.string false "Exec.Process.FileFields.User" (Loc.event "Exec.Process.FileFields.User")),
  ("exec.fsgid", SetCase.int false "Exec.Process.Credentials.FSGID" (Loc.event "Exec.Process.Credentials.FSGID") Conv.uint32),
  ("exec.fsgroup", SetCase.string false "Exec.Process.Credentials.FSGroup" (Loc.event "Exec.Process.Credentials.FSGroup")),
  ("exec.fsuid", SetCase.int false "Exec.Process.Credentials.FSUID" (Loc.event "Exec.Process.Credentials.FSUID") Conv.uint32),
  ("exec.fsuser", SetCase.string false "Exec.Process.Credentials.FSUser" (Loc.event "Exec.Process.Credentials.FSUser")),
  ("exec.gid", SetCase.int false "Exec.Process.Credentials.GID" (Loc.event "Exec.Process.Credentials.GID") Conv.uint32),
  ("exec.group", SetCase.string false "Exec.Process.Credentials.Group" (Loc.event "Exec.Process.Credentials.Group")),
  ("exec.ppid", SetCase.int false "Exec.Process.PPid" (Loc.event "Exec.Process.PPid") Conv.uint32),
  ("exec.tty_name", SetCase.string false "Exec.Process.TTYName" (Loc.event "Exec.Process.TTYName")),
  ("exec.uid", SetCase.int false "Exec.Process.Credentials.UID" (Loc.event "Exec.Process.Credentials.UID") Conv.uint32),
  ("exec.user", SetCase.string false "Exec.Process.Credentials.User" (Loc.event "Exec.Process.Credentials.User")),
  ("link.file.container_path", SetCase.string false "Link.Source.ContainerPath" (Loc.event "Link.Source.ContainerPath")),
  ("link.file.destination.container_path", SetCase.string false "Link.Target.ContainerPath" (Loc.event "Link.Target.ContainerPath")),
  ("link.file.destination.filesystem", SetCase.string false "Link.Target.Filesytem" (Loc.event "Link.Target.Filesytem")),
  ("link.file.destination.gid", SetCase.int false "Link.Target.FileFields.GID" (Loc.event "Link.Target.FileFields.GID") Conv.uint32),
  ("link.file.destination.group", SetCase.string false "Link.Target.FileFields.Group" (Loc.event "Link.Target.FileFields.Group")),
  ("link.file.destination.in_upper_layer", SetCase.bool false "Link.Target.InUpperLayer" (Loc.event "Link.Target.InUpperLayer")),
  ("link.file.destination.inode", SetCase.int false "Link.Target.FileFields.Inode" (Loc.event "Link.Target.FileFields.Inode") Conv.uint64),
  ("link.file.destination.mode", SetCase.int false "Link.Target.FileFields.Mode" (Loc.event "Link.Target.FileFields.Mode") Conv.uint16),
  ("link.file.destination.mount_id", SetCase.int false "Link.Target.FileFields.MountID" (Loc.event "Link.Target.FileFields.MountID") Conv.uint32),
  ("link.file.destination.name", SetCase.string false "Link.Target.BasenameStr" (Loc.event "Link.Target.BasenameStr")),
  ("link.file.destination.path", SetCase.string false "Link.Target.PathnameStr" (Loc.event "Link.Target.PathnameStr")),
  ("link.file.destination.uid", SetCase.int false "Link.Target.FileFields.UID" (Loc.event "Link.Target.FileFields.UID") Conv.uint32),
  ("link.file.destination.user", SetCase.string false "Link.Target.FileFields.User" (Loc.event "Link.Target.FileFields.User")),
  ("link.file.filesystem", SetCase.string false "Link.Source.Filesytem" (Loc.event "Link.Source.Filesytem")),
  ("link.file.gid", SetCase.int false "Link.Source.FileFields.GID" (Loc.event "Link.Source.FileFields.GID") Conv.uint32),
  ("link.file.group", SetCase.string false "Link.Source.FileFields.Group" (Loc.event "Link.Source.FileFields.Group")),
  ("link.file.in_upper_layer", SetCase.bool false "Link.Source.InUpperLayer" (Loc.event "Link.Source.InUpperLayer")),
  ("link.file.inode", SetCase.int false "Link.Source.FileFields.Inode" (Loc.event "Link.Source.FileFields.Inode") Conv.uint64),
  ("link.file.mode", SetCase.int false "Link.Source.FileFields.Mode" (Loc.event "Link.Source.FileFields.Mode") Conv.uint16),
  ("link.file.mount_id", SetCase.int false "Link.Source.FileFields.MountID" (Loc.event "Link.Source.FileFields.MountID") Conv.uint32),
  ("link.file.name", SetCase.string false "Link.Source.BasenameStr" (Loc.event "Link.Source.BasenameStr")),
  ("link.file.path", SetCase.string false "Link.Source.PathnameStr" (Loc.event "Link.Source.PathnameStr")),
  ("link.file.uid", SetCase.int false "Link.Source.FileFields.UID" (Loc.event "Link.Source.FileFields.UID") Conv.uint32),
  ("link.file.user", SetCase.string false "Link.Source.FileFields.User" (Loc.event "Link.Source.FileFields.User")),
  ("link.retval", SetCase.int false "Link.SyscallEvent.Retval" (Loc.event "Link.SyscallEvent.Retval") Conv.int64),
  ("mkdir.file.container_path", SetCase.string false "Mkdir.File.ContainerPath" (Loc.event "Mkdir.File.ContainerPath")),
  ("mkdir.file.destination.mode", SetCase.int false "Mkdir.Mode" (Loc.event "Mkdir.Mode") Conv.uint32),
  ("mkdir.file.filesystem", SetCase.string false "Mkdir.File.Filesytem" (Loc.event "Mkdir.File.Filesytem")),
  ("mkdir.file.gid", SetCase.int false "Mkdir.File.FileFields.GID" (Loc.event "Mkdir.File.FileFields.GID") Conv.uint32),
  ("mkdir.file.group", SetCase.string false "Mkdir.File.FileFields.Group" (Loc.event "Mkdir.File.FileFields.Group")),
  ("mkdir.file.in_upper_layer", SetCase.bool false "Mkdir.File.InUpperLayer" (Loc.event "Mkdir.File.InUpperLayer")),
  ("mkdir.file.inode", SetCase.int false "Mkdir.File.FileFields.Inode" (Loc.event "Mkdir.File.FileFields.Inode") Conv.uint64),
  ("mkdir.file.mode", SetCase.int false "Mkdir.File.FileFields.Mode" (Loc.event "Mkdir.File.FileFields.Mode") Conv.uint16),
  ("mkdir.file.mount_id", SetCase.int false "Mkdir.File.FileFields.MountID" (Loc.event "Mkdir.File.FileFields.MountID") Conv.uint32),
  ("mkdir.file.name", SetCase.string false "Mkdir.File.BasenameStr" (Loc.event "Mkdir.File.BasenameStr")),
  ("mkdir.file.path", SetCase.string false "Mkdir.File.PathnameStr" (Loc.event "Mkdir.File.PathnameStr")),
  ("mkdir.file.uid", SetCase.int false "Mkdir.File.FileFields.UID" (Loc.event "Mkdir.File.FileFields.UID") Conv.uint32),
  ("mkdir.file.user", SetCase.string false "Mkdir.File.FileFields.User" (Loc.event "Mkdir.File.FileFields.User")),
  ("mkdir.retval", SetCase.int false "Mkdir.SyscallEvent.Retval" (Loc.event "Mkdir.SyscallEvent.Retval") Conv.int64),
  ("open.file.container_path", SetCase.string false "Open.File.ContainerPath" (Loc.event "Open.File.ContainerPath")),
  ("open.file.destination.mode", SetCase.int false "Open.Mode" (Loc.event "Open.Mode") Conv.uint32),
  ("open.file.filesystem", SetCase.string false "Open.File.Filesytem" (Loc.event "Open.File.Filesytem")),
  ("open.file.gid", SetCase.int false "Open.File.FileFields.GID" (Loc.event "Open.File.FileFields.GID") Conv.uint32),
  ("open.file.group", SetCase.string false "Open.File.FileFields.Group" (Loc.event "Open.File.FileFields.Group")),
  ("open.file.in_upper_layer", SetCase.bool false "Open.File.InUpperLayer" (Loc.event "Open.File.InUpperLayer")),
  ("open.file.inode", SetCase.int false "Open.File.FileFields.Inode" (Loc.event "Open.File.FileFields.Inode") Conv.uint64),
  ("open.file.mode", SetCase.int false "Open.File.FileFields.Mode" (Loc.event "Open.File.FileFields.Mode") Conv.uint16),
  ("open.file.mount_id", SetCase.int false "Open.File.FileFields.MountID" (Loc.event "Open.File.FileFields.MountID") Conv.uint32),
  ("open.file.name", SetCase.string false "Open.File.BasenameStr" (Loc.event "Open.File.BasenameStr")),
  ("open.file.path", SetCase.string false "Open.File.PathnameStr" (Loc.event "Open.File.PathnameStr")),
  ("open.file.uid", SetCase.int false "Open.File.FileFields.UID" (Loc.event "Open.File.FileFields.UID") Conv.uint32),
  ("open.file.user", SetCase.string false "Open.File.FileFields.User" (Loc.event "Open.File.FileFields.User")),
  ("open.flags", SetCase.int false "Open.Flags" (Loc.event "Open.Flags") Conv.uint32),
  ("open.retval", SetCase.int false "Open.SyscallEvent.Retval" (Loc.event "Open.SyscallEvent.Retval") Conv.int64),
  ("process.ancestors.cap_effective", SetCase.int true "ProcessContext.Ancestor.ProcessContext.Process.Credentials.CapEffective" (Loc.ancestor "ProcessContext.Process.Credentials.CapEffective") Conv.uint64),
  ("process.ancestors.cap_permitted", SetCase.int true "ProcessContext.Ancestor.ProcessContext.Process.Credentials.CapPermitted" (Loc.ancestor "ProcessContext.Process.Credentials.CapPermitted") Conv.uint64),
  ("process.ancestors.comm", SetCase.string true "ProcessContext.Ancestor.ProcessContext.Process.Comm" (Loc.ancestor "ProcessContext.Process.Comm")),
  ("process.ancestors.cookie", SetCase.int true "ProcessContext.Ancestor.ProcessContext.Process.Cookie" (Loc.ancestor "ProcessContext.Process.Cookie") Conv.uint32),
  ("process.ancestors.egid", SetCase.int true "ProcessContext.Ancestor.ProcessContext.Process.Credentials.EGID" (Loc.ancestor "ProcessContext.Process.Credentials.EGID") Conv.uint32),
  ("process.ancestors.egroup", SetCase.string true "ProcessContext.Ancestor.ProcessContext.Process.Credentials.EGroup" (Loc.ancestor "ProcessContext.Process.Credentials.EGroup")),
  ("process.ancestors.euid", SetCase.int true "ProcessContext.Ancestor.ProcessContext.Process.Credentials.EUID" (Loc.ancestor "ProcessContext.Process.Credentials.EUID") Conv.uint32),
  ("process.ancestors.euser", SetCase.string true "ProcessContext.Ancestor.ProcessContext.Process.Credentials.EUser" (Loc.ancestor "ProcessContext.Process.Credentials.EUser")),
  ("process.ancestors.file.container_path", SetCase.string true "ProcessContext.Ancestor.ProcessContext.Process.ContainerPath" (Loc.ancestor "ProcessContext.Process.ContainerPath")),
  ("process.ancestors.file.filesystem", SetCase.string true "ProcessContext.Ancestor.ProcessContext.Process.Filesystem" (Loc.ancestor "ProcessContext.Process.Filesystem")),
  ("process.ancestors.file.gid", SetCase.int true "ProcessContext.Ancestor.ProcessContext.Process.FileFields.GID" (Loc.ancestor "ProcessContext.Process.FileFields.GID") Conv.uint32),
  ("process.ancestors.file.group", SetCase.string true "ProcessContext.Ancestor.ProcessContext.Process.FileFields.Group" (Loc.ancestor "ProcessContext.Process.FileFields.Group")),
  ("process.ancestors.file.inode", SetCase.int true "ProcessContext.Ancestor.ProcessContext.Process.FileFields.Inode" (Loc.ancestor "ProcessContext.Process.FileFields.Inode") Conv.uint64),
  ("process.ancestors.file.mode", SetCase.int true "ProcessContext.Ancestor.ProcessContext.Process.FileFields.Mode" (Loc.ancestor "ProcessContext.Process.FileFields.Mode") Conv.uint16),
  ("process.ancestors.file.mount_id", SetCase.int true "ProcessContext.Ancestor.ProcessContext.Process.FileFields.MountID" (Loc.ancestor "ProcessContext.Process.FileFields.MountID") Conv.uint32),
  ("process.ancestors.file.name", SetCase.string true "ProcessContext.Ancestor.ProcessContext.Process.BasenameStr" (Loc.ancestor "ProcessContext.Process.BasenameStr")),
  ("process.ancestors.file.path", SetCase.string true "ProcessContext.Ancestor.ProcessContext.Process.PathnameStr" (Loc.ancestor "ProcessContext.Process.PathnameStr")),
  ("process.ancestors.file.uid", SetCase.int true "ProcessContext.Ancestor.ProcessContext.Process.FileFields.UID" (Loc.ancestor "ProcessContext.Process.FileFields.UID") Conv.uint32),
  ("process.ancestors.file.user", SetCase.string true "ProcessContext.Ancestor.ProcessContext.Process.FileFields.User" (Loc.ancestor "ProcessContext.Process.FileFields.User")),
  ("process.ancestors.fsgid", SetCase.int true "ProcessContext.Ancestor.ProcessContext.Process.Credentials.FSGID" (Loc.ancestor "ProcessContext.Process.Credentials.FSGID") Conv.uint32),
  ("process.ancestors.fsgroup", SetCase.string true "ProcessContext.Ancestor.ProcessContext.Process.Credentials.FSGroup" (Loc.ancestor "ProcessContext.Process.Credentials.FSGroup")),
  ("process.ancestors.fsuid", SetCase.int true "ProcessContext.Ancestor.ProcessContext.Process.Credentials.FSUID" (Loc.ancestor "ProcessContext.Process.Credentials.FSUID") Conv.uint32),
  ("process.ancestors.fsuser", SetCase.string true "ProcessContext.Ancestor.ProcessContext.Process.Credentials.FSUser" (Loc.ancestor "ProcessContext.Process.Credentials.FSUser")),
  ("process.ancestors.gid", SetCase.int true "ProcessContext.Ancestor.ProcessContext.Process.Credentials.GID" (Loc.ancestor "ProcessContext.Process.Credentials.GID") Conv.uint32),
  ("process.ancestors.group", SetCase.string true "ProcessContext.Ancestor.ProcessContext.Process.Credentials.Group" (Loc.ancestor "ProcessContext.Process.Credentials.Group")),
  ("process.ancestors.id", SetCase.string true "ProcessContext.Ancestor.ContainerContext.ID" (Loc.ancestor "ContainerContext.ID")),
  ("process.ancestors.pid", SetCase.int true "ProcessContext.Ancestor.ProcessContext.Pid" (Loc.ancestor "ProcessContext.Pid") Conv.uint32),
  ("process.ancestors.ppid", SetCase.int true "ProcessContext.Ancestor.ProcessContext.Process.PPid" (Loc.ancestor "ProcessContext.Process.PPid") Conv.uint32),
  ("process.ancestors.tid", SetCase.int true "ProcessContext.Ancestor.ProcessContext.Tid" (Loc.ancestor "ProcessContext.Tid") Conv.uint32),
  ("process.ancestors.tty_name", SetCase.string true "ProcessContext.Ancestor.ProcessContext.Process.TTYName" (Loc.ancestor "ProcessContext.Process.TTYName")),
  ("process.ancestors.uid", SetCase.int true "ProcessContext.Ancestor.ProcessContext.Process.Credentials.UID" (Loc.ancestor "ProcessContext.Process.Credentials.UID") Conv.uint32),
  ("process.ancestors.user", SetCase.string true "ProcessContext.Ancestor.ProcessContext.Process.Credentials.User" (Loc.ancestor "ProcessContext.Process.Credentials.User")),
  ("process.cap_effective", SetCase.int false "ProcessContext.Process.Credentials.CapEffective" (Loc.event "ProcessContext.Process.Credentials.CapEffective") Conv.uint64),
  ("process.cap_permitted", SetCase.int false "ProcessContext.Process.Credentials.CapPermitted" (Loc.event "ProcessContext.Process.Credentials.CapPermitted") Conv.uint64),
  ("process.comm", SetCase.string false "ProcessContext.Process.Comm" (Loc.event "ProcessContext.Process.Comm")),
  ("process.cookie", SetCase.int false "ProcessContext.Process.Cookie" (Loc.event "ProcessContext.Process.Cookie") Conv.uint32),
  ("process.egid", SetCase.int false "ProcessContext.Process.Credentials.EGID" (Loc.event "ProcessContext.Process.Credentials.EGID") Conv.uint32),
  ("process.egroup", SetCase.string false "ProcessContext.Process.Credentials.EGroup" (Loc.event "ProcessContext.Process.Credentials.EGroup")),
  ("process.euid", SetCase.int false "ProcessContext.Process.Credentials.EUID" (Loc.event "ProcessContext.Process.Credentials.EUID") Conv.uint32),
  ("process.euser", SetCase.string false "ProcessContext.Process.Credentials.EUser" (Loc.event "ProcessContext.Process.Credentials.EUser")),
  ("process.file.container_path", SetCase.string false "ProcessContext.Process.ContainerPath" (Loc.event "ProcessContext.Process.ContainerPath")),
  ("process.file.filesystem", SetCase.string false "ProcessContext.Process.Filesystem" (Loc.event "ProcessContext.Process.Filesystem")),
  ("process.file.gid", SetCase.int false "ProcessContext.Process.FileFields.GID" (Loc.event "ProcessContext.Process.FileFields.GID") Conv.uint32),
  ("process.file.group", SetCase.string false "ProcessContext.Process.FileFields.Group" (Loc.event "ProcessContext.Process.FileFields.Group")),
  ("process.file.inode", SetCase.int false "ProcessContext.Process.FileFields.Inode" (Loc.event "ProcessContext.Process.FileFields.Inode") Conv.uint64),
  ("process.file.mode", SetCase.int false "ProcessContext.Process.FileFields.Mode" (Loc.event "ProcessContext.Process.FileFields.Mode") Conv.uint16),
  ("process.file.mount_id", SetCase.int false "ProcessContext.Process.FileFields.MountID" (Loc.event "ProcessContext.Process.FileFields.MountID") Conv.uint32),
  ("process.file.name", SetCase.string false "ProcessContext.Process.BasenameStr" (Loc.event "ProcessContext.Process.BasenameStr")),
  ("process.file.path", SetCase.string false "ProcessContext.Process.PathnameStr" (Loc.event "ProcessContext.Process.PathnameStr")),
  ("process.file.uid", SetCase.int false "ProcessContext.Process.FileFields.UID" (Loc.event "ProcessContext.Process.FileFields.UID") Conv.uint32),
  ("process.file.user", SetCase.string false "ProcessContext.Process.FileFields.User" (Loc.event "ProcessContext.Process.FileFields.User")),
  ("process.fsgid", SetCase.int false "ProcessContext.Process.Credentials.FSGID" (Loc.event "ProcessContext.Process.Credentials.FSGID") Conv.uint32),
  ("process.fsgroup", SetCase.string false "ProcessContext.Process.Credentials.FSGroup" (Loc.event "ProcessContext.Process.Credentials.FSGroup")),
  ("process.fsuid", SetCase.int false "ProcessContext.Process.Credentials.FSUID" (Loc.event "ProcessContext.Process.Credentials.FSUID") Conv.uint32),
  ("process.fsuser", SetCase.string false "ProcessContext.Process.Credentials.FSUser" (Loc.event "ProcessContext.Process.Credentials.FSUser")),
  ("process.gid", SetCase.int false "ProcessContext.Process.Credentials.GID" (Loc.event "ProcessContext.Process.Credentials.GID") Conv.uint32),
  ("process.group", SetCase.string false "ProcessContext.Process.Credentials.Group" (Loc.event "ProcessContext.Process.Credentials.Group")),
  ("process.pid", SetCase.int false "ProcessContext.Pid" (Loc.event "ProcessContext.Pid") Conv.uint32),
  ("process.ppid", SetCase.int false "ProcessContext.Process.PPid" (Loc.event "ProcessContext.Process.PPid") Conv.uint32),
  ("process.tid", SetCase.int false "ProcessContext.Tid" (Loc.event "ProcessContext.Tid") Conv.uint32),
  ("process.tty_name", SetCase.string false "ProcessContext.Process.TTYName" (Loc.event "ProcessContext.Process.TTYName")),
  ("process.uid", SetCase.int false "ProcessContext.Process.Credentials.UID" (Loc.event "ProcessContext.Process.Credentials.UID") Conv.uint32),
  ("process.user", SetCase.string false "ProcessContext.Process.Credentials.User" (Loc.event "ProcessContext.Process.Credentials.User")),
  ("removexattr.file.container_path", SetCase.string false "RemoveXAttr.File.ContainerPath" (Loc.event "RemoveXAttr.File.ContainerPath")),
  ("removexattr.file.destination.name", SetCase.string false "RemoveXAttr.Name" (Loc.event "RemoveXAttr.Name")),
  ("removexattr.file.destination.namespace", SetCase.string false "RemoveXAttr.Namespace" (Loc.event "RemoveXAttr.Namespace")),
  ("removexattr.file.filesystem", SetCase.string false "RemoveXAttr.File.Filesytem" (Loc.event "RemoveXAttr.File.Filesytem")),
  ("removexattr.file.gid", SetCase.int false "RemoveXAttr.File.FileFields.GID" (Loc.event "RemoveXAttr.File.FileFields.GID") Conv.uint32),
  ("removexattr.file.group", SetCase.string false "RemoveXAttr.File.FileFields.Group" (Loc.event "RemoveXAttr.File.FileFields.Group")),
  ("removexattr.file.in_upper_layer", SetCase.bool false "RemoveXAttr.File.InUpperLayer" (Loc.event "RemoveXAttr.File.InUpperLayer")),
  ("removexattr.file.inode", SetCase.int false "RemoveXAttr.File.FileFields.Inode" (Loc.event "RemoveXAttr.File.FileFields.Inode") Conv.uint64),
  ("removexattr.file.mode", SetCase.int false "RemoveXAttr.File.FileFields.Mode" (Loc.event "RemoveXAttr.File.FileFields.Mode") Conv.uint16),
  ("removexattr.file.mount_id", SetCase.int false "RemoveXAttr.File.FileFields.MountID" (Loc.event "RemoveXAttr.File.FileFields.MountID") Conv.uint32),
  ("removexattr.file.name", SetCase.string false "RemoveXAttr.File.BasenameStr" (Loc.event "RemoveXAttr.File.BasenameStr")),
  ("removexattr.file.path", SetCase.string false "RemoveXAttr.File.PathnameStr" (Loc.event "RemoveXAttr.File.PathnameStr")),
  ("removexattr.file.uid", SetCase.int false "RemoveXAttr.File.FileFields.UID" (Loc.event "RemoveXAttr.File.FileFields.UID") Conv.uint32),
  ("removexattr.file.user", SetCase.string false "RemoveXAttr.File.FileFields.User" (Loc.event "RemoveXAttr.File.FileFields.User")),
  ("removexattr.retval", SetCase.int false "RemoveXAttr.SyscallEvent.Retval" (Loc.event "RemoveXAttr.SyscallEvent.Retval") Conv.int64),
  ("rename.file.container_path", SetCase.string false "Rename.Old.ContainerPath" (Loc.event "Rename.Old.ContainerPath")),
  ("rename.file.destination.container_path", SetCase.string false "Rename.New.ContainerPath" (Loc.event "Rename.New.ContainerPath")),
  ("rename.file.destination.filesystem", SetCase.string false "Rename.New.Filesytem" (Loc.event "Rename.New.Filesytem")),
  ("rename.file.destination.gid", SetCase.int false "Rename.New.FileFields.GID" (Loc.event "Rename.New.FileFields.GID") Conv.uint32),
  ("rename.file.destination.group", SetCase.string false "Rename.New.FileFields.Group" (Loc.event "Rename.New.FileFields.Group")),
  ("rename.file.destination.in_upper_layer", SetCase.bool false "Rename.New.InUpperLayer" (Loc.event "Rename.New.InUpperLayer")),
  ("rename.file.destination.inode", SetCase.int false "Rename.New.FileFields.Inode" (Loc.event "Rename.New.FileFields.Inode") Conv.uint64),
  ("rename.file.destination.mode", SetCase.int false "Rename.New.FileFields.Mode" (Loc.event "Rename.New.FileFields.Mode") Conv.uint16),
  ("rename.file.destination.mount_id", SetCase.int false "Rename.New.FileFields.MountID" (Loc.event "Rename.New.FileFields.MountID") Conv.uint32),
  ("rename.file.destination.name", SetCase.string false "Rename.New.BasenameStr" (Loc.event "Rename.New.BasenameStr")),
  ("rename.file.destination.path", SetCase.string false "Rename.New.PathnameStr" (Loc.event "Rename.New.PathnameStr")),
  ("rename.file.destination.uid", SetCase.int false "Rename.New.FileFields.UID" (Loc.event "Rename.New.FileFields.UID") Conv.uint32),
  ("rename.file.destination.user", SetCase.string false "Rename.New.FileFields.User" (Loc.event "Rename.New.FileFields.User")),
  ("rename.file.filesystem", SetCase.string false "Rename.Old.Filesytem" (Loc.event "Rename.Old.Filesytem")),
  ("rename.file.gid", SetCase.int false "Rename.Old.FileFields.GID" (Loc.event "Rename.Old.FileFields.GID") Conv.uint32),
  ("rename.file.group", SetCase.string false "Rename.Old.FileFields.Group" (Loc.event "Rename.Old.FileFields.Group")),
  ("rename.file.in_upper_layer", SetCase.bool false "Rename.Old.InUpperLayer" (Loc.event "Rename.Old.InUpperLayer")),
  ("rename.file.inode", SetCase.int false "Rename.Old.FileFields.Inode" (Loc.event "Rename.Old.FileFields.Inode") Conv.uint64),
  ("rename.file.mode", SetCase.int false "Rename.Old.FileFields.Mode" (Loc.event "Rename.Old.FileFields.Mode") Conv.uint16),
  ("rename.file.mount_id", SetCase.int false "Rename.Old.FileFields.MountID" (Loc.event "Rename.Old.FileFields.MountID") Conv.uint32),
  ("rename.file.name", SetCase.string false "Rename.Old.BasenameStr" (Loc.event "Rename.Old.BasenameStr")),
  ("rename.file.path", SetCase.string false "Rename.Old.PathnameStr" (Loc.event "Rename.Old.PathnameStr")),
  ("rename.file.uid", SetCase.int false "Rename.Old.FileFields.UID" (Loc.event "Rename.Old.FileFields.UID") Conv.uint32),
  ("rename.file.user", SetCase.string false "Rename.Old.FileFields.User" (Loc.event "Rename.Old.FileFields.User")),
  ("rename.retval", SetCase.int false "Rename.SyscallEvent.Retval" (Loc.event "Rename.SyscallEvent.Retval") Conv.int64),
  ("rmdir.file.container_path", SetCase.string false "Rmdir.File.ContainerPath" (Loc.event "Rmdir.File.ContainerPath")),
  ("rmdir.file.filesystem", SetCase.string false "Rmdir.File.Filesytem" (Loc.event "Rmdir.File.Filesytem")),
  ("rmdir.file.gid", SetCase.int false "Rmdir.File.FileFields.GID" (Loc.event "Rmdir.File.FileFields.GID") Conv.uint32),
  ("rmdir.file.group", SetCase.string false "Rmdir.File.FileFields.Group" (Loc.event "Rmdir.File.FileFields.Group")),
  ("rmdir.file.in_upper_layer", SetCase.bool false "Rmdir.File.InUpperLayer" (Loc.event "Rmdir.File.InUpperLayer")),
  ("rmdir.file.inode", SetCase.int false "Rmdir.File.FileFields.Inode" (Loc.event "Rmdir.File.FileFields.Inode") Conv.uint64),
  ("rmdir.file.mode", SetCase.int false "Rmdir.File.FileFields.Mode" (Loc.event "Rmdir.File.FileFields.Mode") Conv.uint16),
  ("rmdir.file.mount_id", SetCase.int false "Rmdir.File.FileFields.MountID" (Loc.event "Rmdir.File.FileFields.MountID") Conv.uint32),
  ("rmdir.file.name", SetCase.string false "Rmdir.File.BasenameStr" (Loc.event "Rmdir.File.BasenameStr")),
  ("rmdir.file.path", SetCase.string false "Rmdir.File.PathnameStr" (Loc.event "Rmdir.File.PathnameStr")),
  ("rmdir.file.uid", SetCase.int false "Rmdir.File.FileFields.UID" (Loc.event "Rmdir.File.FileFields.UID") Conv.uint32),
  ("rmdir.file.user", SetCase.string false "Rmdir.File.FileFields.User" (Loc.event "Rmdir.File.FileFields.User")),
  ("rmdir.retval", SetCase.int false "Rmdir.SyscallEvent.Retval" (Loc.event "Rmdir.SyscallEvent.Retval") Conv.int64),
  ("setgid.egid", SetCase.int false "SetGID.EGID" (Loc.event "SetGID.EGID") Conv.uint32),
  ("setgid.egroup", SetCase.string false "SetGID.EGroup" (Loc.event "SetGID.EGroup")),
  ("setgid.fsgid", SetCase.int false "SetGID.FSGID" (Loc.event "SetGID.FSGID") Conv.uint32),
  ("setgid.fsgroup", SetCase.string false "SetGID.FSGroup" (Loc.event "SetGID.FSGroup")),
  ("setgid.gid", SetCase.int false "SetGID.GID" (Loc.event "SetGID.GID") Conv.uint32),
  ("setgid.group", SetCase.string false "SetGID.Group" (Loc.event "SetGID.Group")),
  ("setuid.euid", SetCase.int false "SetUID.EUID" (Loc.event "SetUID.EUID") Conv.uint32),
  ("setuid.euser", SetCase.string false "SetUID.EUser" (Loc.event "SetUID.EUser")),
  ("setuid.fsuid", SetCase.int false "SetUID.FSUID" (Loc.event "SetUID.FSUID") Conv.uint32),
  ("setuid.fsuser", SetCase.string false "SetUID.FSUser" (Loc.event "SetUID.FSUser")),
  ("setuid.uid", SetCase.int false "SetUID.UID" (Loc.event "SetUID.UID") Conv.uint32),
  ("setuid.user", SetCase.string false "SetUID.User" (Loc.event "SetUID.User")),
  ("setxattr.file.container_path", SetCase.string false "SetXAttr.File.ContainerPath" (Loc.event "SetXAttr.File.ContainerPath")),
  ("setxattr.file.destination.name", SetCase.string false "SetXAttr.Name" (Loc.event "SetXAttr.Name")),
  ("setxattr.file.destination.namespace", SetCase.string false "SetXAttr.Namespace" (Loc.event "SetXAttr.Namespace")),
  ("setxattr.file.filesystem", SetCase.string false "SetXAttr.File.Filesytem" (Loc.event "SetXAttr.File.Filesytem")),
  ("setxattr.file.gid", SetCase.int false "SetXAttr.File.FileFields.GID" (Loc.event "SetXAttr.File.FileFields.GID") Conv.uint32),
  ("setxattr.file.group", SetCase.string false "SetXAttr.File.FileFields.Group" (Loc.event "SetXAttr.File.FileFields.Group")),
  ("setxattr.file.in_upper_layer", SetCase.bool false "SetXAttr.File.InUpperLayer" (Loc.event "SetXAttr.File.InUpperLayer")),
  ("setxattr.file.inode", SetCase.int false "SetXAttr.File.FileFields.Inode" (Loc.event "SetXAttr.File.FileFields.Inode") Conv.uint64),
  ("setxattr.file.mode", SetCase.int false "SetXAttr.File.FileFields.Mode" (Loc.event "SetXAttr.File.FileFields.Mode") Conv.uint16),
  ("setxattr.file.mount_id", SetCase.int false "SetXAttr.File.FileFields.MountID" (Loc.event "SetXAttr.File.FileFields.MountID") Conv.uint32),
  ("setxattr.file.name", SetCase.string false "SetXAttr.File.BasenameStr" (Loc.event "SetXAttr.File.BasenameStr")),
  ("setxattr.file.path", SetCase.string false "SetXAttr.File.PathnameStr" (Loc.event "SetXAttr.File.PathnameStr")),
  ("setxattr.file.uid", SetCase.int false "SetXAttr.File.FileFields.UID" (Loc.event "SetXAttr.File.FileFields.UID") Conv.uint32),
  ("setxattr.file.user", SetCase.string false "SetXAttr.File.FileFields.User" (Loc.event "SetXAttr.File.FileFields.User")),
  ("setxattr.retval", SetCase.int false "SetXAttr.SyscallEvent.Retval" (Loc.event "SetXAttr.SyscallEvent.Retval") Conv.int64),
  ("unlink.file.container_path", SetCase.string false "Unlink.File.ContainerPath" (Loc.event "Unlink.File.ContainerPath")),
  ("unlink.file.filesystem", SetCase.string false "Unlink.File.Filesytem" (Loc.event "Unlink.File.Filesytem")),
  ("unlink.file.gid", SetCase.int false "Unlink.File.FileFields.GID" (Loc.event "Unlink.File.FileFields.GID") Conv.uint32),
  ("unlink.file.group", SetCase.string false "Unlink.File.FileFields.Group" (Loc.event "Unlink.File.FileFields.Group")),
  ("unlink.file.in_upper_layer", SetCase.bool false "Unlink.File.InUpperLayer" (Loc.event "Unlink.File.InUpperLayer")),
  ("unlink.file.inode", SetCase.int false "Unlink.File.FileFields.Inode" (Loc.event "Unlink.File.FileFields.Inode") Conv.uint64),
  ("unlink.file.mode", SetCase.int false "Unlink.File.FileFields.Mode" (Loc.event "Unlink.File.FileFields.Mode") Conv.uint16),
  ("unlink.file.mount_id", SetCase.int false "Unlink.File.FileFields.MountID" (Loc.event "Unlink.File.FileFields.MountID") Conv.uint32),
  ("unlink.file.name", SetCase.string false "Unlink.File.BasenameStr" (Loc.event "Unlink.File.BasenameStr")),
  ("unlink.file.path", SetCase.string false "Unlink.File.PathnameStr" (Loc.event "Unlink.File.PathnameStr")),
  ("unlink.file.uid", SetCase.int false "Unlink.File.FileFields.UID" (Loc.event "Unlink.File.FileFields.UID") Conv.uint32),
  ("unlink.file.user", SetCase.string false "Unlink.File.FileFields.User" (Loc.event "Unlink.File.FileFields.User")),
  ("unlink.retval", SetCase.int false "Unlink.SyscallEvent.Retval" (Loc.event "Unlink.SyscallEvent.Retval") Conv.int64),
  ("utimes.file.container_path", SetCase.string false "Utimes.File.ContainerPath" (Loc.event "Utimes.File.ContainerPath")),
  ("utimes.file.filesystem", SetCase.string false "Utimes.File.Filesytem" (Loc.event "Utimes.File.Filesytem")),
  ("utimes.file.gid", SetCase.int false "Utimes.File.FileFields.GID" (Loc.event "Utimes.File.FileFields.GID") Conv.uint32),
  ("utimes.file.group", SetCase.string false "Utimes.File.FileFields.Group" (Loc.event "Utimes.File.FileFields.Group")),
  ("utimes.file.in_upper_layer", SetCase.bool false "Utimes.File.InUpperLayer" (Loc.event "Utimes.File.InUpperLayer")),
  ("utimes.file.inode", SetCase.int false "Utimes.File.FileFields.Inode" (Loc.event "Utimes.File.FileFields.Inode") Conv.uint64),
  ("utimes.file.mode", SetCase.int false "Utimes.File.FileFields.Mode" (Loc.event "Utimes.File.FileFields.Mode") Conv.uint16),
  ("utimes.file.mount_id", SetCase.int false "Utimes.File.FileFields.MountID" (Loc.event "Utimes.File.FileFields.MountID") Conv.uint32),
  ("utimes.file.name", SetCase.string false "Utimes.File.BasenameStr" (Loc.event "Utimes.File.BasenameStr")),
  ("utimes.file.path", SetCase.string false "Utimes.File.PathnameStr" (Loc.event "Utimes.File.PathnameStr")),
  ("utimes.file.uid", SetCase.int false "Utimes.File.FileFields.UID" (Loc.event "Utimes.File.FileFields.UID") Conv.uint32),
  ("utimes.file.user", SetCase.string false "Utimes.File.FileFields.User" (Loc.event "Utimes.File.FileFields.User")),
  ("utimes.retval", SetCase.int false "Utimes.SyscallEvent.Retval" (Loc.event "Utimes.SyscallEvent.Retval") Conv.int64)]

/-! ## The registry operations -/

/-- Modelled from the spec: `eval.RegisterID`, the name of a bound variable. -/
abbrev RegisterID := String

/-- Translation of `Model.GetEvaluator`: the evaluator of the arm labelled `field`, else
`nil` and `ErrFieldNotFound`. The register id is not used by any arm. -/
def GetEvaluator (rs : Resolvers) (field : String) (_regID : RegisterID) :
    Option Evaluator × Option Error :=
  match switchCase field GetEvaluatorCases with
  | some c => (some (c.build rs field), none)
  | none => (none, some (.ErrFieldNotFound field))

/-- Translation of `Event.GetFieldValue`. -/
def GetFieldValue (rs : Resolvers) (e : Event) (field : String) :
    Traced (Value × Option Error) :=
  match switchCase field GetFieldValueCases with
  | some c => ⟨((c.run rs e).ret, none), (c.run rs e).calls⟩
  | none => ⟨(.nil, some (.ErrFieldNotFound field)), []⟩

/-- Translation of `Event.GetFieldEventType`. -/
def GetFieldEventType (field : String) : String × Option Error :=
  match switchCase field GetFieldEventTypeCases with
  | some t => (t, none)
  | none => ("", some (.ErrFieldNotFound field))

/-- Translation of `Event.GetFieldType`. -/
def GetFieldType (field : String) : Kind × Option Error :=
  match switchCase field GetFieldTypeCases with
  | some k => (k, none)
  | none => (.Invalid, some (.ErrFieldNotFound field))

/-- Translation of `Event.SetFieldValue`: the event after the call and the error returned;
`none` is a run-time panic. -/
def SetFieldValue (e : Event) (field : String) (value : Value) :
    Option (Event × Option Error) :=
  match switchCase field SetFieldValueCases with
  | some c => c.run e value
  | none => some (e, some (.ErrFieldNotFound field))

/-- Translation of `Model.GetEventTypes`. -/
def GetEventTypes : List String :=
  ["capset", "chmod", "chown", "exec", "link", "mkdir", "open", "removexattr", "rename",
   "rmdir", "setgid", "setuid", "setxattr", "unlink", "utimes"]

/-- Translation of `Model.GetIterator`. -/
def GetIterator (field : String) : Option Iterator × Option Error :=
  if field = "process.ancestors" then
    (some (.ProcessAncestorsIterator { prev := none }), none)
  else
    (none, some (.ErrIteratorNotSupported field))

/-! ## `pkg/util/system/socket.go` (the build without Windows) -/

/-- A Go `error` of an operating-system call, by its text and by what
`errors.Is(err, os.ErrPermission)` tells of it. -/
structure SysError where
  msg : String
  isPermission : Bool

/-- An `os.FileInfo`, by its mode bits. -/
structure FileInfo where
  Mode : Nat

/-- The mode bit `os.ModeSocket` of the Go library, `1 << 24`. -/
def ModeSocket : Nat := 2 ^ 24

/-- The two library calls of `socket.go`, taken as a parameter: `os.Stat`, and
`net.DialTimeout` by the error it returns (`none` for a connection); how long the dial takes
is not modelled. -/
structure SysCalls where
  Stat : String → Except SysError FileInfo
  DialTimeout : String → String → Int → Option SysError

/-- Translation of `checkSocketExists`. -/
def checkSocketExists (sys : SysCalls) (path : String) : Bool :=
  match sys.Stat path with
  | .error _ => false
  | .ok f => if f.Mode &&& ModeSocket ≠ 0 then true else false

/-- Translation of `CheckSocketAvailable`. -/
def CheckSocketAvailable (sys : SysCalls) (path : String) (timeout : Int) : Bool :=
  if !checkSocketExists sys path then false
  else
    match sys.DialTimeout "unix" path timeout with
    | some err => if err.isPermission then false else true
    | none => true

/-! ## `pkg/logs/forwarder/forwarder.go` -/

/-- A `*message.Message`, by its address. -/
abbrev Message := Nat

/-- A buffered channel `chan *message.Message`: the messages waiting in it, oldest first,
and its capacity (`config.ChanSize` for a pipeline). The goroutines that receive from it
are not modelled. -/
structure Chan where
  queue : List Message
  cap : Nat

/-- A `PassthroughPipeline`, by its input channel (the attribute `in` of the source). -/
structure PassthroughPipeline where
  input : Chan

/-- A `DefaultEventPlatformForwarder`: the map `pipelines` from event type to the address
of a pipeline, and the pipelines by address. -/
structure DefaultEventPlatformForwarder where
  pipelines : String → Option Nat
  heap : Nat → PassthroughPipeline

/-- Translation of `SendEventPlatformEvent`: the forwarder after the call and the error
returned (by its text). The `select` with a `default` arm sends when the channel has room
and takes the `default` arm otherwise. -/
def SendEventPlatformEvent (s : DefaultEventPlatformForwarder) (e : Message)
    (eventType : String) : DefaultEventPlatformForwarder × Option String :=
  match s.pipelines eventType with
  | none => (s, some ("unknown event type: " ++ eventType))
  | some p =>
    if (s.heap p).input.queue.length < (s.heap p).input.cap then
      ({ s with heap := fun q =>
          if q = p then ⟨⟨(s.heap p).input.queue ++ [e], (s.heap p).input.cap⟩⟩ else s.heap q },
        none)
    else (s, some ("pipeline channel for eventType " ++ eventType ++ " is full"))


/-! ## `pkg/config/environment_detection.go` -/

/-- A `Feature` of the current environment, a string. -/
abbrev Feature := String

/-- Name of the environment variable that switches autoconfig. -/
def autoconfEnvironmentVariable : String := "AUTOCONFIG_FROM_ENVIRONMENT"

/-- The misspelt name that is still honoured. -/
def autoconfEnvironmentVariableWithTypo : String := "AUTCONFIG_FROM_ENVIRONMENT"

/-- A non-nil `FeatureMap` (`map[Feature]struct{}`), by the set of its keys: `make` is the
empty set, `delete` erases a key, `len` is the number of keys and the lookup
`_, found := m[f]` tells membership. The nil map is `none` of `Option FeatureMap`. -/
structure FeatureMap where
  keys : Finset Feature

/-- The Go library function `strings.Join`: the elements with `sep` between consecutive
ones. -/
def Join : List String → String → String
  | [], _ => ""
  | [a], _ => a
  | a :: b :: rest, sep => a ++ sep ++ Join (b :: rest) sep

/-- Translation of `FeatureMap.String`. A `range` over a map yields every key once, in an
order the language leaves open; `visit` is the order of this run. The slice starts as
`make([]string, len(fm))`, that is `len(fm)` empty strings, and every key is appended. -/
def FeatureMap.String (fm : FeatureMap) (visit : List Feature) :=
  let features := List.replicate fm.keys.card ""
  let features := visit.foldl (fun features f => features ++ [f]) features
  Join features ","

/-- The error of the Go library function `strconv.ParseBool`, a `*strconv.NumError`. -/
structure NumError where
  Func : String
  Num : String
  Err : String
  deriving DecidableEq, Repr

/-- The Go library function `strconv.ParseBool`. -/
def ParseBool (str : String) : Except NumError Bool :=
  if str ∈ ["1", "t", "T", "TRUE", "true", "True"] then .ok true
  else if str ∈ ["0", "f", "F", "FALSE", "false", "False"] then .ok false
  else .error ⟨"ParseBool", str, "invalid syntax"⟩

/-- One call of the logger, by level, with the format and the arguments it was given. -/
inductive LogRecord where
  | Critical (msg : String)
  | Errorf (format : String) (autoconfStr : String) (err : NumError)
  | Warnf (format : String) (envVar : String)
  | Infof (format : String) (features : FeatureMap)

/-- What `environment_detection.go` calls outside the file: `os.LookupEnv`, the methods
`GetBool` and `GetStringSlice` of the configuration `Datadog`, and
`detectContainerFeatures`, which is given the map and may add features to it (the map after
the call is its result). -/
structure Host where
  LookupEnv : String → Option String
  GetBool : String → Bool
  GetStringSlice : String → List String
  detectContainerFeatures : FeatureMap → FeatureMap

/-- The package variable `detectedFeatures`, nil until detection has run. The lock
`featureLock` that guards it is not modelled: the functions run one at a time. -/
structure Globals where
  detectedFeatures : Option FeatureMap

/-- Translation of `GetDetectedFeatures`: the map returned and the log calls made. -/
def GetDetectedFeatures (g : Globals) : Option FeatureMap × List LogRecord :=
  match g.detectedFeatures with
  | none => (none, [LogRecord.Critical "Trying to access features before detection has run"])
  | some fm => (some fm, [])

/-- Translation of `IsFeaturePresent`: the result and the log calls made. A lookup in the
nil map finds nothing. -/
def IsFeaturePresent (g : Globals) (feature : Feature) : Bool × List LogRecord :=
  match g.detectedFeatures with
  | none => (false, [LogRecord.Critical "Trying to access features before detection has run"])
  | some fm => (decide (feature ∈ fm.keys), [])

/-- The loop of `IsAutoconfigEnabled` over the names of the environment variables: `some`
is a `return` from inside the loop, `none` means the loop ran to its end. -/
def IsAutoconfigEnabled.loop (host : Host) : List String → Option (Bool × List LogRecord)
  | [] => none
  | envVar :: rest =>
    match host.LookupEnv envVar with
    | some autoconfStr =>
      match ParseBool autoconfStr with
      | .error err =>
        some (false, [LogRecord.Errorf
          "Unable to parse Autoconf value: '%s', err: %v - autoconfig from environment will be deactivated"
          autoconfStr err])
      | .ok activateAutoconfFromEnv =>
        some (activateAutoconfFromEnv, [LogRecord.Warnf
          "Usage of '%s' variable is deprecated - please use DD_AUTOCONFIG_FROM_ENVIRONMENT or 'autoconfig_from_environment' in config file"
          envVar])
    | none => IsAutoconfigEnabled.loop host rest

/-- Translation of `IsAutoconfigEnabled`: the result and the log calls made. -/
def IsAutoconfigEnabled (host : Host) : Bool × List LogRecord :=
  match IsAutoconfigEnabled.loop host
      [autoconfEnvironmentVariable, autoconfEnvironmentVariableWithTypo] with
  | some r => r
  | none => (host.GetBool "autoconfig_from_environment", [])

/-- Translation of `detectFeatures`: the package variables after the call and the log calls
made. -/
def detectFeatures (host : Host) (_g : Globals) : Globals × List LogRecord :=
  let newFeatures : FeatureMap := ⟨∅⟩
  let enabled := IsAutoconfigEnabled host
  if enabled.1 then
    let newFeatures := host.detectContainerFeatures newFeatures
    let excludedFeatures := host.GetStringSlice "autoconfig_exclude_features"
    let newFeatures := excludedFeatures.foldl (fun m ef => ⟨m.keys.erase ef⟩) newFeatures
    (⟨some newFeatures⟩,
      enabled.2 ++ [LogRecord.Infof "Features detected from environment: %v" newFeatures])
  else (⟨some newFeatures⟩, enabled.2)
/-! ## Notions used to state the properties -/

/-- The result of running the closure of an evaluator, as a dynamic value (the `Eval` method
of the evaluator variants). -/
def Evaluator.Eval : Evaluator → Context → Option (Outcome Value)
  | .IntEvaluator fnc _ _, ctx => some ⟨.int (fnc ctx).value, (fnc ctx).ctx, (fnc ctx).calls⟩
  | .StringEvaluator fnc _ _, ctx =>
    some ⟨.string (fnc ctx).value, (fnc ctx).ctx, (fnc ctx).calls⟩
  | .BoolEvaluator fnc _ _, ctx => some ⟨.bool (fnc ctx).value, (fnc ctx).ctx, (fnc ctx).calls⟩
  | .IntArrayEvaluator fnc _ _, ctx =>
    (fnc ctx).map fun o => ⟨.ints o.value, o.ctx, o.calls⟩
  | .StringArrayEvaluator fnc _ _, ctx =>
    (fnc ctx).map fun o => ⟨.strings o.value, o.ctx, o.calls⟩

/-- Whether an evaluator variant is one of the two array variants. -/
def Variant.isArray : Variant → Bool
  | .IntArrayEvaluator => true
  | .StringArrayEvaluator => true
  | _ => false

/-- Whether `pre` is a prefix of `s`. -/
def hasPrefix (pre s : String) : Bool := pre.data.isPrefixOf s.data

/-- The segment of a field name before its first dot. -/
def firstSegment (field : String) : String := ⟨field.data.takeWhile (fun c => c != '.')⟩

/-- The last segment of a selector path. -/
def lastSegment (path : String) : String :=
  ⟨(path.data.reverse.takeWhile (fun c => c != '.')).reverse⟩

/-- The steps of the ancestor loop over a list of entries: the calls of the body, then `Next`,
for each entry. -/
def loopCalls {α : Type} (body : ProcessCacheEntry → Traced α) :
    List ProcessCacheEntry → List Call
  | [] => []
  | a :: rest => (body a).calls ++ [Call.Next] ++ loopCalls body rest

/-- Two tables have the same labels in the same order and `r` holds of each pair of bodies
under the same label. -/
def aligned {α β : Type} (r : String → α → β → Bool) :
    List (String × α) → List (String × β) → Bool
  | [], [] => true
  | (k, a) :: as, (l, b) :: bs => decide (k = l) && r k a b && aligned r as bs
  | _, _ => false

/-- Whether a location lies behind the ancestor pointer. -/
def Loc.isAncestor : Loc → Bool
  | .event _ => false
  | .ancestor _ => true

/-- The event after the assignment of an `int`, `string` or `bool` value to the attribute at
a location (`none`: the panic of an assignment through a nil ancestor pointer); a value of
another type assigns nothing. -/
def Event.put (e : Event) (loc : Loc) : Value → Option Event
  | .int v => e.assign (fun p s => s.setInt p v) loc
  | .string v => e.assign (fun p s => s.setStr p v) loc
  | .bool b => e.assign (fun p s => s.setBool p b) loc
  | _ => some e

/-- Whether the arm `a` of `GetEvaluator` is the ancestor form of the scalar arm `c`: the
array variant of the same element type, around the same attribute read, or around the same
resolver method pointed at the sub-structure of the entry that the last segment of the
scalar argument names. -/
def ancestorForm (c a : EvalCase) : Bool :=
  match c, a with
  | .IntEvaluator (.attr p) _, .IntArrayEvaluator (.attr q) _ => decide (q = p)
  | .IntEvaluator (.resolve m x) _, .IntArrayEvaluator (.resolve n y) _ =>
    decide (n = m) && decide (y = lastSegment x)
  | .StringEvaluator (.attr p) _, .StringArrayEvaluator (.attr q) _ => decide (q = p)
  | .StringEvaluator (.resolve m x) _, .StringArrayEvaluator (.resolve n y) _ =>
    decide (n = m) && decide (y = lastSegment x)
  | _, _ => false

/-- Whether `suf` is a suffix of `s`. -/
def hasSuffix (suf s : String) : Bool := suf.data.reverse.isPrefixOf s.data.reverse

/-- A Go `int`: a signed 64-bit integer. -/
def isInt64 (v : Int) : Prop := -2 ^ 63 ≤ v ∧ v < 2 ^ 63

/-- The integers an attribute of the target type of a conversion can hold. -/
def Conv.holds : Conv → Int → Prop
  | .uint16, v => 0 ≤ v ∧ v < 2 ^ 16
  | .uint32, v => 0 ≤ v ∧ v < 2 ^ 32
  | .uint64, v => 0 ≤ v ∧ v < 2 ^ 64
  | .int64, v => -2 ^ 63 ≤ v ∧ v < 2 ^ 63

/-- The integer type of the backing attribute of a field, as the conversion in its arm of
`SetFieldValue` shows it; `none` for a string or boolean field and for an unknown name. -/
def attrConv (field : String) : Option Conv :=
  match switchCase field SetFieldValueCases with
  | some (.int _ _ _ conv) => some conv
  | _ => none

/-- Whether the arm of `GetFieldValue` for a field returns an attribute of the event itself,
read without a resolver and outside an ancestor loop. -/
def directlyRead (field : String) : Bool :=
  match switchCase field GetFieldValueCases with
  | some (.int (.attr _)) => true
  | some (.string (.attr _)) => true
  | some (.bool (.attr _)) => true
  | _ => false

/-- Whether the arm of `GetFieldValue` for a field is an ancestor loop whose body reads an
attribute of the element without a resolver (`process.ancestors.pid`, ...). -/
def directlyReadAncestors (field : String) : Bool :=
  match switchCase field GetFieldValueCases with
  | some (.ints (.attr _)) => true
  | some (.strings (.attr _)) => true
  | _ => false

/-- The integer type of the backing attribute of a directly-read integer field, told from
the field name: `int64` for `*.retval`; `uint64` for `*.inode` and the two capability sets
of `capset`; `uint16` for `*.file.mode` and for the destination modes of `link` and `rename`
(the mode of the destination file); `uint32` for every other one (uid, gid, mount id, flags,
pid, tid, and the destination modes of `chmod`, `mkdir` and `open`, which are the mode
argument of the call). -/
def backingType (field : String) : Conv :=
  if hasSuffix ".retval" field then Conv.int64
  else if hasSuffix ".inode" field || decide (field = "capset.cap_effective") ||
      decide (field = "capset.cap_permitted") then Conv.uint64
  else if hasSuffix ".file.mode" field || decide (field = "link.file.destination.mode") ||
      decide (field = "rename.file.destination.mode") then Conv.uint16
  else Conv.uint32

/-- The integer read back after `v` was stored through the conversion to a backing type and
converted with `int(...)`, by the truncation rule of the type. -/
def readBack : Conv → Int → Int
  | .uint16, v => v % 2 ^ 16
  | .uint32, v => v % 2 ^ 32
  | .uint64, v => v
  | .int64, v => v

/-- Whether an expression is an attribute read. -/
def Expr.isAttr : Expr → Bool
  | .attr _ => true
  | .resolve _ _ => false

/-- Whether the arm `v` of `GetFieldValue` computes the value of the arm `c` of
`GetEvaluator`: the same expression at the same type, scalar or array. -/
def valueForm (c : EvalCase) (v : ValueCase) : Bool :=
  match c, v with
  | .IntEvaluator x _, .int y => decide (x = y)
  | .StringEvaluator x _, .string y => decide (x = y)
  | .BoolEvaluator x _, .bool y => decide (x = y)
  | .IntArrayEvaluator x _, .ints y => decide (x = y)
  | .StringArrayEvaluator x _, .strings y => decide (x = y)
  | _, _ => false

/-- Whether the arm `s` of `SetFieldValue` assigns, without a guard, the attribute of the
event that the arm `v` of `GetFieldValue` reads directly; for an integer attribute the
conversion has to be the one the field name tells. Arms that do not read directly are not
constrained. -/
def setsWhatIsRead (field : String) (v : ValueCase) (s : SetCase) : Bool :=
  match v, s with
  | .int (.attr p), .int g _ t conv =>
    !g && decide (t = Loc.event p) && decide (conv = backingType field)
  | .int (.attr _), _ => false
  | .string (.attr p), .string g _ t => !g && decide (t = Loc.event p)
  | .string (.attr _), _ => false
  | .bool (.attr p), .bool g _ t => !g && decide (t = Loc.event p)
  | .bool (.attr _), _ => false
  | _, _ => true

/-- Lexicographic order of two names by character code; for names of ASCII characters the
code of a character is its byte. -/
def lexLess : List Char → List Char → Bool
  | [], [] => false
  | [], _ :: _ => true
  | _ :: _, [] => false
  | a :: as, b :: bs =>
    decide (a.toNat < b.toNat) || (decide (a.toNat = b.toNat) && lexLess as bs)

/-- Byte order of two field names. -/
def byteLess (a b : String) : Bool := lexLess a.data b.data

/-- Whether every name of a list is less, in byte order, than the name after it. -/
def strictlyIncreasing : List String → Bool
  | a :: b :: rest => byteLess a b && strictlyIncreasing (b :: rest)
  | _ => true

/-- Modelled from the spec: the order of the evaluator weights,
`FunctionWeight < HandlerWeight < IteratorWeight`. -/
def Weight.rank : Weight → Nat
  | .FunctionWeight => 0
  | .HandlerWeight => 1
  | .IteratorWeight => 2

/-- Modelled from the spec: a condition `field == X` of a rule, as the evaluator of the
field and the test applied to its value. The rule engine (package `eval`) is not part of
the sources. -/
structure Condition where
  operand : Evaluator
  test : Value → Bool

/-- Modelled from the spec: evaluating a condition runs the evaluator of its field and
tests the value. -/
def Condition.eval (c : Condition) (ctx : Context) : Option (Outcome Bool) :=
  (c.operand.Eval ctx).map fun o => ⟨c.test o.value, o.ctx, o.calls⟩

/-- Modelled from the spec: evaluation of `a && b` (spec, evaluator weighting): the operand
of lower weight is evaluated first (the left one on equal weights); if it is false the
result is false and the other operand is not evaluated. -/
def evalAnd (a b : Condition) (ctx : Context) : Option (Outcome Bool) :=
  let fst := if b.operand.Weight.rank < a.operand.Weight.rank then b else a
  let snd := if b.operand.Weight.rank < a.operand.Weight.rank then a else b
  match fst.eval ctx with
  | none => none
  | some o1 =>
    if o1.value = false then some o1
    else
      match snd.eval o1.ctx with
      | none => none
      | some o2 => some ⟨o2.value, o2.ctx, o1.calls ++ o2.calls⟩

/-- A number that tells two selector paths apart: the characters of the path read as the
digits of a number. -/
def pathCode (s : String) : Nat := s.data.foldl (fun acc c => acc * 256 + c.toNat) 0

/-- Whether a number differs from every number of a list. -/
def absent (n : Nat) : List Nat → Bool
  | [] => true
  | m :: rest => bif Nat.beq n m then false else absent n rest

/-- Whether the numbers of a list are pairwise different. -/
def distinctNats : List Nat → Bool
  | [] => true
  | n :: rest => bif absent n rest then distinctNats rest else false

/-- Runs `k` on the reversed list once every number of the list has been computed. -/
def forced (k : List Nat → Bool) : List Nat → List Nat → Bool
  | [], acc => k acc
  | n :: rest, acc =>
    match n with
    | 0 => forced k rest (0 :: acc)
    | Nat.succ m => forced k rest (Nat.succ m :: acc)

/-- A resolver family for examples: integers resolve to 7, strings to the method name,
booleans to true. -/
def sampleResolvers : Resolvers := ⟨fun _ _ _ => 7, fun m _ _ => m, fun _ _ _ => true⟩

/-- A process entry for examples, with the given pid and older ancestor. -/
def sampleEntry (pid : Int) (anc : Option ProcessCacheEntry) : ProcessCacheEntry :=
  .mk (Struct.zero.setInt "ProcessContext.Pid" pid) anc

/-- An event for examples: own pid 100, parent 200, grandparent 300. -/
def sampleEvent : Event :=
  ⟨Struct.zero.setInt "ProcessContext.Pid" 100,
    some (sampleEntry 200 (some (sampleEntry 300 none)))⟩

/-- An event for examples without a tracked ancestor. -/
def orphanEvent : Event := ⟨Struct.zero.setInt "ProcessContext.Pid" 1, none⟩

/-- An event for examples: an `open` of the file with inode 42 and mode `0o644`. -/
def openEvent : Event :=
  ⟨(Struct.zero.setInt "Open.File.FileFields.Inode" 42).setInt "Open.File.FileFields.Mode" 420,
    none⟩

/-- An event for examples: an `exec` whose arguments were truncated. -/
def truncatedEvent : Event := ⟨Struct.zero.setBool "Exec.ArgsTruncated" true, none⟩

/-- Library calls for examples: `/run/agent.sock` is a socket whose dial is refused, every
other path cannot be stat'ed. -/
def sampleSysCalls : SysCalls :=
  ⟨fun path =>
      if path = "/run/agent.sock" then .ok ⟨ModeSocket + 0o600⟩
      else .error ⟨"no such file or directory", false⟩,
    fun _ _ _ => some ⟨"connection refused", false⟩⟩

/-- A forwarder for examples: one pipeline for `dbm-sample`, at address 0, with room for two
messages and one message waiting. -/
def sampleForwarder : DefaultEventPlatformForwarder :=
  ⟨fun t => if t = "dbm-sample" then some 0 else none, fun _ => ⟨⟨[7], 2⟩⟩⟩


/-- A host for examples: the environment variables are as given, the configuration enables
autoconfig and excludes `docker`, and the container detection finds `docker` and
`kubernetes`. -/
def sampleHost (environ : String → Option String) : Host :=
  ⟨environ, fun key => decide (key = "autoconfig_from_environment"),
    fun key => if key = "autoconfig_exclude_features" then ["docker"] else [],
    fun fm => ⟨insert "kubernetes" (insert "docker" fm.keys)⟩⟩

/-- An environment for examples in which only the variable `name` is set, to `value`. -/
def oneVariable (name value : String) : String → Option String :=
  fun key => if key = name then some value else none

/-- A feature map for examples, with two features. -/
def sampleFeatures : FeatureMap := ⟨{"docker", "kubernetes"}⟩
/-! ## Lemmas on the switch tables -/

theorem switchCase_eq_none_iff {β : Type} (field : String) (t : List (String × β)) :
    switchCase field t = none ↔ field ∉ t.map Prod.fst := by
  induction t with
  | nil => simp [switchCase]
  | cons row rest ih =>
    obtain ⟨label, body⟩ := row
    by_cases h : field = label
    · simp [switchCase, h]
    · simp [switchCase, h, ih]

theorem switchCase_mem {β : Type} {field : String} {t : List (String × β)} {v : β}
    (h : switchCase field t = some v) : (field, v) ∈ t := by
  induction t with
  | nil => simp [switchCase] at h
  | cons row rest ih =>
    obtain ⟨label, body⟩ := row
    by_cases hf : field = label
    · simp [switchCase, hf] at h
      simp [hf, h]
    · simp [switchCase, hf] at h
      exact List.mem_cons_of_mem _ (ih h)

theorem switchCase_isSome_of_mem {β : Type} {field : String} {t : List (String × β)}
    (h : field ∈ t.map Prod.fst) : ∃ v, switchCase field t = some v := by
  cases hs : switchCase field t with
  | none => exact absurd h ((switchCase_eq_none_iff field t).1 hs)
  | some v => exact ⟨v, rfl⟩

theorem aligned_switchCase {α β : Type} {r : String → α → β → Bool}
    {s : List (String × α)} {t : List (String × β)} (h : aligned r s t = true)
    {field : String} {a : α} (ha : switchCase field s = some a) :
    ∃ b, switchCase field t = some b ∧ r field a b = true := by
  induction s generalizing t with
  | nil => simp [switchCase] at ha
  | cons row rest ih =>
    obtain ⟨k, x⟩ := row
    cases t with
    | nil => simp [aligned] at h
    | cons row2 rest2 =>
      obtain ⟨l, y⟩ := row2
      simp only [aligned, Bool.and_eq_true, decide_eq_true_eq] at h
      obtain ⟨⟨hkl, hr⟩, hrest⟩ := h
      subst hkl
      by_cases hf : field = k
      · subst hf
        simp only [switchCase, if_true, Option.some.injEq] at ha ⊢
        subst ha
        exact ⟨y, rfl, hr⟩
      · simp only [switchCase, hf, if_false] at ha ⊢
        exact ih hrest ha

set_option maxRecDepth 100000 in
theorem GetEvaluatorCases_labels : GetEvaluatorCases.map Prod.fst = GetFields := by decide!

set_option maxRecDepth 100000 in
theorem GetFieldValueCases_labels : GetFieldValueCases.map Prod.fst = GetFields := by decide!

set_option maxRecDepth 100000 in
theorem GetFieldEventTypeCases_labels : GetFieldEventTypeCases.map Prod.fst = GetFields := by
  decide!

set_option maxRecDepth 100000 in
theorem GetFieldTypeCases_labels : GetFieldTypeCases.map Prod.fst = GetFields := by decide!

set_option maxRecDepth 100000 in
theorem SetFieldValueCases_labels : SetFieldValueCases.map Prod.fst = GetFields := by decide!

/-! ## Lemmas on the ancestor loop -/

theorem ProcessCacheEntry.induct {motive : ProcessCacheEntry → Prop}
    (leaf : ∀ s, motive (.mk s none))
    (link : ∀ s a, motive a → motive (.mk s (some a))) : ∀ e, motive e
  | .mk s none => leaf s
  | .mk s (some a) => link s a (ProcessCacheEntry.induct leaf link a)

theorem collect_none {α : Type} (body : ProcessCacheEntry → Traced α)
    (it : ProcessAncestorsIterator) (results : List α) (calls : List Call) :
    collect body none it results calls = ⟨results, calls⟩ := by
  rw [collect]

theorem collect_some {α : Type} (body : ProcessCacheEntry → Traced α)
    (element : ProcessCacheEntry) (it : ProcessAncestorsIterator) (results : List α)
    (calls : List Call) :
    collect body (some element) it results calls =
      collect body it.Next.1 it.Next.2 (results ++ [(body element).ret])
        (calls ++ (body element).calls ++ [Call.Next]) := by
  rw [collect]

theorem collect_chain {α : Type} (body : ProcessCacheEntry → Traced α) :
    ∀ (element : ProcessCacheEntry) (results : List α) (calls : List Call),
      collect body (some element) ⟨some element⟩ results calls =
        ⟨results ++ element.chain.map (fun a => (body a).ret),
          calls ++ loopCalls body element.chain⟩ := by
  intro element
  induction element using ProcessCacheEntry.induct with
  | leaf s =>
    intro results calls
    rw [collect_some]
    simp [ProcessAncestorsIterator.Next, collect_none, ProcessCacheEntry.chain, loopCalls]
  | link s a ih =>
    intro results calls
    rw [collect_some]
    simp [ProcessAncestorsIterator.Next, ih, ProcessCacheEntry.chain, loopCalls]

theorem traverse_eq {α : Type} (body : ProcessCacheEntry → Traced α) (ctx : Context) :
    traverse body ctx =
      ⟨ctx.Object.ancestors.map (fun a => (body a).ret),
        Call.Front :: loopCalls body ctx.Object.ancestors⟩ := by
  unfold traverse ProcessAncestorsIterator.Front Event.ancestors
  cases h : ctx.Object.Ancestor with
  | none => simp [collect_none, loopCalls]
  | some a => simp [collect_chain]

/-! ## Lemmas on the registry operations -/

theorem switchCase_labels {β : Type} {t : List (String × β)} (ht : t.map Prod.fst = GetFields)
    (field : String) :
    (field ∈ GetFields ∧ ∃ c, switchCase field t = some c) ∨
      (field ∉ GetFields ∧ switchCase field t = none) := by
  by_cases h : field ∈ GetFields
  · exact Or.inl ⟨h, switchCase_isSome_of_mem (ht ▸ h)⟩
  · exact Or.inr ⟨h, (switchCase_eq_none_iff field t).2 (ht ▸ h)⟩

theorem SetCase.run_error (c : SetCase) (e : Event) (value : Value) (r : Event × Option Error)
    (h : c.run e value = some r) :
    r.2 = none ∨ r.2 = some (.ErrValueTypeMismatch c.mismatch) := by
  cases c <;> cases value <;>
    simp only [SetCase.run, Option.map_eq_some', Option.some.injEq] at h <;>
    (obtain ⟨_, _, rfl⟩ := h; simp [SetCase.mismatch])

/-! ## C1, C2: the registry and its enumeration -/

/-- C1: for a field name that `GetFields` does not list, `GetEvaluator`, `GetFieldValue`,
`GetFieldEventType`, `GetFieldType` and `SetFieldValue` each return the error
`ErrFieldNotFound` carrying exactly that name; `GetEvaluator` returns no evaluator and
`GetFieldValue` the nil value with it, and `SetFieldValue` leaves the event as it was. -/
theorem C1_unknown_field_not_found (rs : Resolvers) (e : Event) (field : String)
    (regID : RegisterID) (value : Value) (h : field ∉ GetFields) :
    GetEvaluator rs field regID = (none, some (.ErrFieldNotFound field)) ∧
    (GetFieldValue rs e field).ret = (.nil, some (.ErrFieldNotFound field)) ∧
    GetFieldEventType field = ("", some (.ErrFieldNotFound field)) ∧
    GetFieldType field = (.Invalid, some (.ErrFieldNotFound field)) ∧
    SetFieldValue e field value = some (e, some (.ErrFieldNotFound field)) := by
  have h1 := (switchCase_eq_none_iff field GetEvaluatorCases).2 (GetEvaluatorCases_labels ▸ h)
  have h2 := (switchCase_eq_none_iff field GetFieldValueCases).2 (GetFieldValueCases_labels ▸ h)
  have h3 := (switchCase_eq_none_iff field GetFieldEventTypeCases).2
    (GetFieldEventTypeCases_labels ▸ h)
  have h4 := (switchCase_eq_none_iff field GetFieldTypeCases).2 (GetFieldTypeCases_labels ▸ h)
  have h5 := (switchCase_eq_none_iff field SetFieldValueCases).2 (SetFieldValueCases_labels ▸ h)
  simp only [GetEvaluator, GetFieldValue, GetFieldEventType, GetFieldType, SetFieldValue, h1, h2,
    h3, h4, h5, and_self]

set_option maxRecDepth 100000 in
/-- C1 at the unregistered name `process.ancestors` on the sample event. -/
theorem C1_unknown_field_not_found_witness :
    "process.ancestors" ∉ GetFields ∧
    (GetEvaluator sampleResolvers "process.ancestors" "" =
        (none, some (.ErrFieldNotFound "process.ancestors")) ∧
      (GetFieldValue sampleResolvers sampleEvent "process.ancestors").ret =
        (.nil, some (.ErrFieldNotFound "process.ancestors")) ∧
      GetFieldEventType "process.ancestors" = ("", some (.ErrFieldNotFound "process.ancestors")) ∧
      GetFieldType "process.ancestors" =
        (.Invalid, some (.ErrFieldNotFound "process.ancestors")) ∧
      SetFieldValue sampleEvent "process.ancestors" (.int 1) =
        some (sampleEvent, some (.ErrFieldNotFound "process.ancestors"))) :=
  ⟨by decide!, C1_unknown_field_not_found sampleResolvers sampleEvent "process.ancestors" ""
    (.int 1) (by decide!)⟩

/-- C2: `GetFields` enumerates the registry: a field name is listed by `GetFields` exactly
when `GetEvaluator` returns no error for it, exactly when `GetFieldValue` returns no error,
exactly when `GetFieldEventType` returns no error, exactly when `GetFieldType` returns no
error, and exactly when `SetFieldValue` (whatever the value) does not return
`ErrFieldNotFound`; so the five switches accept the same names, those of `GetFields`. -/
theorem C2_getFields_is_the_registry (rs : Resolvers) (e : Event) (field : String)
    (regID : RegisterID) (value : Value) :
    (field ∈ GetFields ↔ (GetEvaluator rs field regID).2 = none) ∧
    (field ∈ GetFields ↔ (GetFieldValue rs e field).ret.2 = none) ∧
    (field ∈ GetFields ↔ (GetFieldEventType field).2 = none) ∧
    (field ∈ GetFields ↔ (GetFieldType field).2 = none) ∧
    (field ∈ GetFields ↔
      (SetFieldValue e field value).map Prod.snd ≠ some (some (.ErrFieldNotFound field))) := by
  refine ⟨?_, ?_, ?_, ?_, ?_⟩
  · rcases switchCase_labels GetEvaluatorCases_labels field with ⟨h, c, hc⟩ | ⟨h, hc⟩ <;>
      simp [GetEvaluator, hc, h]
  · rcases switchCase_labels GetFieldValueCases_labels field with ⟨h, c, hc⟩ | ⟨h, hc⟩ <;>
      simp [GetFieldValue, hc, h]
  · rcases switchCase_labels GetFieldEventTypeCases_labels field with ⟨h, c, hc⟩ | ⟨h, hc⟩ <;>
      simp [GetFieldEventType, hc, h]
  · rcases switchCase_labels GetFieldTypeCases_labels field with ⟨h, c, hc⟩ | ⟨h, hc⟩ <;>
      simp [GetFieldType, hc, h]
  · rcases switchCase_labels SetFieldValueCases_labels field with ⟨h, c, hc⟩ | ⟨h, hc⟩
    · simp only [SetFieldValue, hc, h, true_iff]
      intro hr
      rcases hrun : c.run e value with _ | r
      · simp [hrun] at hr
      · rcases SetCase.run_error c e value r hrun with h0 | h0 <;> simp [hrun, h0] at hr
    · simp [SetFieldValue, hc, h]

theorem GetEvaluator_of_case (rs : Resolvers) {field : String} (regID : RegisterID)
    {c : EvalCase} (h : switchCase field GetEvaluatorCases = some c) :
    GetEvaluator rs field regID = (some (c.build rs field), none) := by
  simp [GetEvaluator, h]

theorem GetFieldType_of_case {field : String} {k : Kind}
    (h : switchCase field GetFieldTypeCases = some k) : GetFieldType field = (k, none) := by
  simp [GetFieldType, h]

theorem GetEvaluator_case_of_mem {field : String} (h : field ∈ GetFields) :
    ∃ c, switchCase field GetEvaluatorCases = some c :=
  switchCase_isSome_of_mem (GetEvaluatorCases_labels ▸ h)

theorem EvalCase.build_variant (rs : Resolvers) (field : String) (c : EvalCase) :
    (c.build rs field).variant = c.variant := by
  cases c <;> rfl

theorem EvalCase.build_Field (rs : Resolvers) (field : String) (c : EvalCase) :
    (c.build rs field).Field = field := by
  cases c <;> rfl

theorem EvalCase.build_Weight (rs : Resolvers) (field : String) (c : EvalCase) :
    (c.build rs field).Weight = c.weight := by
  cases c <;> rfl

set_option maxRecDepth 100000 in
theorem evaluator_type_aligned :
    aligned (fun _ c k =>
      decide ((k = Kind.Int ↔
          c.variant = Variant.IntEvaluator ∨ c.variant = Variant.IntArrayEvaluator) ∧
        (k = Kind.String ↔
          c.variant = Variant.StringEvaluator ∨ c.variant = Variant.StringArrayEvaluator) ∧
        (k = Kind.Bool ↔ c.variant = Variant.BoolEvaluator)))
      GetEvaluatorCases GetFieldTypeCases = true := by
  decide!

set_option maxRecDepth 100000 in
theorem evaluator_array_aligned :
    aligned (fun field c k =>
      decide (c.variant.isArray = hasPrefix "process.ancestors." field ∧
        (c.variant = Variant.IntArrayEvaluator → k = Kind.Int) ∧
        (c.variant = Variant.IntEvaluator → k = Kind.Int) ∧
        (c.variant = Variant.StringArrayEvaluator → k = Kind.String) ∧
        (c.variant = Variant.StringEvaluator → k = Kind.String)))
      GetEvaluatorCases GetFieldTypeCases = true := by
  decide!

set_option maxRecDepth 100000 in
theorem eventType_rows :
    GetFieldEventTypeCases.all (fun row =>
      decide (row.2 =
          (if hasPrefix "container." row.1 || hasPrefix "process." row.1 then "*"
            else firstSegment row.1) ∧
        ((hasPrefix "container." row.1 || hasPrefix "process." row.1) = false →
          firstSegment row.1 ∈ GetEventTypes))) = true := by
  decide!

/-! ## C3, C4, C5: declared types and event types -/

/-- C3: for every registered field, `GetFieldType` and `GetEvaluator` agree on the typing:
the declared kind is `reflect.Int` exactly when the evaluator is an `IntEvaluator` or an
`IntArrayEvaluator`, `reflect.String` exactly when it is a `StringEvaluator` or a
`StringArrayEvaluator`, and `reflect.Bool` exactly when it is a `BoolEvaluator`. -/
theorem C3_type_agrees_with_evaluator (rs : Resolvers) (field : String) (regID : RegisterID)
    (h : field ∈ GetFields) :
    ∃ ev k, GetEvaluator rs field regID = (some ev, none) ∧ GetFieldType field = (k, none) ∧
      (k = Kind.Int ↔
        ev.variant = Variant.IntEvaluator ∨ ev.variant = Variant.IntArrayEvaluator) ∧
      (k = Kind.String ↔
        ev.variant = Variant.StringEvaluator ∨ ev.variant = Variant.StringArrayEvaluator) ∧
      (k = Kind.Bool ↔ ev.variant = Variant.BoolEvaluator) := by
  obtain ⟨c, hc⟩ := GetEvaluator_case_of_mem h
  obtain ⟨k, hk, hr⟩ := aligned_switchCase evaluator_type_aligned hc
  refine ⟨c.build rs field, k, GetEvaluator_of_case rs regID hc, GetFieldType_of_case hk, ?_⟩
  rw [EvalCase.build_variant]
  exact of_decide_eq_true hr

set_option maxRecDepth 100000 in
/-- C3 at the field `process.ancestors.uid`. -/
theorem C3_type_agrees_with_evaluator_witness :
    "process.ancestors.uid" ∈ GetFields ∧
    ∃ ev k, GetEvaluator sampleResolvers "process.ancestors.uid" "" = (some ev, none) ∧
      GetFieldType "process.ancestors.uid" = (k, none) ∧
      (k = Kind.Int ↔
        ev.variant = Variant.IntEvaluator ∨ ev.variant = Variant.IntArrayEvaluator) ∧
      (k = Kind.String ↔
        ev.variant = Variant.StringEvaluator ∨ ev.variant = Variant.StringArrayEvaluator) ∧
      (k = Kind.Bool ↔ ev.variant = Variant.BoolEvaluator) :=
  ⟨by decide!, C3_type_agrees_with_evaluator sampleResolvers "process.ancestors.uid" ""
    (by decide!)⟩

set_option maxRecDepth 100000 in
/-- C4, as stated, fails at `process.ancestors.pid`: its evaluator is an `IntArrayEvaluator`,
that of `process.pid` an `IntEvaluator`, and `GetFieldType` returns the same kind,
`reflect.Int`, for both. -/
theorem C4_counterexample :
    (∃ ev, GetEvaluator sampleResolvers "process.ancestors.pid" "" = (some ev, none) ∧
      ev.variant = Variant.IntArrayEvaluator) ∧
    (∃ ev, GetEvaluator sampleResolvers "process.pid" "" = (some ev, none) ∧
      ev.variant = Variant.IntEvaluator) ∧
    GetFieldType "process.ancestors.pid" = (Kind.Int, none) ∧
    GetFieldType "process.pid" = (Kind.Int, none) ∧
    ¬ (GetFieldType "process.ancestors.pid" ≠ GetFieldType "process.pid") := by
  have h1 : switchCase "process.ancestors.pid" GetEvaluatorCases =
      some (EvalCase.IntArrayEvaluator (Expr.attr "ProcessContext.Pid") Weight.IteratorWeight) := by
    decide!
  have h2 : switchCase "process.pid" GetEvaluatorCases =
      some (EvalCase.IntEvaluator (Expr.attr "ProcessContext.Pid") Weight.FunctionWeight) := by
    decide!
  have h3 : GetFieldType "process.ancestors.pid" = (Kind.Int, none) := by decide!
  have h4 : GetFieldType "process.pid" = (Kind.Int, none) := by decide!
  refine ⟨⟨_, GetEvaluator_of_case _ _ h1, rfl⟩, ⟨_, GetEvaluator_of_case _ _ h2, rfl⟩, h3, h4, ?_⟩
  rw [h3, h4]
  simp

/-- C4, amended: `GetFieldType` reports the element type only. For every registered field
the evaluator is an array evaluator exactly when the name starts with `process.ancestors.`,
and the declared kind of a field with an `IntArrayEvaluator` is `reflect.Int`, the kind of
the fields with an `IntEvaluator`, and that of a field with a `StringArrayEvaluator` is
`reflect.String`, the kind of the fields with a `StringEvaluator`. -/
theorem C4_type_is_element_type (rs : Resolvers) (field : String) (regID : RegisterID)
    (h : field ∈ GetFields) :
    ∃ ev k, GetEvaluator rs field regID = (some ev, none) ∧ GetFieldType field = (k, none) ∧
      ev.variant.isArray = hasPrefix "process.ancestors." field ∧
      (ev.variant = Variant.IntArrayEvaluator → k = Kind.Int) ∧
      (ev.variant = Variant.IntEvaluator → k = Kind.Int) ∧
      (ev.variant = Variant.StringArrayEvaluator → k = Kind.String) ∧
      (ev.variant = Variant.StringEvaluator → k = Kind.String) := by
  obtain ⟨c, hc⟩ := GetEvaluator_case_of_mem h
  obtain ⟨k, hk, hr⟩ := aligned_switchCase evaluator_array_aligned hc
  refine ⟨c.build rs field, k, GetEvaluator_of_case rs regID hc, GetFieldType_of_case hk, ?_⟩
  rw [EvalCase.build_variant]
  exact of_decide_eq_true hr

set_option maxRecDepth 100000 in
/-- C4, amended, at the field `process.ancestors.pid`. -/
theorem C4_type_is_element_type_witness :
    "process.ancestors.pid" ∈ GetFields ∧
    ∃ ev k, GetEvaluator sampleResolvers "process.ancestors.pid" "" = (some ev, none) ∧
      GetFieldType "process.ancestors.pid" = (k, none) ∧
      ev.variant.isArray = hasPrefix "process.ancestors." "process.ancestors.pid" ∧
      (ev.variant = Variant.IntArrayEvaluator → k = Kind.Int) ∧
      (ev.variant = Variant.IntEvaluator → k = Kind.Int) ∧
      (ev.variant = Variant.StringArrayEvaluator → k = Kind.String) ∧
      (ev.variant = Variant.StringEvaluator → k = Kind.String) :=
  ⟨by decide!, C4_type_is_element_type sampleResolvers "process.ancestors.pid" ""
    (by decide!)⟩

/-- C5: for every registered field, `GetFieldEventType` returns one event type without
error: `*` if the name starts with `container.` or `process.`, otherwise the segment of the
name before its first dot, and that segment is then one of `GetEventTypes`. -/
theorem C5_event_type_of_field (field : String) (h : field ∈ GetFields) :
    GetFieldEventType field =
      (if hasPrefix "container." field || hasPrefix "process." field then "*"
        else firstSegment field, none) ∧
    (¬ (hasPrefix "container." field || hasPrefix "process." field) →
      firstSegment field ∈ GetEventTypes) := by
  obtain ⟨t, ht⟩ := switchCase_isSome_of_mem (GetFieldEventTypeCases_labels ▸ h)
  have hrow := List.all_eq_true.1 eventType_rows _ (switchCase_mem ht)
  obtain ⟨h1, h2⟩ := of_decide_eq_true hrow
  simp only at h1 h2
  refine ⟨by simp [GetFieldEventType, ht, h1], ?_⟩
  intro hp
  exact h2 (by simpa using hp)

set_option maxRecDepth 100000 in
/-- C5 at the fields `open.file.path` (event type `open`) and `process.ancestors.pid`
(event type `*`). -/
theorem C5_event_type_of_field_witness :
    ("open.file.path" ∈ GetFields ∧ GetFieldEventType "open.file.path" = ("open", none) ∧
      "open" ∈ GetEventTypes) ∧
    ("process.ancestors.pid" ∈ GetFields ∧
      GetFieldEventType "process.ancestors.pid" = ("*", none)) := by
  have h1 := C5_event_type_of_field "open.file.path" (by decide!)
  have h2 := C5_event_type_of_field "process.ancestors.pid" (by decide!)
  have e1 : (hasPrefix "container." "open.file.path" ||
      hasPrefix "process." "open.file.path") = false := by decide
  have e2 : (hasPrefix "container." "process.ancestors.pid" ||
      hasPrefix "process." "process.ancestors.pid") = true := by decide
  have e3 : firstSegment "open.file.path" = "open" := by decide
  rw [e1, e3] at h1
  rw [e2] at h2
  exact ⟨⟨by decide!, by simpa using h1.1, by decide⟩, by decide!, by simpa using h2.1⟩

/-! ## Lemmas on the array evaluators -/

theorem evalIntArray_miss (rs : Resolvers) (field : String) (x : Expr) (ctx : Context)
    (h : ctx.Cache field = none) :
    evalIntArray rs field x ctx =
      some ⟨ctx.Object.ancestors.map (fun a => (elementInt rs ctx.Object x a).ret),
        ctx.store field
          (.ints (ctx.Object.ancestors.map (fun a => (elementInt rs ctx.Object x a).ret))),
        Call.Front :: loopCalls (elementInt rs ctx.Object x) ctx.Object.ancestors⟩ := by
  simp [evalIntArray, h, traverse_eq]

theorem evalStringArray_miss (rs : Resolvers) (field : String) (x : Expr) (ctx : Context)
    (h : ctx.Cache field = none) :
    evalStringArray rs field x ctx =
      some ⟨ctx.Object.ancestors.map (fun a => (elementString rs ctx.Object x a).ret),
        ctx.store field
          (.strings (ctx.Object.ancestors.map (fun a => (elementString rs ctx.Object x a).ret))),
        Call.Front :: loopCalls (elementString rs ctx.Object x) ctx.Object.ancestors⟩ := by
  simp [evalStringArray, h, traverse_eq]

theorem evalIntArray_hit (rs : Resolvers) (field : String) (x : Expr) (ctx : Context)
    (vs : List Int) (h : ctx.Cache field = some (.ints vs)) :
    evalIntArray rs field x ctx = some ⟨vs, ctx, []⟩ := by
  simp [evalIntArray, h]

theorem evalStringArray_hit (rs : Resolvers) (field : String) (x : Expr) (ctx : Context)
    (vs : List String) (h : ctx.Cache field = some (.strings vs)) :
    evalStringArray rs field x ctx = some ⟨vs, ctx, []⟩ := by
  simp [evalStringArray, h]

theorem Context.store_Cache_self (ctx : Context) (field : String) (entry : CacheEntry) :
    (ctx.store field entry).Cache field = some entry := by
  simp [Context.store]

theorem Eval_IntArray_miss (rs : Resolvers) (field : String) (x : Expr) (w : Weight)
    (ctx : Context) (h : ctx.Cache field = none) :
    (EvalCase.build rs field (EvalCase.IntArrayEvaluator x w)).Eval ctx =
      some ⟨Value.ints (ctx.Object.ancestors.map fun a => (elementInt rs ctx.Object x a).ret),
        ctx.store field
          (.ints (ctx.Object.ancestors.map fun a => (elementInt rs ctx.Object x a).ret)),
        Call.Front :: loopCalls (elementInt rs ctx.Object x) ctx.Object.ancestors⟩ := by
  simp only [EvalCase.build, Evaluator.Eval]
  rw [evalIntArray_miss rs _ _ _ h]
  rfl

theorem Eval_StringArray_miss (rs : Resolvers) (field : String) (x : Expr) (w : Weight)
    (ctx : Context) (h : ctx.Cache field = none) :
    (EvalCase.build rs field (EvalCase.StringArrayEvaluator x w)).Eval ctx =
      some ⟨Value.strings
          (ctx.Object.ancestors.map fun a => (elementString rs ctx.Object x a).ret),
        ctx.store field
          (.strings (ctx.Object.ancestors.map fun a => (elementString rs ctx.Object x a).ret)),
        Call.Front :: loopCalls (elementString rs ctx.Object x) ctx.Object.ancestors⟩ := by
  simp only [EvalCase.build, Evaluator.Eval]
  rw [evalStringArray_miss rs _ _ _ h]
  rfl

theorem Eval_IntArray_hit (rs : Resolvers) (field : String) (x : Expr) (w : Weight)
    (ctx : Context) (vs : List Int) (h : ctx.Cache field = some (.ints vs)) :
    (EvalCase.build rs field (EvalCase.IntArrayEvaluator x w)).Eval ctx =
      some ⟨Value.ints vs, ctx, []⟩ := by
  simp only [EvalCase.build, Evaluator.Eval]
  rw [evalIntArray_hit rs _ _ _ _ h]
  rfl

theorem Eval_StringArray_hit (rs : Resolvers) (field : String) (x : Expr) (w : Weight)
    (ctx : Context) (vs : List String) (h : ctx.Cache field = some (.strings vs)) :
    (EvalCase.build rs field (EvalCase.StringArrayEvaluator x w)).Eval ctx =
      some ⟨Value.strings vs, ctx, []⟩ := by
  simp only [EvalCase.build, Evaluator.Eval]
  rw [evalStringArray_hit rs _ _ _ _ h]
  rfl

theorem ancestors_case_of_mem {field : String} (hf : field ∈ GetFields)
    (hp : hasPrefix "process.ancestors." field = true) :
    ∃ x w, switchCase field GetEvaluatorCases = some (EvalCase.IntArrayEvaluator x w) ∨
      switchCase field GetEvaluatorCases = some (EvalCase.StringArrayEvaluator x w) := by
  obtain ⟨c, hc⟩ := GetEvaluator_case_of_mem hf
  obtain ⟨k, -, hr⟩ := aligned_switchCase evaluator_array_aligned hc
  have ha := (of_decide_eq_true hr).1
  rw [hp] at ha
  cases c with
  | IntArrayEvaluator x w => exact ⟨x, w, Or.inl hc⟩
  | StringArrayEvaluator x w => exact ⟨x, w, Or.inr hc⟩
  | IntEvaluator x w => simp [EvalCase.variant, Variant.isArray] at ha
  | StringEvaluator x w => simp [EvalCase.variant, Variant.isArray] at ha
  | BoolEvaluator x w => simp [EvalCase.variant, Variant.isArray] at ha

set_option maxRecDepth 100000 in
theorem ancestors_pid_case :
    switchCase "process.ancestors.pid" GetEvaluatorCases =
      some (EvalCase.IntArrayEvaluator (Expr.attr "ProcessContext.Pid")
        Weight.IteratorWeight) := by
  decide!

theorem toInt_of_uint32 (x : Int) (h0 : 0 ≤ x) (h1 : x < 2 ^ 32) : toInt x = x := by
  unfold toInt
  omega

theorem sampleEvent_ancestors :
    sampleEvent.ancestors = [sampleEntry 200 (some (sampleEntry 300 none)), sampleEntry 300 none] := by
  simp [sampleEvent, Event.ancestors, sampleEntry, ProcessCacheEntry.chain]

/-! ## C6, C7, C8: the ancestor evaluators and their cache -/

/-- C6: on an event whose ancestor chain has the entries `a1 .. aN`, nearest parent first,
with pids in the range of their `uint32` attribute, the evaluator of `process.ancestors.pid`
run on a context with an empty cache returns a result, and that result is the sequence of
the pids of `a1 .. aN` in this order (the pid of the event itself is not part of it); without
an ancestor the result is the empty sequence. -/
theorem C6_ancestors_pid_in_order (rs : Resolvers) (regID : RegisterID) (e : Event)
    (h : ∀ a ∈ e.ancestors, 0 ≤ a.attrs.ints "ProcessContext.Pid" ∧
      a.attrs.ints "ProcessContext.Pid" < 2 ^ 32) :
    ∃ ev out, GetEvaluator rs "process.ancestors.pid" regID = (some ev, none) ∧
      ev.Eval (NewContext e) = some out ∧
      out.value = Value.ints (e.ancestors.map fun a => a.attrs.ints "ProcessContext.Pid") ∧
      (e.Ancestor = none → out.value = Value.ints []) := by
  have hmap : (e.ancestors.map fun a =>
      (elementInt rs e (Expr.attr "ProcessContext.Pid") a).ret) =
      e.ancestors.map fun a => a.attrs.ints "ProcessContext.Pid" := by
    apply List.map_congr_left
    intro a ha
    simp only [elementInt, Expr.int]
    exact toInt_of_uint32 _ (h a ha).1 (h a ha).2
  refine ⟨_, _, GetEvaluator_of_case rs regID ancestors_pid_case,
    Eval_IntArray_miss rs _ _ _ (NewContext e) rfl, ?_, ?_⟩
  · simp only [NewContext, hmap]
  · intro hnone
    simp [Event.ancestors, hnone, NewContext]

/-- C6 on the sample event: own pid 100 with ancestors 200 -> 300 yields `[200, 300]`. -/
theorem C6_ancestors_pid_in_order_witness :
    (∀ a ∈ sampleEvent.ancestors, 0 ≤ a.attrs.ints "ProcessContext.Pid" ∧
      a.attrs.ints "ProcessContext.Pid" < 2 ^ 32) ∧
    sampleEvent.attrs.ints "ProcessContext.Pid" = 100 ∧
    ∃ ev out, GetEvaluator sampleResolvers "process.ancestors.pid" "" = (some ev, none) ∧
      ev.Eval (NewContext sampleEvent) = some out ∧ out.value = Value.ints [200, 300] := by
  have hrange : ∀ a ∈ sampleEvent.ancestors, 0 ≤ a.attrs.ints "ProcessContext.Pid" ∧
      a.attrs.ints "ProcessContext.Pid" < 2 ^ 32 := by
    rw [sampleEvent_ancestors]
    simp [sampleEntry, ProcessCacheEntry.attrs, Struct.setInt]
  obtain ⟨ev, out, h1, h2, h3, -⟩ := C6_ancestors_pid_in_order sampleResolvers "" sampleEvent hrange
  refine ⟨hrange, by simp [sampleEvent, Struct.setInt], ev, out, h1, h2, ?_⟩
  rw [h3, sampleEvent_ancestors]
  simp [sampleEntry, ProcessCacheEntry.attrs, Struct.setInt]

/-- C7: for every `process.ancestors.*` field and every context whose cache has no entry
for the field, the evaluator returns a result; a second call under the context the first
call left returns the same sequence, makes no iterator step and no resolver call, and leaves
the context as it is; the sequence and the steps of the first call are those of a single
traversal, the one made on a new context for the same event. -/
theorem C7_array_cache_correct (rs : Resolvers) (regID : RegisterID) (field : String)
    (ctx : Context) (hf : field ∈ GetFields)
    (hp : hasPrefix "process.ancestors." field = true) (hc : ctx.Cache field = none) :
    ∃ ev first second single, GetEvaluator rs field regID = (some ev, none) ∧
      ev.Eval ctx = some first ∧ ev.Eval first.ctx = some second ∧
      ev.Eval (NewContext ctx.Object) = some single ∧
      second.value = first.value ∧ second.calls = [] ∧ second.ctx = first.ctx ∧
      first.value = single.value ∧ first.calls = single.calls ∧
      first.ctx.Object = ctx.Object := by
  obtain ⟨x, w, hx | hx⟩ := ancestors_case_of_mem hf hp
  · refine ⟨_, _, _, _, GetEvaluator_of_case rs regID hx, Eval_IntArray_miss rs _ _ _ ctx hc,
      Eval_IntArray_hit rs _ _ _ _ _ (Context.store_Cache_self _ _ _),
      Eval_IntArray_miss rs _ _ _ (NewContext ctx.Object) rfl, ?_⟩
    simp [NewContext, Context.store]
  · refine ⟨_, _, _, _, GetEvaluator_of_case rs regID hx, Eval_StringArray_miss rs _ _ _ ctx hc,
      Eval_StringArray_hit rs _ _ _ _ _ (Context.store_Cache_self _ _ _),
      Eval_StringArray_miss rs _ _ _ (NewContext ctx.Object) rfl, ?_⟩
    simp [NewContext, Context.store]

set_option maxRecDepth 100000 in
/-- C7 at the field `process.ancestors.user` on a new context for the sample event. -/
theorem C7_array_cache_correct_witness :
    "process.ancestors.user" ∈ GetFields ∧
    hasPrefix "process.ancestors." "process.ancestors.user" = true ∧
    (NewContext sampleEvent).Cache "process.ancestors.user" = none ∧
    ∃ ev first second single,
      GetEvaluator sampleResolvers "process.ancestors.user" "" = (some ev, none) ∧
      ev.Eval (NewContext sampleEvent) = some first ∧ ev.Eval first.ctx = some second ∧
      ev.Eval (NewContext (NewContext sampleEvent).Object) = some single ∧
      second.value = first.value ∧ second.calls = [] ∧ second.ctx = first.ctx ∧
      first.value = single.value ∧ first.calls = single.calls ∧
      first.ctx.Object = (NewContext sampleEvent).Object :=
  ⟨by decide!, by decide, rfl,
    C7_array_cache_correct sampleResolvers "" "process.ancestors.user" (NewContext sampleEvent)
      (by decide!) (by decide) rfl⟩

/-- C8: for every `process.ancestors.*` field, if the cache of the context holds an array
of the element type of the field under the field name, the evaluator returns that array as
it is, makes no iterator step and no resolver call, and leaves the context unchanged,
whatever the ancestors of the event are. -/
theorem C8_cache_hit_returned_as_is (rs : Resolvers) (regID : RegisterID) (field : String)
    (ctx : Context) (hf : field ∈ GetFields)
    (hp : hasPrefix "process.ancestors." field = true) :
    ∃ ev, GetEvaluator rs field regID = (some ev, none) ∧
      (ev.variant = Variant.IntArrayEvaluator ∨ ev.variant = Variant.StringArrayEvaluator) ∧
      (∀ vs, ev.variant = Variant.IntArrayEvaluator → ctx.Cache field = some (.ints vs) →
        ev.Eval ctx = some ⟨Value.ints vs, ctx, []⟩) ∧
      (∀ vs, ev.variant = Variant.StringArrayEvaluator →
        ctx.Cache field = some (.strings vs) →
        ev.Eval ctx = some ⟨Value.strings vs, ctx, []⟩) := by
  obtain ⟨x, w, hx | hx⟩ := ancestors_case_of_mem hf hp
  · refine ⟨_, GetEvaluator_of_case rs regID hx, Or.inl rfl, ?_, ?_⟩
    · intro vs _ hvs
      exact Eval_IntArray_hit rs _ _ _ _ _ hvs
    · intro vs hv
      simp [EvalCase.build, Evaluator.variant] at hv
  · refine ⟨_, GetEvaluator_of_case rs regID hx, Or.inr rfl, ?_, ?_⟩
    · intro vs hv
      simp [EvalCase.build, Evaluator.variant] at hv
    · intro vs _ hvs
      exact Eval_StringArray_hit rs _ _ _ _ _ hvs

set_option maxRecDepth 100000 in
/-- C8 at the field `process.ancestors.pid`: with `[1, 2, 3]` cached under the field, the
evaluator returns `[1, 2, 3]` on the sample event, whose ancestors have the pids 200 and
300. -/
theorem C8_cache_hit_returned_as_is_witness :
    "process.ancestors.pid" ∈ GetFields ∧
    hasPrefix "process.ancestors." "process.ancestors.pid" = true ∧
    ∃ ev, GetEvaluator sampleResolvers "process.ancestors.pid" "" = (some ev, none) ∧
      ev.Eval ((NewContext sampleEvent).store "process.ancestors.pid" (.ints [1, 2, 3])) =
        some ⟨Value.ints [1, 2, 3],
          (NewContext sampleEvent).store "process.ancestors.pid" (.ints [1, 2, 3]), []⟩ := by
  obtain ⟨ev, h1, h2, h3, -⟩ := C8_cache_hit_returned_as_is sampleResolvers ""
    "process.ancestors.pid"
    ((NewContext sampleEvent).store "process.ancestors.pid" (.ints [1, 2, 3]))
    (by decide!) (by decide)
  have hv : ev.variant = Variant.IntArrayEvaluator := by
    rw [GetEvaluator_of_case sampleResolvers "" ancestors_pid_case] at h1
    simp only [Prod.mk.injEq, Option.some.injEq, and_true] at h1
    rw [← h1]
    rfl
  exact ⟨by decide!, by decide, ev, h1, h3 [1, 2, 3] hv (Context.store_Cache_self _ _ _)⟩

/-! ## Lemmas on field-name prefixes -/

theorem isPrefixOf_append_left (l a b : List Char) :
    (l ++ a).isPrefixOf (l ++ b) = a.isPrefixOf b := by
  induction l with
  | nil => rfl
  | cons c l ih => simp [ih]

theorem isPrefixOf_append_self (l b : List Char) : l.isPrefixOf (l ++ b) = true := by
  induction l with
  | nil => simp
  | cons c l ih => simp [ih]

theorem hasPrefix_process (X : String) : hasPrefix "process." ("process." ++ X) = true := by
  unfold hasPrefix
  rw [String.data_append]
  exact isPrefixOf_append_self _ _

theorem hasPrefix_process_ancestors (X : String) :
    hasPrefix "process.ancestors." ("process." ++ X) = hasPrefix "ancestors." X := by
  have h : "process.ancestors." = "process." ++ "ancestors." := by decide
  unfold hasPrefix
  rw [h, String.data_append, String.data_append]
  exact isPrefixOf_append_left _ _ _

theorem drop_process (X : String) : String.mk (("process." ++ X).data.drop 8) = X := by
  rw [String.data_append, List.drop_left' (by decide)]

set_option maxRecDepth 100000 in
theorem process_rows :
    GetEvaluatorCases.all (fun row =>
      !hasPrefix "process." row.1 || hasPrefix "process.ancestors." row.1 ||
        (match switchCase ("process.ancestors." ++ String.mk (row.1.data.drop 8))
            GetEvaluatorCases with
          | some a => ancestorForm row.2 a
          | none => false)) = true := by
  decide!

theorem process_ancestors_case {X : String} {c : EvalCase}
    (hc : switchCase ("process." ++ X) GetEvaluatorCases = some c)
    (hn : hasPrefix "ancestors." X = false) :
    ∃ a, switchCase ("process.ancestors." ++ X) GetEvaluatorCases = some a ∧
      ancestorForm c a = true := by
  have hrow := List.all_eq_true.1 process_rows _ (switchCase_mem hc)
  simp only [hasPrefix_process, hasPrefix_process_ancestors, hn, drop_process, Bool.not_true,
    Bool.false_or] at hrow
  cases ha : switchCase ("process.ancestors." ++ X) GetEvaluatorCases with
  | none => simp [ha] at hrow
  | some a =>
    rw [ha] at hrow
    exact ⟨a, rfl, hrow⟩

/-! ## C9: every scalar process field has its ancestor form -/

/-- C9: for every registered scalar field `process.X` the field `process.ancestors.X` is
registered too; its evaluator is the array evaluator of the same element type, and on an
empty cache its result is the list, over the ancestor entries of the event in iteration
order, of what `process.X` extracts from the event itself: the same attribute read from the
entry, or the same resolver method pointed at the sub-structure of the entry that the last
segment of the scalar argument names (the `Credentials`, `Process` or `FileFields` of the
entry). -/
theorem C9_ancestors_mirror_process (rs : Resolvers) (regID : RegisterID) (X : String)
    (hX : "process." ++ X ∈ GetFields) (hn : hasPrefix "ancestors." X = false) :
    ∃ sc ar, GetEvaluator rs ("process." ++ X) regID = (some sc, none) ∧
      GetEvaluator rs ("process.ancestors." ++ X) regID = (some ar, none) ∧
      ((sc.variant = Variant.IntEvaluator ∧ ar.variant = Variant.IntArrayEvaluator ∧
          ∃ path,
            (∀ ctx, (sc.Eval ctx).map (fun o => o.value) =
              some (Value.int (toInt (ctx.Object.attrs.ints path)))) ∧
            (∀ e, (ar.Eval (NewContext e)).map (fun o => o.value) =
              some (Value.ints (e.ancestors.map fun a => toInt (a.attrs.ints path))))) ∨
        (sc.variant = Variant.IntEvaluator ∧ ar.variant = Variant.IntArrayEvaluator ∧
          ∃ method arg,
            (∀ ctx, (sc.Eval ctx).map (fun o => o.value) =
              some (Value.int (toInt (rs.int method ctx.Object (Target.event arg))))) ∧
            (∀ e, (ar.Eval (NewContext e)).map (fun o => o.value) =
              some (Value.ints (e.ancestors.map fun a =>
                toInt (rs.int method e (Target.element a (lastSegment arg))))))) ∨
        (sc.variant = Variant.StringEvaluator ∧ ar.variant = Variant.StringArrayEvaluator ∧
          ∃ path,
            (∀ ctx, (sc.Eval ctx).map (fun o => o.value) =
              some (Value.string (ctx.Object.attrs.strs path))) ∧
            (∀ e, (ar.Eval (NewContext e)).map (fun o => o.value) =
              some (Value.strings (e.ancestors.map fun a => a.attrs.strs path)))) ∨
        (sc.variant = Variant.StringEvaluator ∧ ar.variant = Variant.StringArrayEvaluator ∧
          ∃ method arg,
            (∀ ctx, (sc.Eval ctx).map (fun o => o.value) =
              some (Value.string (rs.string method ctx.Object (Target.event arg)))) ∧
            (∀ e, (ar.Eval (NewContext e)).map (fun o => o.value) =
              some (Value.strings (e.ancestors.map fun a =>
                rs.string method e (Target.element a (lastSegment arg))))))) := by
  obtain ⟨c, hc⟩ := GetEvaluator_case_of_mem hX
  obtain ⟨a, ha, hform⟩ := process_ancestors_case hc hn
  refine ⟨_, _, GetEvaluator_of_case rs regID hc, GetEvaluator_of_case rs regID ha, ?_⟩
  rcases c with ⟨x, w⟩ | ⟨x, w⟩ | ⟨x, w⟩ | ⟨x, w⟩ | ⟨x, w⟩ <;>
    rcases a with ⟨y, v⟩ | ⟨y, v⟩ | ⟨y, v⟩ | ⟨y, v⟩ | ⟨y, v⟩ <;>
    rcases x with p | ⟨m, p⟩ <;> rcases y with q | ⟨n, q⟩ <;>
    simp only [ancestorForm, Bool.and_eq_true, decide_eq_true_eq, Bool.false_eq_true] at hform
  · subst hform
    refine Or.inl ⟨rfl, rfl, q, fun ctx => rfl, fun e => ?_⟩
    rw [Eval_IntArray_miss rs _ _ _ (NewContext e) rfl]
    rfl
  · obtain ⟨rfl, rfl⟩ := hform
    refine Or.inr (Or.inl ⟨rfl, rfl, n, p, fun ctx => rfl, fun e => ?_⟩)
    rw [Eval_IntArray_miss rs _ _ _ (NewContext e) rfl]
    rfl
  · subst hform
    refine Or.inr (Or.inr (Or.inl ⟨rfl, rfl, q, fun ctx => rfl, fun e => ?_⟩))
    rw [Eval_StringArray_miss rs _ _ _ (NewContext e) rfl]
    rfl
  · obtain ⟨rfl, rfl⟩ := hform
    refine Or.inr (Or.inr (Or.inr ⟨rfl, rfl, n, p, fun ctx => rfl, fun e => ?_⟩))
    rw [Eval_StringArray_miss rs _ _ _ (NewContext e) rfl]
    rfl

set_option maxRecDepth 100000 in
/-- C9 at `X = uid`: `process.uid` and `process.ancestors.uid` with the sample resolvers. -/
theorem C9_ancestors_mirror_process_witness :
    "process." ++ "uid" ∈ GetFields ∧ hasPrefix "ancestors." "uid" = false ∧
    ∃ sc ar, GetEvaluator sampleResolvers ("process." ++ "uid") "" = (some sc, none) ∧
      GetEvaluator sampleResolvers ("process.ancestors." ++ "uid") "" = (some ar, none) ∧
      ((sc.variant = Variant.IntEvaluator ∧ ar.variant = Variant.IntArrayEvaluator ∧
          ∃ path,
            (∀ ctx, (sc.Eval ctx).map (fun o => o.value) =
              some (Value.int (toInt (ctx.Object.attrs.ints path)))) ∧
            (∀ e, (ar.Eval (NewContext e)).map (fun o => o.value) =
              some (Value.ints (e.ancestors.map fun a => toInt (a.attrs.ints path))))) ∨
        (sc.variant = Variant.IntEvaluator ∧ ar.variant = Variant.IntArrayEvaluator ∧
          ∃ method arg,
            (∀ ctx, (sc.Eval ctx).map (fun o => o.value) =
              some (Value.int (toInt (sampleResolvers.int method ctx.Object
                (Target.event arg))))) ∧
            (∀ e, (ar.Eval (NewContext e)).map (fun o => o.value) =
              some (Value.ints (e.ancestors.map fun a =>
                toInt (sampleResolvers.int method e
                  (Target.element a (lastSegment arg))))))) ∨
        (sc.variant = Variant.StringEvaluator ∧ ar.variant = Variant.StringArrayEvaluator ∧
          ∃ path,
            (∀ ctx, (sc.Eval ctx).map (fun o => o.value) =
              some (Value.string (ctx.Object.attrs.strs path))) ∧
            (∀ e, (ar.Eval (NewContext e)).map (fun o => o.value) =
              some (Value.strings (e.ancestors.map fun a => a.attrs.strs path)))) ∨
        (sc.variant = Variant.StringEvaluator ∧ ar.variant = Variant.StringArrayEvaluator ∧
          ∃ method arg,
            (∀ ctx, (sc.Eval ctx).map (fun o => o.value) =
              some (Value.string (sampleResolvers.string method ctx.Object
                (Target.event arg)))) ∧
            (∀ e, (ar.Eval (NewContext e)).map (fun o => o.value) =
              some (Value.strings (e.ancestors.map fun a =>
                sampleResolvers.string method e
                  (Target.element a (lastSegment arg))))))) :=
  ⟨by decide!, by decide,
    C9_ancestors_mirror_process sampleResolvers "" "uid" (by decide!) (by decide)⟩

/-! ## C10: the type check of `SetFieldValue` -/

set_option maxRecDepth 100000 in
theorem set_type_aligned :
    aligned (fun _ c k =>
      decide (c.kind = k ∧ c.mismatch = c.target.path ∧ c.target.isAncestor = c.guard))
      SetFieldValueCases GetFieldTypeCases = true := by
  decide!

theorem Event.assign_event (e : Event) (f : String → Struct → Struct) (path : String) :
    e.assign f (Loc.event path) = some { e with attrs := f path e.attrs } := rfl

theorem Event.allocAncestor_assign (e : Event) (f : String → Struct → Struct) (path : String) :
    ∃ e', e.allocAncestor.assign f (Loc.ancestor path) = some e' := by
  rcases e with ⟨attrs, _ | ⟨s, anc⟩⟩ <;> exact ⟨_, rfl⟩

theorem SetCase.run_spec (c : SetCase) (e : Event) (value : Value)
    (hg : c.target.isAncestor = c.guard) :
    ∃ e' err, c.run e value = some (e', err) ∧
      (err = none ↔ value.kind = c.kind) ∧
      (value.kind ≠ c.kind → err = some (.ErrValueTypeMismatch c.mismatch)) ∧
      (value.kind = c.kind → ∃ stored, stored.kind = c.kind ∧
        (e.put c.target stored = some e' ∨ e.allocAncestor.put c.target stored = some e')) := by
  rcases c with ⟨g, m, t, cv⟩ | ⟨g, m, t⟩ | ⟨g, m, t⟩ <;> rcases t with p | p <;>
    simp only [SetCase.target, SetCase.guard, Loc.isAncestor] at hg <;> subst hg
  · cases value
    case int v =>
      refine ⟨_, none, by simp [SetCase.run, Event.assign_event],
        by simp [SetCase.kind, Value.kind], by simp [SetCase.kind, Value.kind],
        fun _ => ⟨Value.int (cv.apply v), rfl, Or.inl rfl⟩⟩
    all_goals
      simp [SetCase.run, SetCase.kind, SetCase.mismatch, SetCase.target, Value.kind,
        Event.assign_event]
  · cases value
    case int v =>
      obtain ⟨e', he'⟩ := e.allocAncestor_assign (fun p s => s.setInt p (cv.apply v)) p
      refine ⟨e', none, by simp [SetCase.run, he'], by simp [SetCase.kind, Value.kind],
        by simp [SetCase.kind, Value.kind], fun _ => ⟨Value.int (cv.apply v), rfl, Or.inr he'⟩⟩
    all_goals
      simp [SetCase.run, SetCase.kind, SetCase.mismatch, SetCase.target, Value.kind]
  · cases value
    case string v =>
      refine ⟨_, none, by simp [SetCase.run, Event.assign_event],
        by simp [SetCase.kind, Value.kind], by simp [SetCase.kind, Value.kind],
        fun _ => ⟨Value.string v, rfl, Or.inl rfl⟩⟩
    all_goals
      simp [SetCase.run, SetCase.kind, SetCase.mismatch, SetCase.target, Value.kind,
        Event.assign_event]
  · cases value
    case string v =>
      obtain ⟨e', he'⟩ := e.allocAncestor_assign (fun p s => s.setStr p v) p
      refine ⟨e', none, by simp [SetCase.run, he'], by simp [SetCase.kind, Value.kind],
        by simp [SetCase.kind, Value.kind], fun _ => ⟨Value.string v, rfl, Or.inr he'⟩⟩
    all_goals
      simp [SetCase.run, SetCase.kind, SetCase.mismatch, SetCase.target, Value.kind]
  · cases value
    case bool v =>
      refine ⟨_, none, by simp [SetCase.run, Event.assign_event],
        by simp [SetCase.kind, Value.kind], by simp [SetCase.kind, Value.kind],
        fun _ => ⟨Value.bool v, rfl, Or.inl rfl⟩⟩
    all_goals
      simp [SetCase.run, SetCase.kind, SetCase.mismatch, SetCase.target, Value.kind,
        Event.assign_event]
  · cases value
    case bool v =>
      obtain ⟨e', he'⟩ := e.allocAncestor_assign (fun p s => s.setBool p v) p
      refine ⟨e', none, by simp [SetCase.run, he'], by simp [SetCase.kind, Value.kind],
        by simp [SetCase.kind, Value.kind], fun _ => ⟨Value.bool v, rfl, Or.inr he'⟩⟩
    all_goals
      obtain ⟨e', he'⟩ := e.allocAncestor_assign (fun p s => s.setBool p false) p
      simp [SetCase.run, SetCase.kind, SetCase.mismatch, SetCase.target, Value.kind, he']

/-- C10: `SetFieldValue` checks the dynamic type of the value against the declared type.
Every registered field has a declared kind and one backing attribute, an attribute of the
event or of its first ancestor entry, such that for every event and every value the call
returns (it does not panic); the error is nil exactly when the dynamic type of the value is
the Go type of the declared kind, and the call then assigns the backing attribute; otherwise
the error is an `ErrValueTypeMismatch` (so never `ErrFieldNotFound`) whose `Field` is the
selector path of that backing attribute. -/
theorem C10_set_checks_declared_type (field : String) (h : field ∈ GetFields) :
    ∃ k loc, GetFieldType field = (k, none) ∧
      ∀ (e : Event) (value : Value), ∃ e' err,
        SetFieldValue e field value = some (e', err) ∧
        (err = none ↔ value.kind = k) ∧
        (value.kind ≠ k → err = some (.ErrValueTypeMismatch loc.path)) ∧
        (value.kind = k → ∃ stored, stored.kind = k ∧
          (e.put loc stored = some e' ∨ e.allocAncestor.put loc stored = some e')) := by
  obtain ⟨c, hc⟩ := switchCase_isSome_of_mem (SetFieldValueCases_labels ▸ h)
  obtain ⟨k, hk, hr⟩ := aligned_switchCase set_type_aligned hc
  obtain ⟨hkind, hmis, hg⟩ := of_decide_eq_true hr
  subst hkind
  refine ⟨c.kind, c.target, GetFieldType_of_case hk, fun e value => ?_⟩
  obtain ⟨e', err, h1, h2, h3, h4⟩ := SetCase.run_spec c e value hg
  refine ⟨e', err, ?_, h2, ?_, h4⟩
  · simp [SetFieldValue, hc, h1]
  · rw [← hmis]
    exact h3

set_option maxRecDepth 100000 in
/-- C10 at the field `process.ancestors.pid`, whose backing attribute is
`ProcessContext.Ancestor.ProcessContext.Pid`: a string value on the event without an
ancestor is answered with the mismatch error that names it. -/
theorem C10_set_checks_declared_type_witness :
    "process.ancestors.pid" ∈ GetFields ∧
    SetFieldValue orphanEvent "process.ancestors.pid" (Value.string "x") =
      some (⟨orphanEvent.attrs, some (.mk Struct.zero none)⟩,
        some (.ErrValueTypeMismatch "ProcessContext.Ancestor.ProcessContext.Pid")) ∧
    ∃ k loc, GetFieldType "process.ancestors.pid" = (k, none) ∧
      ∀ (e : Event) (value : Value), ∃ e' err,
        SetFieldValue e "process.ancestors.pid" value = some (e', err) ∧
        (err = none ↔ value.kind = k) ∧
        (value.kind ≠ k → err = some (.ErrValueTypeMismatch loc.path)) ∧
        (value.kind = k → ∃ stored, stored.kind = k ∧
          (e.put loc stored = some e' ∨ e.allocAncestor.put loc stored = some e')) := by
  have hc : switchCase "process.ancestors.pid" SetFieldValueCases =
      some (SetCase.int true "ProcessContext.Ancestor.ProcessContext.Pid"
        (Loc.ancestor "ProcessContext.Pid") Conv.uint32) := by
    decide!
  refine ⟨by decide!, ?_, C10_set_checks_declared_type "process.ancestors.pid" (by decide!)⟩
  simp only [SetFieldValue, hc]
  rfl
/-! ## Further facts on the tables -/

set_option maxRecDepth 100000 in
theorem evaluator_value_aligned :
    aligned (fun _ c v => valueForm c v) GetEvaluatorCases GetFieldValueCases = true := by
  decide!

set_option maxRecDepth 100000 in
theorem value_set_aligned :
    aligned setsWhatIsRead GetFieldValueCases SetFieldValueCases = true := by
  decide!

set_option maxRecDepth 100000 in
theorem weight_rows :
    GetEvaluatorCases.all (fun row =>
      decide (row.2.weight =
          (if hasPrefix "process.ancestors." row.1 then Weight.IteratorWeight
            else if row.2.expr.isAttr then Weight.FunctionWeight else Weight.HandlerWeight)) &&
        decide (row.2.variant.isArray = hasPrefix "process.ancestors." row.1)) = true := by
  decide!

set_option maxRecDepth 100000 in
theorem set_guard_rows :
    SetFieldValueCases.all (fun row =>
      decide (row.2.guard = hasPrefix "process.ancestors." row.1) &&
        decide (row.2.target.isAncestor = row.2.guard)) = true := by
  decide!

set_option maxRecDepth 100000 in
theorem GetFields_increasing : strictlyIncreasing GetFields = true := by decide!

set_option maxRecDepth 100000 in
theorem GetFields_length : GetFields.length = 290 := by decide!

set_option maxRecDepth 100000 in
theorem GetFields_ascii :
    GetFields.all (fun f => f.data.all (fun c => decide (c.toNat < 128))) = true := by
  decide!

/-! ## Lemmas on the round trip through `SetFieldValue` and `GetFieldValue` -/

theorem GetFieldValue_of_case (rs : Resolvers) (e : Event) {field : String} {c : ValueCase}
    (h : switchCase field GetFieldValueCases = some c) :
    GetFieldValue rs e field = ⟨((c.run rs e).ret, none), (c.run rs e).calls⟩ := by
  simp [GetFieldValue, h]

theorem SetFieldValue_of_case (e : Event) (value : Value) {field : String} {c : SetCase}
    (h : switchCase field SetFieldValueCases = some c) :
    SetFieldValue e field value = c.run e value := by
  simp [SetFieldValue, h]

theorem toInt_of_int64 (v : Int) (h : isInt64 v) : toInt v = v := by
  unfold isInt64 at h
  unfold toInt
  omega

theorem toInt_apply_readBack (c : Conv) (v : Int) (h : isInt64 v) :
    toInt (c.apply v) = readBack c v := by
  unfold isInt64 at h
  cases c <;> simp only [Conv.apply, readBack, toInt] <;> omega

theorem readBack_of_holds (c : Conv) (v : Int) (h : isInt64 v) (hc : c.holds v) :
    readBack c v = v := by
  unfold isInt64 at h
  cases c <;> simp only [Conv.holds] at hc <;> simp only [readBack] <;> omega

theorem Struct.setInt_ints (s : Struct) (path : String) (v : Int) :
    (s.setInt path v).ints path = v := by
  simp [Struct.setInt]

theorem Struct.setBool_bools (s : Struct) (path : String) (b : Bool) :
    (s.setBool path b).bools path = b := by
  simp [Struct.setBool]

theorem Struct.setStr_strs (s : Struct) (path : String) (v : String) :
    (s.setStr path v).strs path = v := by
  simp [Struct.setStr]

theorem directlyRead_case {field : String} (h : directlyRead field = true) :
    ∃ p, switchCase field GetFieldValueCases = some (ValueCase.int (Expr.attr p)) ∨
      switchCase field GetFieldValueCases = some (ValueCase.string (Expr.attr p)) ∨
      switchCase field GetFieldValueCases = some (ValueCase.bool (Expr.attr p)) := by
  unfold directlyRead at h
  split at h
  · next p hp => exact ⟨p, Or.inl hp⟩
  · next p hp => exact ⟨p, Or.inr (Or.inl hp)⟩
  · next p hp => exact ⟨p, Or.inr (Or.inr hp)⟩
  · simp at h

theorem int_set_case {field p : String}
    (h : switchCase field GetFieldValueCases = some (ValueCase.int (Expr.attr p))) :
    ∃ m, switchCase field SetFieldValueCases =
      some (SetCase.int false m (Loc.event p) (backingType field)) := by
  obtain ⟨sc, hsc, hr⟩ := aligned_switchCase value_set_aligned h
  cases sc with
  | int g m t conv =>
    simp only [setsWhatIsRead, Bool.and_eq_true, Bool.not_eq_true', decide_eq_true_eq] at hr
    obtain ⟨⟨rfl, rfl⟩, rfl⟩ := hr
    exact ⟨m, hsc⟩
  | string g m t => simp [setsWhatIsRead] at hr
  | bool g m t => simp [setsWhatIsRead] at hr

theorem string_set_case {field p : String}
    (h : switchCase field GetFieldValueCases = some (ValueCase.string (Expr.attr p))) :
    ∃ m, switchCase field SetFieldValueCases = some (SetCase.string false m (Loc.event p)) := by
  obtain ⟨sc, hsc, hr⟩ := aligned_switchCase value_set_aligned h
  cases sc with
  | string g m t =>
    simp only [setsWhatIsRead, Bool.and_eq_true, Bool.not_eq_true', decide_eq_true_eq] at hr
    obtain ⟨rfl, rfl⟩ := hr
    exact ⟨m, hsc⟩
  | int g m t conv => simp [setsWhatIsRead] at hr
  | bool g m t => simp [setsWhatIsRead] at hr

theorem bool_set_case {field p : String}
    (h : switchCase field GetFieldValueCases = some (ValueCase.bool (Expr.attr p))) :
    ∃ m, switchCase field SetFieldValueCases = some (SetCase.bool false m (Loc.event p)) := by
  obtain ⟨sc, hsc, hr⟩ := aligned_switchCase value_set_aligned h
  cases sc with
  | bool g m t =>
    simp only [setsWhatIsRead, Bool.and_eq_true, Bool.not_eq_true', decide_eq_true_eq] at hr
    obtain ⟨rfl, rfl⟩ := hr
    exact ⟨m, hsc⟩
  | int g m t conv => simp [setsWhatIsRead] at hr
  | string g m t => simp [setsWhatIsRead] at hr

/-! ## C11, C12: the round trip on directly-read fields -/

/-- C11: for every registered field whose `GetFieldValue` arm reads an attribute of the
event directly (no resolver, no ancestor loop) and every value that, when it is an `int`,
is representable in the type of the backing attribute: if `SetFieldValue` returns nil for
the value, `GetFieldValue` on the event it leaves returns that value with a nil error (and
calls no resolver). -/
theorem C11_round_trip_directly_read (rs : Resolvers) (e e' : Event) (field : String)
    (value : Value) (_hf : field ∈ GetFields) (hd : directlyRead field = true)
    (hv : ∀ v, value = Value.int v → isInt64 v ∧ ∃ conv, attrConv field = some conv ∧ conv.holds v)
    (hs : SetFieldValue e field value = some (e', none)) :
    GetFieldValue rs e' field = ⟨(value, none), []⟩ := by
  obtain ⟨p, hg | hg | hg⟩ := directlyRead_case hd
  · obtain ⟨m, hc⟩ := int_set_case hg
    rw [SetFieldValue_of_case e value hc] at hs
    rw [GetFieldValue_of_case rs e' hg]
    cases value <;> simp [SetCase.run, Event.assign] at hs
    rename_i v
    obtain ⟨hi, conv, hconv, hholds⟩ := hv v rfl
    have hconv' : conv = backingType field := by
      simp [attrConv, hc] at hconv
      exact hconv.symm
    subst hs
    simp only [ValueCase.run, Expr.int, Struct.setInt_ints]
    rw [toInt_apply_readBack _ _ hi, ← hconv', readBack_of_holds _ _ hi hholds]
  · obtain ⟨m, hc⟩ := string_set_case hg
    rw [SetFieldValue_of_case e value hc] at hs
    rw [GetFieldValue_of_case rs e' hg]
    cases value <;> simp [SetCase.run, Event.assign] at hs
    subst hs
    simp only [ValueCase.run, Expr.string, Struct.setStr_strs]
  · obtain ⟨m, hc⟩ := bool_set_case hg
    rw [SetFieldValue_of_case e value hc] at hs
    rw [GetFieldValue_of_case rs e' hg]
    cases value <;> simp [SetCase.run, Event.assign] at hs
    subst hs
    simp only [ValueCase.run, Expr.bool, Struct.setBool_bools]

set_option maxRecDepth 100000 in
theorem open_inode_set_case :
    switchCase "open.file.inode" SetFieldValueCases =
      some (SetCase.int false "Open.File.FileFields.Inode"
        (Loc.event "Open.File.FileFields.Inode") Conv.uint64) := by
  decide!

set_option maxRecDepth 100000 in
/-- C11 at the field `open.file.inode` with the value 42. -/
theorem C11_round_trip_directly_read_witness :
    "open.file.inode" ∈ GetFields ∧ directlyRead "open.file.inode" = true ∧
    (∀ v, Value.int 42 = Value.int v →
      isInt64 v ∧ ∃ conv, attrConv "open.file.inode" = some conv ∧ conv.holds v) ∧
    SetFieldValue orphanEvent "open.file.inode" (Value.int 42) =
      some (⟨orphanEvent.attrs.setInt "Open.File.FileFields.Inode" 42, none⟩, none) ∧
    GetFieldValue sampleResolvers
        ⟨orphanEvent.attrs.setInt "Open.File.FileFields.Inode" 42, none⟩ "open.file.inode" =
      ⟨(Value.int 42, none), []⟩ := by
  have hv : ∀ v, Value.int 42 = Value.int v →
      isInt64 v ∧ ∃ conv, attrConv "open.file.inode" = some conv ∧ conv.holds v := by
    intro v h
    injection h with h
    subst h
    refine ⟨by unfold isInt64; omega, Conv.uint64, ?_, by simp only [Conv.holds]; omega⟩
    simp [attrConv, open_inode_set_case]
  have hs : SetFieldValue orphanEvent "open.file.inode" (Value.int 42) =
      some (⟨orphanEvent.attrs.setInt "Open.File.FileFields.Inode" 42, none⟩, none) := by
    rw [SetFieldValue_of_case _ _ open_inode_set_case]
    rfl
  exact ⟨by decide!, by decide!, hv, hs,
    C11_round_trip_directly_read sampleResolvers orphanEvent _ "open.file.inode" (Value.int 42)
      (by decide!) (by decide!) hv hs⟩

/-- C12, as stated, fails at `link.file.destination.mode`, one of the
`*.file.destination.mode` fields: its backing attribute `Link.Target.FileFields.Mode` is
assigned through `uint16`, so 70000 is read back as 4464, not as 70000 mod 2^32. -/
theorem C12_counterexample :
    hasSuffix ".file.destination.mode" "link.file.destination.mode" = true ∧
    ∃ e', SetFieldValue orphanEvent "link.file.destination.mode" (Value.int 70000) =
        some (e', none) ∧
      GetFieldValue sampleResolvers e' "link.file.destination.mode" =
        ⟨(Value.int 4464, none), []⟩ ∧
      (4464 : Int) ≠ 70000 % 2 ^ 32 := by
  have hg : switchCase "link.file.destination.mode" GetFieldValueCases =
      some (ValueCase.int (Expr.attr "Link.Target.FileFields.Mode")) := by
    decide!
  have hc : switchCase "link.file.destination.mode" SetFieldValueCases =
      some (SetCase.int false "Link.Target.FileFields.Mode"
        (Loc.event "Link.Target.FileFields.Mode") Conv.uint16) := by
    decide!
  refine ⟨by decide,
    ⟨orphanEvent.attrs.setInt "Link.Target.FileFields.Mode" (Conv.uint16.apply 70000),
      orphanEvent.Ancestor⟩, ?_, ?_, by decide⟩
  · rw [SetFieldValue_of_case _ _ hc]
    rfl
  · rw [GetFieldValue_of_case _ _ hg]
    simp only [ValueCase.run, Expr.int, Struct.setInt_ints]
    rfl

/-- C12, amended: for every registered directly-read integer field and every 64-bit `int`
`v`, `SetFieldValue` returns nil and `GetFieldValue` then returns `v mod 2^16` for the
`uint16`-backed fields (`*.file.mode` and the destination modes of `link` and `rename`),
`v mod 2^32` for the `uint32`-backed fields (uid, gid, mount id, flags, pid, tid, the
setuid and setgid ids, and the destination modes of `chmod`, `mkdir` and `open`), and `v`
itself for the `int64`-backed `*.retval` fields and for the `uint64`-backed fields
(`*.inode`, `capset.cap_effective`, `capset.cap_permitted`), where a negative `v` is stored
as `v + 2^64`. The backing type of the field is the one its name tells. -/
theorem C12_truncation_rules (rs : Resolvers) (e : Event) (field : String) (v : Int)
    (_hf : field ∈ GetFields) (hd : directlyRead field = true)
    (hk : (GetFieldType field).1 = Kind.Int) (hv : isInt64 v) :
    attrConv field = some (backingType field) ∧
    ∃ e' p, SetFieldValue e field (Value.int v) = some (e', none) ∧
      GetFieldValue rs e' field = ⟨(Value.int (readBack (backingType field) v), none), []⟩ ∧
      e'.attrs.ints p = (backingType field).apply v ∧
      (∀ e0, (GetFieldValue rs e0 field).ret = (Value.int (toInt (e0.attrs.ints p)), none)) ∧
      (backingType field = Conv.uint64 → v < 0 → e'.attrs.ints p = v + 2 ^ 64) := by
  obtain ⟨p, hg | hg | hg⟩ := directlyRead_case hd
  · obtain ⟨m, hc⟩ := int_set_case hg
    refine ⟨by simp [attrConv, hc],
      ⟨e.attrs.setInt p ((backingType field).apply v), e.Ancestor⟩, p, ?_, ?_, ?_, ?_, ?_⟩
    · rw [SetFieldValue_of_case _ _ hc]
      rfl
    · rw [GetFieldValue_of_case _ _ hg]
      simp only [ValueCase.run, Expr.int, Struct.setInt_ints, toInt_apply_readBack _ _ hv]
    · simp only [Struct.setInt_ints]
    · intro e0
      rw [GetFieldValue_of_case _ _ hg]
      rfl
    · intro h64 hneg
      unfold isInt64 at hv
      simp only [Struct.setInt_ints, h64, Conv.apply]
      omega
  · exfalso
    obtain ⟨m, hc⟩ := string_set_case hg
    obtain ⟨k, hk', hr⟩ := aligned_switchCase set_type_aligned hc
    have hkind := (of_decide_eq_true hr).1
    rw [GetFieldType_of_case hk'] at hk
    simp only [SetCase.kind] at hkind
    rw [← hkind] at hk
    simp at hk
  · exfalso
    obtain ⟨m, hc⟩ := bool_set_case hg
    obtain ⟨k, hk', hr⟩ := aligned_switchCase set_type_aligned hc
    have hkind := (of_decide_eq_true hr).1
    rw [GetFieldType_of_case hk'] at hk
    simp only [SetCase.kind] at hkind
    rw [← hkind] at hk
    simp at hk

set_option maxRecDepth 100000 in
/-- C12, amended, at the `uint16`-backed field `rename.file.destination.mode` with the value
70000, read back as 4464. -/
theorem C12_truncation_rules_witness :
    "rename.file.destination.mode" ∈ GetFields ∧
    directlyRead "rename.file.destination.mode" = true ∧
    (GetFieldType "rename.file.destination.mode").1 = Kind.Int ∧ isInt64 70000 ∧
    backingType "rename.file.destination.mode" = Conv.uint16 ∧
    readBack Conv.uint16 70000 = 4464 ∧
    attrConv "rename.file.destination.mode" =
      some (backingType "rename.file.destination.mode") ∧
    ∃ e' p, SetFieldValue orphanEvent "rename.file.destination.mode" (Value.int 70000) =
        some (e', none) ∧
      GetFieldValue sampleResolvers e' "rename.file.destination.mode" =
        ⟨(Value.int (readBack (backingType "rename.file.destination.mode") 70000), none),
          []⟩ ∧
      e'.attrs.ints p = (backingType "rename.file.destination.mode").apply 70000 ∧
      (∀ e0, (GetFieldValue sampleResolvers e0 "rename.file.destination.mode").ret =
        (Value.int (toInt (e0.attrs.ints p)), none)) ∧
      (backingType "rename.file.destination.mode" = Conv.uint64 → (70000 : Int) < 0 →
        e'.attrs.ints p = 70000 + 2 ^ 64) :=
  ⟨by decide!, by decide!, by decide!, by unfold isInt64; omega, by decide, by decide,
    C12_truncation_rules sampleResolvers orphanEvent "rename.file.destination.mode" 70000
      (by decide!) (by decide!) (by decide!) (by unfold isInt64; omega)⟩

/-! ## Lemmas on the scalar evaluators -/

theorem Eval_scalar (rs : Resolvers) (field : String) (c : EvalCase) (ctx : Context)
    (h : c.variant.isArray = false) :
    ∃ out, (c.build rs field).Eval ctx = some out ∧ out.ctx = ctx ∧
      out.calls =
        (match c.expr with
          | Expr.attr _ => []
          | Expr.resolve m arg => [Call.Resolve m (Target.event arg)]) := by
  rcases c with ⟨x, w⟩ | ⟨x, w⟩ | ⟨x, w⟩ | ⟨x, w⟩ | ⟨x, w⟩ <;>
    simp only [EvalCase.variant, Variant.isArray, Bool.true_eq_false] at h <;>
    cases x <;> exact ⟨_, rfl, rfl, rfl⟩

theorem weight_of_case {field : String} {c : EvalCase}
    (hc : switchCase field GetEvaluatorCases = some c) :
    c.weight =
        (if hasPrefix "process.ancestors." field then Weight.IteratorWeight
          else if c.expr.isAttr then Weight.FunctionWeight else Weight.HandlerWeight) ∧
      c.variant.isArray = hasPrefix "process.ancestors." field := by
  have hrow := List.all_eq_true.1 weight_rows _ (switchCase_mem hc)
  simp only [Bool.and_eq_true, decide_eq_true_eq] at hrow
  exact hrow

/-! ## C13, C14: weights -/

/-- C13: for every registered field, the evaluator of `GetEvaluator` carries
`FunctionWeight` exactly when the field is not a `process.ancestors.*` field and its closure
calls no resolver (it reads an attribute), `HandlerWeight` exactly when the field is not a
`process.ancestors.*` field and its closure calls a resolver method on a sub-structure of
the event, and `IteratorWeight` exactly when the field is a `process.ancestors.*` field,
whatever the extraction per ancestor is. -/
theorem C13_weight_classification (rs : Resolvers) (regID : RegisterID) (field : String)
    (hf : field ∈ GetFields) :
    ∃ ev, GetEvaluator rs field regID = (some ev, none) ∧
      (ev.Weight = Weight.FunctionWeight ↔
        hasPrefix "process.ancestors." field = false ∧
          ∀ ctx, (ev.Eval ctx).map (fun o => o.calls) = some []) ∧
      (ev.Weight = Weight.HandlerWeight ↔
        hasPrefix "process.ancestors." field = false ∧
          ∃ method arg, ∀ ctx, (ev.Eval ctx).map (fun o => o.calls) =
            some [Call.Resolve method (Target.event arg)]) ∧
      (ev.Weight = Weight.IteratorWeight ↔ hasPrefix "process.ancestors." field = true) := by
  obtain ⟨c, hc⟩ := GetEvaluator_case_of_mem hf
  obtain ⟨hw, ha⟩ := weight_of_case hc
  refine ⟨_, GetEvaluator_of_case rs regID hc, ?_⟩
  rw [EvalCase.build_Weight]
  cases hp : hasPrefix "process.ancestors." field
  · rw [hp] at ha hw
    simp only [Bool.false_eq_true, if_false] at hw
    have hcalls := fun ctx => Eval_scalar rs field c ctx ha
    cases hx : c.expr with
    | attr p =>
      simp only [hx, Expr.isAttr, if_true] at hw hcalls
      rw [hw]
      refine ⟨?_, ?_, by simp⟩
      · refine ⟨fun _ => ⟨rfl, fun ctx => ?_⟩, fun _ => rfl⟩
        obtain ⟨out, h1, -, h3⟩ := hcalls ctx
        simp [h1, h3]
      · refine ⟨fun h => by simp at h, fun h => ?_⟩
        obtain ⟨-, m, arg, h⟩ := h
        obtain ⟨out, h1, -, h3⟩ := hcalls (NewContext orphanEvent)
        have := h (NewContext orphanEvent)
        simp [h1, h3] at this
    | resolve m arg =>
      simp only [hx, Expr.isAttr, Bool.false_eq_true, if_false] at hw hcalls
      rw [hw]
      refine ⟨?_, ?_, by simp⟩
      · refine ⟨fun h => by simp at h, fun h => ?_⟩
        obtain ⟨out, h1, -, h3⟩ := hcalls (NewContext orphanEvent)
        have := h.2 (NewContext orphanEvent)
        simp [h1, h3] at this
      · refine ⟨fun _ => ⟨rfl, m, arg, fun ctx => ?_⟩, fun _ => rfl⟩
        obtain ⟨out, h1, -, h3⟩ := hcalls ctx
        simp [h1, h3]
  · rw [hp] at hw
    simp only [if_true] at hw
    rw [hw]
    simp

set_option maxRecDepth 100000 in
/-- C13 at the field `process.ancestors.pid`, whose loop reads the pid directly. -/
theorem C13_weight_classification_witness :
    "process.ancestors.pid" ∈ GetFields ∧
    ∃ ev, GetEvaluator sampleResolvers "process.ancestors.pid" "" = (some ev, none) ∧
      (ev.Weight = Weight.FunctionWeight ↔
        hasPrefix "process.ancestors." "process.ancestors.pid" = false ∧
          ∀ ctx, (ev.Eval ctx).map (fun o => o.calls) = some []) ∧
      (ev.Weight = Weight.HandlerWeight ↔
        hasPrefix "process.ancestors." "process.ancestors.pid" = false ∧
          ∃ method arg, ∀ ctx, (ev.Eval ctx).map (fun o => o.calls) =
            some [Call.Resolve method (Target.event arg)]) ∧
      (ev.Weight = Weight.IteratorWeight ↔
        hasPrefix "process.ancestors." "process.ancestors.pid" = true) :=
  ⟨by decide!, C13_weight_classification sampleResolvers "" "process.ancestors.pid"
    (by decide!)⟩

set_option maxRecDepth 100000 in
theorem open_inode_case :
    switchCase "open.file.inode" GetEvaluatorCases =
      some (EvalCase.IntEvaluator (Expr.attr "Open.File.FileFields.Inode")
        Weight.FunctionWeight) := by
  decide!

set_option maxRecDepth 100000 in
theorem open_mode_case :
    switchCase "open.file.mode" GetEvaluatorCases =
      some (EvalCase.IntEvaluator (Expr.attr "Open.File.FileFields.Mode")
        Weight.FunctionWeight) := by
  decide!

/-- C14: on an event with `Open.File.FileFields.Inode = 42` and `Mode = 0o644` the
evaluator of `open.file.inode` returns 42 and that of `open.file.mode` returns 420, so
`open.file.inode == 42 && open.file.mode == 0o644` is true and `open.file.inode == 7` is
false; both evaluators carry `FunctionWeight`, call no resolver and leave the context as it
is. -/
theorem C14_open_scenario (rs : Resolvers) (regID : RegisterID) (ctx : Context)
    (h1 : ctx.Object.attrs.ints "Open.File.FileFields.Inode" = 42)
    (h2 : ctx.Object.attrs.ints "Open.File.FileFields.Mode" = 420) :
    ∃ evI evM oI oM, GetEvaluator rs "open.file.inode" regID = (some evI, none) ∧
      GetEvaluator rs "open.file.mode" regID = (some evM, none) ∧
      evI.Eval ctx = some oI ∧ evM.Eval ctx = some oM ∧
      oI = ⟨Value.int 42, ctx, []⟩ ∧ oM = ⟨Value.int 420, ctx, []⟩ ∧
      (decide (oI.value = Value.int 42) && decide (oM.value = Value.int 420)) = true ∧
      decide (oI.value = Value.int 7) = false ∧
      evI.Weight = Weight.FunctionWeight ∧ evM.Weight = Weight.FunctionWeight := by
  refine ⟨_, _, ⟨Value.int 42, ctx, []⟩, ⟨Value.int 420, ctx, []⟩,
    GetEvaluator_of_case rs regID open_inode_case,
    GetEvaluator_of_case rs regID open_mode_case, ?_, ?_, rfl, rfl, by simp, by simp,
    rfl, rfl⟩
  · simp [EvalCase.build, Evaluator.Eval, evalInt, Expr.int, h1, toInt]
  · simp [EvalCase.build, Evaluator.Eval, evalInt, Expr.int, h2, toInt]

/-- C14 on the sample `open` event. -/
theorem C14_open_scenario_witness :
    (NewContext openEvent).Object.attrs.ints "Open.File.FileFields.Inode" = 42 ∧
    (NewContext openEvent).Object.attrs.ints "Open.File.FileFields.Mode" = 420 ∧
    ∃ evI evM oI oM, GetEvaluator sampleResolvers "open.file.inode" "" = (some evI, none) ∧
      GetEvaluator sampleResolvers "open.file.mode" "" = (some evM, none) ∧
      evI.Eval (NewContext openEvent) = some oI ∧ evM.Eval (NewContext openEvent) = some oM ∧
      oI = ⟨Value.int 42, NewContext openEvent, []⟩ ∧
      oM = ⟨Value.int 420, NewContext openEvent, []⟩ ∧
      (decide (oI.value = Value.int 42) && decide (oM.value = Value.int 420)) = true ∧
      decide (oI.value = Value.int 7) = false ∧
      evI.Weight = Weight.FunctionWeight ∧ evM.Weight = Weight.FunctionWeight :=
  ⟨by decide, by decide, C14_open_scenario sampleResolvers "" (NewContext openEvent)
    (by decide) (by decide)⟩

/-! ## C15, C16, C17: lineage gaps, scalar idempotence, iterators -/

theorem Event.ancestors_of_none (e : Event) (h : e.Ancestor = none) : e.ancestors = [] := by
  simp [Event.ancestors, h]

theorem value_case_of_eval_case {field : String} {c : EvalCase}
    (hc : switchCase field GetEvaluatorCases = some c) :
    ∃ v, switchCase field GetFieldValueCases = some v ∧ valueForm c v = true :=
  aligned_switchCase evaluator_value_aligned hc

theorem Eval_scalar_pure (rs : Resolvers) (field : String) (c : EvalCase)
    (h : c.variant.isArray = false) :
    ∃ (val : Event → Value) (calls : List Call),
      (∀ ctx, (c.build rs field).Eval ctx = some ⟨val ctx.Object, ctx, calls⟩) ∧
      calls =
        (match c.expr with
          | Expr.attr _ => []
          | Expr.resolve m arg => [Call.Resolve m (Target.event arg)]) := by
  rcases c with ⟨x, w⟩ | ⟨x, w⟩ | ⟨x, w⟩ | ⟨x, w⟩ | ⟨x, w⟩ <;>
    simp only [EvalCase.variant, Variant.isArray, Bool.true_eq_false] at h
  · cases x with
    | attr p => exact ⟨fun e => Value.int (toInt (e.attrs.ints p)), _, fun ctx => rfl, rfl⟩
    | resolve m a =>
      exact ⟨fun e => Value.int (toInt (rs.int m e (Target.event a))), _, fun ctx => rfl, rfl⟩
  · cases x with
    | attr p => exact ⟨fun e => Value.string (e.attrs.strs p), _, fun ctx => rfl, rfl⟩
    | resolve m a =>
      exact ⟨fun e => Value.string (rs.string m e (Target.event a)), _, fun ctx => rfl, rfl⟩
  · cases x with
    | attr p => exact ⟨fun e => Value.bool (e.attrs.bools p), _, fun ctx => rfl, rfl⟩
    | resolve m a =>
      exact ⟨fun e => Value.bool (rs.bool m e (Target.event a)), _, fun ctx => rfl, rfl⟩

set_option maxRecDepth 100000 in
/-- C15, as stated, fails for the evaluator: it looks into the cache of the context before
it looks at the event. On a context for the event without an ancestor whose cache holds
`[1, 2, 3]` under `process.ancestors.pid`, the evaluator of that field returns `[1, 2, 3]`,
not the empty sequence. -/
theorem C15_counterexample :
    "process.ancestors.pid" ∈ GetFields ∧
    ((NewContext orphanEvent).store "process.ancestors.pid"
      (CacheEntry.ints [1, 2, 3])).Object.Ancestor = none ∧
    ∃ ev, GetEvaluator sampleResolvers "process.ancestors.pid" "" = (some ev, none) ∧
      ev.Eval ((NewContext orphanEvent).store "process.ancestors.pid"
          (CacheEntry.ints [1, 2, 3])) =
        some ⟨Value.ints [1, 2, 3],
          (NewContext orphanEvent).store "process.ancestors.pid" (CacheEntry.ints [1, 2, 3]),
          []⟩ ∧
      Value.ints [1, 2, 3] ≠ Value.ints [] := by
  refine ⟨by decide!, rfl, _, GetEvaluator_of_case sampleResolvers "" ancestors_pid_case, ?_,
    by decide⟩
  exact Eval_IntArray_hit sampleResolvers _ _ _ _ [1, 2, 3] (Context.store_Cache_self _ _ _)

/-- C15, amended: for every `process.ancestors.*` field and every event without an
ancestor, `GetFieldValue` returns the empty sequence with a nil error, and the evaluator,
run on a context for the event whose cache has no entry for the field (as a new context
has), returns the empty sequence; both make the one iterator step `Front` and call no
resolver, and a further call of the evaluator under the context the first call left returns
the empty sequence again, without any step. -/
theorem C15_lineage_gap_is_empty (rs : Resolvers) (regID : RegisterID) (field : String)
    (ctx : Context) (hf : field ∈ GetFields)
    (hp : hasPrefix "process.ancestors." field = true) (he : ctx.Object.Ancestor = none)
    (hc : ctx.Cache field = none) :
    ∃ ev out, GetEvaluator rs field regID = (some ev, none) ∧ ev.Eval ctx = some out ∧
      (out.value = Value.ints [] ∨ out.value = Value.strings []) ∧
      out.calls = [Call.Front] ∧
      ev.Eval out.ctx = some ⟨out.value, out.ctx, []⟩ ∧
      GetFieldValue rs ctx.Object field = ⟨(out.value, none), [Call.Front]⟩ := by
  have hanc := Event.ancestors_of_none _ he
  obtain ⟨x, w, hx | hx⟩ := ancestors_case_of_mem hf hp
  · obtain ⟨v, hv, hform⟩ := value_case_of_eval_case hx
    refine ⟨_, _, GetEvaluator_of_case rs regID hx, Eval_IntArray_miss rs _ _ _ ctx hc, ?_, ?_,
      Eval_IntArray_hit rs _ _ _ _ _ (Context.store_Cache_self _ _ _), ?_⟩
    · simp [hanc]
    · simp [hanc, loopCalls]
    · cases v <;> simp only [valueForm, decide_eq_true_eq, Bool.false_eq_true] at hform
      subst hform
      rw [GetFieldValue_of_case rs _ hv]
      simp [ValueCase.run, traverse_eq, NewContext, hanc, loopCalls]
  · obtain ⟨v, hv, hform⟩ := value_case_of_eval_case hx
    refine ⟨_, _, GetEvaluator_of_case rs regID hx, Eval_StringArray_miss rs _ _ _ ctx hc,
      ?_, ?_, Eval_StringArray_hit rs _ _ _ _ _ (Context.store_Cache_self _ _ _), ?_⟩
    · simp [hanc]
    · simp [hanc, loopCalls]
    · cases v <;> simp only [valueForm, decide_eq_true_eq, Bool.false_eq_true] at hform
      subst hform
      rw [GetFieldValue_of_case rs _ hv]
      simp [ValueCase.run, traverse_eq, NewContext, hanc, loopCalls]

set_option maxRecDepth 100000 in
/-- C15, amended, at the field `process.ancestors.user` on a new context for the event
without an ancestor. -/
theorem C15_lineage_gap_is_empty_witness :
    "process.ancestors.user" ∈ GetFields ∧
    hasPrefix "process.ancestors." "process.ancestors.user" = true ∧
    (NewContext orphanEvent).Object.Ancestor = none ∧
    (NewContext orphanEvent).Cache "process.ancestors.user" = none ∧
    ∃ ev out, GetEvaluator sampleResolvers "process.ancestors.user" "" = (some ev, none) ∧
      ev.Eval (NewContext orphanEvent) = some out ∧
      (out.value = Value.ints [] ∨ out.value = Value.strings []) ∧
      out.calls = [Call.Front] ∧
      ev.Eval out.ctx = some ⟨out.value, out.ctx, []⟩ ∧
      GetFieldValue sampleResolvers (NewContext orphanEvent).Object "process.ancestors.user" =
        ⟨(out.value, none), [Call.Front]⟩ :=
  ⟨by decide!, by decide, rfl, rfl,
    C15_lineage_gap_is_empty sampleResolvers "" "process.ancestors.user"
      (NewContext orphanEvent) (by decide!) (by decide) rfl rfl⟩

/-- C16: for every registered scalar field, two successive calls of its evaluator return the
same value, make the same calls and leave the context, and with it the event, as it was; the
value depends on the event of the context only (a resolver being a function of the event and
of the sub-structure it is pointed at); and an evaluator of `FunctionWeight` calls no
resolver. -/
theorem C16_scalar_idempotent (rs : Resolvers) (regID : RegisterID) (field : String)
    (ctx : Context) (hf : field ∈ GetFields)
    (hs : hasPrefix "process.ancestors." field = false) :
    ∃ ev first second, GetEvaluator rs field regID = (some ev, none) ∧
      ev.Eval ctx = some first ∧ ev.Eval first.ctx = some second ∧
      second.value = first.value ∧ second.calls = first.calls ∧
      first.ctx = ctx ∧ second.ctx = ctx ∧
      (∀ ctx', ctx'.Object = ctx.Object →
        ev.Eval ctx' = some ⟨first.value, ctx', first.calls⟩) ∧
      (ev.Weight = Weight.FunctionWeight → first.calls = []) := by
  obtain ⟨c, hc⟩ := GetEvaluator_case_of_mem hf
  obtain ⟨hw, ha⟩ := weight_of_case hc
  rw [hs] at ha hw
  simp only [Bool.false_eq_true, if_false] at hw
  obtain ⟨val, calls, hE, hcalls⟩ := Eval_scalar_pure rs field c ha
  refine ⟨_, ⟨val ctx.Object, ctx, calls⟩, ⟨val ctx.Object, ctx, calls⟩,
    GetEvaluator_of_case rs regID hc, hE ctx, hE ctx, rfl, rfl, rfl, rfl, ?_, ?_⟩
  · intro ctx' h
    rw [hE ctx', h]
  · rw [EvalCase.build_Weight, hw]
    intro hF
    cases hx : c.expr with
    | attr p => simp [hcalls, hx]
    | resolve m arg => simp [hx, Expr.isAttr] at hF

set_option maxRecDepth 100000 in
/-- C16 at the resolver-backed field `open.file.path` on the sample `open` event. -/
theorem C16_scalar_idempotent_witness :
    "open.file.path" ∈ GetFields ∧ hasPrefix "process.ancestors." "open.file.path" = false ∧
    ∃ ev first second, GetEvaluator sampleResolvers "open.file.path" "" = (some ev, none) ∧
      ev.Eval (NewContext openEvent) = some first ∧ ev.Eval first.ctx = some second ∧
      second.value = first.value ∧ second.calls = first.calls ∧
      first.ctx = NewContext openEvent ∧ second.ctx = NewContext openEvent ∧
      (∀ ctx', ctx'.Object = (NewContext openEvent).Object →
        ev.Eval ctx' = some ⟨first.value, ctx', first.calls⟩) ∧
      (ev.Weight = Weight.FunctionWeight → first.calls = []) :=
  ⟨by decide!, by decide,
    C16_scalar_idempotent sampleResolvers "" "open.file.path" (NewContext openEvent)
      (by decide!) (by decide)⟩

/-- C17: `GetIterator` returns an iterator with a nil error exactly for the field
`process.ancestors`: for that name the result is a new `ProcessAncestorsIterator` whose
cursor is not set, so that its `Front` starts at the parent of the event of any context; for
every other name, registered (`process.ancestors.pid`) or not, the result is a nil iterator
with `ErrIteratorNotSupported` carrying the name. -/
theorem C17_get_iterator (field : String) (ctx : Context) :
    ((GetIterator field).2 = none ↔ field = "process.ancestors") ∧
    (field ≠ "process.ancestors" →
      GetIterator field = (none, some (Error.ErrIteratorNotSupported field))) ∧
    GetIterator "process.ancestors" =
      (some (Iterator.ProcessAncestorsIterator ⟨none⟩), none) ∧
    ((⟨none⟩ : ProcessAncestorsIterator).Front ctx).1 = ctx.Object.Ancestor ∧
    GetIterator "process.ancestors.pid" =
      (none, some (Error.ErrIteratorNotSupported "process.ancestors.pid")) ∧
    GetIterator "" = (none, some (Error.ErrIteratorNotSupported "")) := by
  refine ⟨?_, ?_, ?_, ?_, ?_, ?_⟩
  · by_cases h : field = "process.ancestors" <;> simp [GetIterator, h]
  · intro h
    simp [GetIterator, h]
  · simp [GetIterator]
  · unfold ProcessAncestorsIterator.Front
    cases ctx.Object.Ancestor <;> rfl
  · have h : ¬ ("process.ancestors.pid" = "process.ancestors") := by decide
    simp [GetIterator, h]
  · have h : ¬ ("" = "process.ancestors") := by decide
    simp [GetIterator, h]

/-! ## Lemmas on what `SetFieldValue` does to the ancestor chain -/

theorem ProcessCacheEntry.chain_drop_one (s : Struct) (anc : Option ProcessCacheEntry) :
    (ProcessCacheEntry.mk s anc).chain.drop 1 =
      (match anc with
        | none => []
        | some a => a.chain) := by
  cases anc <;> simp [ProcessCacheEntry.chain]

theorem Event.allocAncestor_older (e : Event) :
    e.allocAncestor.ancestors.drop 1 = e.ancestors.drop 1 ∧
      e.allocAncestor.attrs = e.attrs ∧
      (∀ a, e.Ancestor = some a → e.allocAncestor = e) := by
  rcases e with ⟨attrs, _ | a⟩
  · refine ⟨?_, rfl, ?_⟩
    · simp [Event.allocAncestor, Event.ancestors, ProcessCacheEntry.chain]
    · intro a h
      simp at h
  · exact ⟨rfl, rfl, fun _ _ => rfl⟩

theorem Event.assign_older (e e' : Event) (f : String → Struct → Struct) (loc : Loc)
    (h : e.assign f loc = some e') :
    e'.ancestors.drop 1 = e.ancestors.drop 1 ∧
      (∀ a, e.Ancestor = some a → ∃ attrs, e'.Ancestor = some (.mk attrs a.Ancestor)) ∧
      (loc.isAncestor = false → e'.Ancestor = e.Ancestor) := by
  rcases e with ⟨attrs, anc⟩
  cases loc with
  | event p =>
    simp only [Event.assign, Option.some.injEq] at h
    subst h
    refine ⟨rfl, ?_, fun _ => rfl⟩
    intro a ha
    rcases a with ⟨s, older⟩
    exact ⟨s, ha⟩
  | ancestor p =>
    rcases anc with _ | ⟨s, older⟩
    · simp [Event.assign] at h
    · simp only [Event.assign, Option.some.injEq] at h
      subst h
      refine ⟨?_, ?_, fun hl => by simp [Loc.isAncestor] at hl⟩
      · simp only [Event.ancestors, ProcessCacheEntry.chain_drop_one]
      · intro a ha
        simp only [Option.some.injEq] at ha
        subst ha
        exact ⟨_, rfl⟩

theorem SetCase.run_unfold (c : SetCase) (e : Event) (value : Value) (e' : Event)
    (err : Option Error) (h : c.run e value = some (e', err)) :
    e' = (if c.guard then e.allocAncestor else e) ∨
      ∃ f, (if c.guard then e.allocAncestor else e).assign f c.target = some e' := by
  rcases c with ⟨g, m, t, cv⟩ | ⟨g, m, t⟩ | ⟨g, m, t⟩ <;> cases value <;>
    simp only [SetCase.run, SetCase.guard, SetCase.target, Option.map_eq_some',
      Option.some.injEq, Prod.mk.injEq] at h ⊢ <;>
    first
      | exact Or.inl h.1.symm
      | (obtain ⟨e1, h1, h2, -⟩ := h
         subst h2
         exact Or.inr ⟨_, h1⟩)

theorem SetCase.run_older (c : SetCase) (e : Event) (value : Value) (e' : Event)
    (err : Option Error) (h : c.run e value = some (e', err)) :
    e'.ancestors.drop 1 = e.ancestors.drop 1 ∧
      (∀ a, e.Ancestor = some a → ∃ attrs, e'.Ancestor = some (.mk attrs a.Ancestor)) ∧
      (c.guard = false → c.target.isAncestor = false → e'.Ancestor = e.Ancestor) := by
  obtain ⟨hd, -, hsame⟩ := e.allocAncestor_older
  have hbase : (if c.guard then e.allocAncestor else e).ancestors.drop 1 = e.ancestors.drop 1 ∧
      (∀ a, e.Ancestor = some a → (if c.guard then e.allocAncestor else e) = e) := by
    cases c.guard
    · exact ⟨rfl, fun _ _ => rfl⟩
    · exact ⟨hd, hsame⟩
  rcases SetCase.run_unfold c e value e' err h with h0 | ⟨f, hf⟩
  · subst h0
    refine ⟨hbase.1, ?_, ?_⟩
    · intro a ha
      rw [hbase.2 a ha]
      rcases a with ⟨s, older⟩
      exact ⟨s, ha⟩
    · intro hg _
      simp [hg]
  · obtain ⟨h1, h2, h3⟩ := Event.assign_older _ _ f c.target hf
    refine ⟨h1.trans hbase.1, ?_, ?_⟩
    · intro a ha
      rw [hbase.2 a ha] at h2
      exact h2 a ha
    · intro hg ht
      rw [h3 ht]
      simp [hg]

theorem Eval_Object (rs : Resolvers) (field : String) (c : EvalCase) (ctx : Context)
    (out : Outcome Value) (h : (c.build rs field).Eval ctx = some out) :
    out.ctx.Object = ctx.Object := by
  rcases c with ⟨x, w⟩ | ⟨x, w⟩ | ⟨x, w⟩ | ⟨x, w⟩ | ⟨x, w⟩
  · simp only [EvalCase.build, Evaluator.Eval, Option.some.injEq] at h
    subst h
    rfl
  · simp only [EvalCase.build, Evaluator.Eval, Option.some.injEq] at h
    subst h
    rfl
  · simp only [EvalCase.build, Evaluator.Eval, Option.some.injEq] at h
    subst h
    rfl
  · simp only [EvalCase.build, Evaluator.Eval, evalIntArray] at h
    rcases hc : ctx.Cache field with _ | (vs | vs) <;> simp [hc] at h <;> subst h <;> rfl
  · simp only [EvalCase.build, Evaluator.Eval, evalStringArray] at h
    rcases hc : ctx.Cache field with _ | (vs | vs) <;> simp [hc] at h <;> subst h <;> rfl

set_option maxRecDepth 100000 in
theorem ancestors_pid_set_case :
    switchCase "process.ancestors.pid" SetFieldValueCases =
      some (SetCase.int true "ProcessContext.Ancestor.ProcessContext.Pid"
        (Loc.ancestor "ProcessContext.Pid") Conv.uint32) := by
  decide!

/-! ## C18: which entries the registry operations change -/

/-- C18, as stated, fails for `SetFieldValue` on a `process.ancestors.*` field: on the
sample event, whose ancestors have the pids 200 and 300, setting `process.ancestors.pid` to
5 returns nil and changes the pid of the entry that was the nearest ancestor before the
call. -/
theorem C18_counterexample :
    (sampleEvent.ancestors.map fun a => a.attrs.ints "ProcessContext.Pid") = [200, 300] ∧
    ∃ e', SetFieldValue sampleEvent "process.ancestors.pid" (Value.int 5) = some (e', none) ∧
      (e'.ancestors.map fun a => a.attrs.ints "ProcessContext.Pid") = [5, 300] := by
  refine ⟨?_, ⟨sampleEvent.attrs, some (.mk ((Struct.zero.setInt "ProcessContext.Pid"
    200).setInt "ProcessContext.Pid" (Conv.uint32.apply 5)) (some (sampleEntry 300 none)))⟩,
    ?_, ?_⟩
  · rw [sampleEvent_ancestors]
    simp [sampleEntry, ProcessCacheEntry.attrs, Struct.setInt]
  · rw [SetFieldValue_of_case _ _ ancestors_pid_set_case]
    rfl
  · simp [Event.ancestors, sampleEntry, ProcessCacheEntry.chain, ProcessCacheEntry.attrs,
      Struct.setInt, Conv.apply]

theorem loopCalls_only_Next {α : Type} (body : ProcessCacheEntry → Traced α)
    (hb : ∀ a, (body a).calls = []) :
    ∀ l : List ProcessCacheEntry, ∀ c ∈ loopCalls body l, c = Call.Next
  | [], c, hc => by simp [loopCalls] at hc
  | a :: rest, c, hc => by
    simp only [loopCalls, hb, List.nil_append, List.singleton_append, List.mem_cons] at hc
    rcases hc with h | h
    · exact h
    · exact loopCalls_only_Next body hb rest c h

theorem direct_value_calls (rs : Resolvers) (e : Event) (field : String)
    (hd : directlyRead field = true ∨ directlyReadAncestors field = true) :
    ∀ c ∈ (GetFieldValue rs e field).calls, c = Call.Front ∨ c = Call.Next := by
  intro c hc
  rcases hd with hd | hd
  · obtain ⟨p, hv | hv | hv⟩ := directlyRead_case hd <;>
      rw [GetFieldValue_of_case rs e hv] at hc <;>
      simp [ValueCase.run, Expr.int, Expr.string, Expr.bool] at hc
  · unfold directlyReadAncestors at hd
    split at hd
    · next p hv =>
      rw [GetFieldValue_of_case rs e hv] at hc
      simp only [ValueCase.run, traverse_eq, List.mem_cons] at hc
      rcases hc with h | h
      · exact Or.inl h
      · exact Or.inr (loopCalls_only_Next _ (fun _ => rfl) _ c h)
    · next p hv =>
      rw [GetFieldValue_of_case rs e hv] at hc
      simp only [ValueCase.run, traverse_eq, List.mem_cons] at hc
      rcases hc with h | h
      · exact Or.inl h
      · exact Or.inr (loopCalls_only_Next _ (fun _ => rfl) _ c h)
    · exact absurd hd (by simp)

theorem direct_eval_case {field : String}
    (hd : directlyRead field = true ∨ directlyReadAncestors field = true) :
    ∃ p w, switchCase field GetEvaluatorCases = some (EvalCase.IntEvaluator (Expr.attr p) w) ∨
      switchCase field GetEvaluatorCases = some (EvalCase.StringEvaluator (Expr.attr p) w) ∨
      switchCase field GetEvaluatorCases = some (EvalCase.BoolEvaluator (Expr.attr p) w) ∨
      switchCase field GetEvaluatorCases =
        some (EvalCase.IntArrayEvaluator (Expr.attr p) w) ∨
      switchCase field GetEvaluatorCases =
        some (EvalCase.StringArrayEvaluator (Expr.attr p) w) := by
  have hv : ∃ p, switchCase field GetFieldValueCases = some (ValueCase.int (Expr.attr p)) ∨
      switchCase field GetFieldValueCases = some (ValueCase.string (Expr.attr p)) ∨
      switchCase field GetFieldValueCases = some (ValueCase.bool (Expr.attr p)) ∨
      switchCase field GetFieldValueCases = some (ValueCase.ints (Expr.attr p)) ∨
      switchCase field GetFieldValueCases = some (ValueCase.strings (Expr.attr p)) := by
    rcases hd with hd | hd
    · obtain ⟨p, h | h | h⟩ := directlyRead_case hd
      · exact ⟨p, Or.inl h⟩
      · exact ⟨p, Or.inr (Or.inl h)⟩
      · exact ⟨p, Or.inr (Or.inr (Or.inl h))⟩
    · unfold directlyReadAncestors at hd
      split at hd
      · next p h => exact ⟨p, Or.inr (Or.inr (Or.inr (Or.inl h)))⟩
      · next p h => exact ⟨p, Or.inr (Or.inr (Or.inr (Or.inr h)))⟩
      · exact absurd hd (by simp)
  obtain ⟨p, hv⟩ := hv
  have hmem : field ∈ GetFields := by
    rw [← GetFieldValueCases_labels]
    rcases hv with h | h | h | h | h <;>
      exact List.mem_map.2 ⟨_, switchCase_mem h, rfl⟩
  obtain ⟨c, hc⟩ := GetEvaluator_case_of_mem hmem
  obtain ⟨v, hv2, hform⟩ := value_case_of_eval_case hc
  rcases hv with h | h | h | h | h <;>
    rw [h, Option.some.injEq] at hv2 <;> subst hv2 <;>
    rcases c with ⟨x, w⟩ | ⟨x, w⟩ | ⟨x, w⟩ | ⟨x, w⟩ | ⟨x, w⟩ <;>
    simp only [valueForm, decide_eq_true_eq, Bool.false_eq_true] at hform <;>
    subst hform
  · exact ⟨p, w, Or.inl hc⟩
  · exact ⟨p, w, Or.inr (Or.inl hc)⟩
  · exact ⟨p, w, Or.inr (Or.inr (Or.inl hc))⟩
  · exact ⟨p, w, Or.inr (Or.inr (Or.inr (Or.inl hc)))⟩
  · exact ⟨p, w, Or.inr (Or.inr (Or.inr (Or.inr hc)))⟩

theorem direct_eval_calls (rs : Resolvers) (regID : RegisterID) (field : String)
    (hd : directlyRead field = true ∨ directlyReadAncestors field = true) :
    ∃ ev, GetEvaluator rs field regID = (some ev, none) ∧
      ∀ ctx out, ev.Eval ctx = some out →
        ∀ c ∈ out.calls, c = Call.Front ∨ c = Call.Next := by
  obtain ⟨p, w, hc | hc | hc | hc | hc⟩ := direct_eval_case hd <;>
    refine ⟨_, GetEvaluator_of_case rs regID hc, fun ctx out hout c hmem => ?_⟩
  · simp only [EvalCase.build, Evaluator.Eval, Option.some.injEq] at hout
    subst hout
    simp [evalInt, Expr.int] at hmem
  · simp only [EvalCase.build, Evaluator.Eval, Option.some.injEq] at hout
    subst hout
    simp [evalString, Expr.string] at hmem
  · simp only [EvalCase.build, Evaluator.Eval, Option.some.injEq] at hout
    subst hout
    simp [evalBool, Expr.bool] at hmem
  · rcases hcache : ctx.Cache field with _ | (vs | vs)
    · rw [Eval_IntArray_miss rs field _ w ctx hcache, Option.some.injEq] at hout
      subst hout
      simp only [List.mem_cons] at hmem
      rcases hmem with h | h
      · exact Or.inl h
      · exact Or.inr (loopCalls_only_Next _ (fun _ => rfl) _ c h)
    · rw [Eval_IntArray_hit rs field _ w ctx vs hcache, Option.some.injEq] at hout
      subst hout
      simp at hmem
    · simp [EvalCase.build, Evaluator.Eval, evalIntArray, hcache] at hout
  · rcases hcache : ctx.Cache field with _ | (vs | vs)
    · rw [Eval_StringArray_miss rs field _ w ctx hcache, Option.some.injEq] at hout
      subst hout
      simp only [List.mem_cons] at hmem
      rcases hmem with h | h
      · exact Or.inl h
      · exact Or.inr (loopCalls_only_Next _ (fun _ => rfl) _ c h)
    · simp [EvalCase.build, Evaluator.Eval, evalStringArray, hcache] at hout
    · rw [Eval_StringArray_hit rs field _ w ctx vs hcache, Option.some.injEq] at hout
      subst hout
      simp at hmem

/-- C18, amended: `SetFieldValue` on a field outside `process.ancestors.*` leaves the
ancestor chain unchanged; `SetFieldValue` on a `process.ancestors.*` field changes at most
the attributes of the nearest ancestor entry: that entry keeps its `Ancestor` link, and
every older entry is unchanged. `GetFieldValue` and the evaluator of a field that is read
directly call no resolver: their only calls are the iterator steps `Front` and `Next` (of a
`process.ancestors.*` field). -/
theorem C18_only_nearest_entry_changes (rs : Resolvers) (regID : RegisterID) (e e' : Event)
    (field : String) (value : Value) (err : Option Error)
    (h : SetFieldValue e field value = some (e', err)) :
    e'.ancestors.drop 1 = e.ancestors.drop 1 ∧
    (∀ a, e.Ancestor = some a → ∃ attrs, e'.Ancestor = some (.mk attrs a.Ancestor)) ∧
    (hasPrefix "process.ancestors." field = false → e'.Ancestor = e.Ancestor) ∧
    (∀ g, directlyRead g = true ∨ directlyReadAncestors g = true →
      (∀ e0, ∀ c ∈ (GetFieldValue rs e0 g).calls, c = Call.Front ∨ c = Call.Next) ∧
      ∃ ev, GetEvaluator rs g regID = (some ev, none) ∧
        ∀ ctx out, ev.Eval ctx = some out →
          ∀ c ∈ out.calls, c = Call.Front ∨ c = Call.Next) := by
  have hev : ∀ g, directlyRead g = true ∨ directlyReadAncestors g = true →
      (∀ e0, ∀ c ∈ (GetFieldValue rs e0 g).calls, c = Call.Front ∨ c = Call.Next) ∧
      ∃ ev, GetEvaluator rs g regID = (some ev, none) ∧
        ∀ ctx out, ev.Eval ctx = some out →
          ∀ c ∈ out.calls, c = Call.Front ∨ c = Call.Next :=
    fun g hd => ⟨fun e0 => direct_value_calls rs e0 g hd, direct_eval_calls rs regID g hd⟩
  cases hc : switchCase field SetFieldValueCases with
  | none =>
    simp only [SetFieldValue, hc, Option.some.injEq, Prod.mk.injEq] at h
    obtain ⟨rfl, -⟩ := h
    refine ⟨rfl, ?_, fun _ => rfl, hev⟩
    intro a ha
    rcases a with ⟨s, older⟩
    exact ⟨s, ha⟩
  | some c =>
    rw [SetFieldValue_of_case _ _ hc] at h
    obtain ⟨h1, h2, h3⟩ := SetCase.run_older c e value e' err h
    have hrow := List.all_eq_true.1 set_guard_rows _ (switchCase_mem hc)
    simp only [Bool.and_eq_true, decide_eq_true_eq] at hrow
    refine ⟨h1, h2, ?_, hev⟩
    intro hp
    rw [hp] at hrow
    exact h3 hrow.1 (hrow.2.trans hrow.1)

set_option maxRecDepth 100000 in
/-- C18, amended, at the field `process.ancestors.pid` on the sample event: the entry with
pid 300 is unchanged, and reading the field, which is read directly, makes the iterator
steps `Front`, `Next`, `Next` only. -/
theorem C18_only_nearest_entry_changes_witness :
    SetFieldValue sampleEvent "process.ancestors.pid" (Value.int 5) =
      some (⟨sampleEvent.attrs, some (.mk ((Struct.zero.setInt "ProcessContext.Pid" 200).setInt
        "ProcessContext.Pid" (Conv.uint32.apply 5)) (some (sampleEntry 300 none)))⟩, none) ∧
    (⟨sampleEvent.attrs, some (.mk ((Struct.zero.setInt "ProcessContext.Pid" 200).setInt
        "ProcessContext.Pid" (Conv.uint32.apply 5)) (some (sampleEntry 300 none)))⟩ :
          Event).ancestors.drop 1 = sampleEvent.ancestors.drop 1 ∧
    directlyReadAncestors "process.ancestors.pid" = true ∧
    (GetFieldValue sampleResolvers sampleEvent "process.ancestors.pid").calls =
      [Call.Front, Call.Next, Call.Next] ∧
    ∀ c ∈ (GetFieldValue sampleResolvers sampleEvent "process.ancestors.pid").calls,
      c = Call.Front ∨ c = Call.Next := by
  have hs : SetFieldValue sampleEvent "process.ancestors.pid" (Value.int 5) =
      some (⟨sampleEvent.attrs, some (.mk ((Struct.zero.setInt "ProcessContext.Pid" 200).setInt
        "ProcessContext.Pid" (Conv.uint32.apply 5)) (some (sampleEntry 300 none)))⟩, none) := by
    rw [SetFieldValue_of_case _ _ ancestors_pid_set_case]
    rfl
  have hd : directlyReadAncestors "process.ancestors.pid" = true := by decide!
  have hcalls : (GetFieldValue sampleResolvers sampleEvent "process.ancestors.pid").calls =
      [Call.Front, Call.Next, Call.Next] := by
    have hv : switchCase "process.ancestors.pid" GetFieldValueCases =
        some (ValueCase.ints (Expr.attr "ProcessContext.Pid")) := by
      decide!
    rw [GetFieldValue_of_case _ _ hv]
    simp only [ValueCase.run, traverse_eq, NewContext, sampleEvent_ancestors]
    rfl
  have hall := C18_only_nearest_entry_changes sampleResolvers "" sampleEvent _
    "process.ancestors.pid" (Value.int 5) none hs
  exact ⟨hs, hall.1, hd, hcalls, (hall.2.2.2 "process.ancestors.pid" (Or.inr hd)).1 sampleEvent⟩

/-! ## C19: weighted short-circuit -/

theorem evalAnd_cheap_first (a b : Condition) (ctx : Context)
    (h : a.operand.Weight.rank < b.operand.Weight.rank) :
    evalAnd a b ctx = evalAnd b a ctx ∧
      evalAnd a b ctx =
        (match a.eval ctx with
          | none => none
          | some o1 =>
            if o1.value = false then some o1
            else
              match b.eval o1.ctx with
              | none => none
              | some o2 => some ⟨o2.value, o2.ctx, o1.calls ++ o2.calls⟩) := by
  have h1 : ¬ b.operand.Weight.rank < a.operand.Weight.rank := by omega
  simp only [evalAnd, h, h1, if_true, if_false, and_self]

/-- C19: in a conjunction of two conditions on registered fields whose evaluators have
different weights, the operand of lower weight is evaluated first, in whichever order the
operands are written; if it is false, the result is its own outcome, so the evaluator of
higher weight is not run and the only calls are those of the cheap evaluator (none at all
for one of `FunctionWeight`); if it is true, the calls of the costly evaluator follow those
of the cheap one. The weights are ordered
`FunctionWeight < HandlerWeight < IteratorWeight`. -/
theorem C19_weighted_short_circuit (rs : Resolvers) (regID : RegisterID)
    (cheap costly : String) (tc te : Value → Bool) (ctx : Context)
    (hc : cheap ∈ GetFields) (he : costly ∈ GetFields) :
    ∃ evC evE, GetEvaluator rs cheap regID = (some evC, none) ∧
      GetEvaluator rs costly regID = (some evE, none) ∧
      (evC.Weight.rank < evE.Weight.rank →
        ∀ oc, (Condition.mk evC tc).eval ctx = some oc →
          (oc.value = false →
            evalAnd ⟨evC, tc⟩ ⟨evE, te⟩ ctx = some oc ∧
            evalAnd ⟨evE, te⟩ ⟨evC, tc⟩ ctx = some oc ∧
            (evC.Weight = Weight.FunctionWeight → oc.calls = [])) ∧
          (oc.value = true → ∀ oe, (Condition.mk evE te).eval oc.ctx = some oe →
            evalAnd ⟨evC, tc⟩ ⟨evE, te⟩ ctx = some ⟨oe.value, oe.ctx, oc.calls ++ oe.calls⟩ ∧
            evalAnd ⟨evE, te⟩ ⟨evC, tc⟩ ctx =
              some ⟨oe.value, oe.ctx, oc.calls ++ oe.calls⟩)) ∧
      Weight.FunctionWeight.rank < Weight.HandlerWeight.rank ∧
      Weight.HandlerWeight.rank < Weight.IteratorWeight.rank := by
  obtain ⟨c, hcc⟩ := GetEvaluator_case_of_mem hc
  obtain ⟨d, hdc⟩ := GetEvaluator_case_of_mem he
  refine ⟨_, _, GetEvaluator_of_case rs regID hcc, GetEvaluator_of_case rs regID hdc, ?_,
    by decide, by decide⟩
  intro hlt oc hoc
  obtain ⟨hswap, hand⟩ := evalAnd_cheap_first ⟨c.build rs cheap, tc⟩ ⟨d.build rs costly, te⟩
    ctx hlt
  refine ⟨fun hfalse => ?_, fun htrue oe hoe => ?_⟩
  · have h1 : evalAnd ⟨c.build rs cheap, tc⟩ ⟨d.build rs costly, te⟩ ctx = some oc := by
      rw [hand, hoc]
      simp [hfalse]
    refine ⟨h1, hswap ▸ h1, ?_⟩
    rw [EvalCase.build_Weight]
    intro hF
    obtain ⟨hw, ha⟩ := weight_of_case hcc
    rw [hF] at hw
    cases hp : hasPrefix "process.ancestors." cheap
    · rw [hp] at hw ha
      simp only [Bool.false_eq_true, if_false] at hw
      obtain ⟨val, calls, hE, hcalls⟩ := Eval_scalar_pure rs cheap c ha
      simp only [Condition.eval, hE ctx, Option.map_some', Option.some.injEq] at hoc
      subst hoc
      cases hx : c.expr with
      | attr p => simp [hcalls, hx]
      | resolve m arg => simp [hx, Expr.isAttr] at hw
    · rw [hp] at hw
      simp at hw
  · have h1 : evalAnd ⟨c.build rs cheap, tc⟩ ⟨d.build rs costly, te⟩ ctx =
        some ⟨oe.value, oe.ctx, oc.calls ++ oe.calls⟩ := by
      rw [hand, hoc]
      simp [htrue, hoe]
    exact ⟨h1, hswap ▸ h1⟩

set_option maxRecDepth 100000 in
/-- C19 for `open.file.inode == 7 && open.file.path == "/etc/passwd"` on the sample `open`
event, whose inode is 42. -/
theorem C19_weighted_short_circuit_witness :
    "open.file.inode" ∈ GetFields ∧ "open.file.path" ∈ GetFields ∧
    ∃ evC evE, GetEvaluator sampleResolvers "open.file.inode" "" = (some evC, none) ∧
      GetEvaluator sampleResolvers "open.file.path" "" = (some evE, none) ∧
      (evC.Weight.rank < evE.Weight.rank →
        ∀ oc, (Condition.mk evC (fun v => decide (v = Value.int 7))).eval
            (NewContext openEvent) = some oc →
          (oc.value = false →
            evalAnd ⟨evC, fun v => decide (v = Value.int 7)⟩
              ⟨evE, fun v => decide (v = Value.string "/etc/passwd")⟩
              (NewContext openEvent) = some oc ∧
            evalAnd ⟨evE, fun v => decide (v = Value.string "/etc/passwd")⟩
              ⟨evC, fun v => decide (v = Value.int 7)⟩ (NewContext openEvent) = some oc ∧
            (evC.Weight = Weight.FunctionWeight → oc.calls = [])) ∧
          (oc.value = true → ∀ oe,
            (Condition.mk evE (fun v => decide (v = Value.string "/etc/passwd"))).eval
              oc.ctx = some oe →
            evalAnd ⟨evC, fun v => decide (v = Value.int 7)⟩
              ⟨evE, fun v => decide (v = Value.string "/etc/passwd")⟩
              (NewContext openEvent) = some ⟨oe.value, oe.ctx, oc.calls ++ oe.calls⟩ ∧
            evalAnd ⟨evE, fun v => decide (v = Value.string "/etc/passwd")⟩
              ⟨evC, fun v => decide (v = Value.int 7)⟩ (NewContext openEvent) =
              some ⟨oe.value, oe.ctx, oc.calls ++ oe.calls⟩)) ∧
      Weight.FunctionWeight.rank < Weight.HandlerWeight.rank ∧
      Weight.HandlerWeight.rank < Weight.IteratorWeight.rank :=
  ⟨by decide!, by decide!,
    C19_weighted_short_circuit sampleResolvers "" "open.file.inode" "open.file.path"
      (fun v => decide (v = Value.int 7)) (fun v => decide (v = Value.string "/etc/passwd"))
      (NewContext openEvent) (by decide!) (by decide!)⟩

/-! ## C20: the enumeration of the field names -/

theorem lexLess_lex : ∀ (a b : List Char), lexLess a b = true → List.Lex (· < ·) a b
  | [], [], h => by simp [lexLess] at h
  | [], _ :: _, _ => List.Lex.nil
  | _ :: _, [], h => by simp [lexLess] at h
  | a :: as, b :: bs, h => by
    simp only [lexLess, Bool.or_eq_true, Bool.and_eq_true, decide_eq_true_eq] at h
    rcases h with h | ⟨h1, h2⟩
    · exact List.Lex.rel h
    · have e : a = b := Char.ext (UInt32.ext h1)
      subst e
      exact List.Lex.cons (lexLess_lex as bs h2)

theorem byteLess_lt {a b : String} (h : byteLess a b = true) : a < b :=
  String.lt_iff_toList_lt.2 (lexLess_lex _ _ h)

theorem chain_of_increasing : ∀ (l : List String), strictlyIncreasing l = true →
    List.Chain' (fun a b => byteLess a b = true) l
  | [], _ => List.chain'_nil
  | [a], _ => List.chain'_singleton a
  | a :: b :: rest, h => by
    simp only [strictlyIncreasing, Bool.and_eq_true] at h
    exact List.chain'_cons.2 ⟨h.1, chain_of_increasing (b :: rest) h.2⟩

theorem nodup_of_increasing (l : List String) (h : strictlyIncreasing l = true) : l.Nodup := by
  have h1 : List.Chain' (fun a b : String => a < b) l :=
    (chain_of_increasing l h).imp (fun _ _ hab => byteLess_lt hab)
  exact ((List.chain'_iff_pairwise).1 h1).imp (fun hab => ne_of_lt hab)

/-- C20: `GetFields` returns one fixed sequence of 290 names; each name is less, in
lexicographic byte order, than the name after it (the names are ASCII, so the code of a
character is its byte), and so no name occurs twice. -/
theorem C20_fields_strictly_increasing :
    GetFields.length = 290 ∧
    List.Chain' (fun a b => byteLess a b = true) GetFields ∧
    GetFields.Nodup ∧
    GetFields.all (fun f => f.data.all (fun c => decide (c.toNat < 128))) = true :=
  ⟨GetFields_length, chain_of_increasing _ GetFields_increasing,
    nodup_of_increasing _ GetFields_increasing, GetFields_ascii⟩

/-! ## Facts on the backing attributes -/

set_option maxRecDepth 1000000 in
theorem path_codes_distinct :
    forced distinctNats (SetFieldValueCases.map fun row => pathCode row.2.target.path) [] =
      true := by
  decide!

set_option maxRecDepth 100000 in
theorem bool_set_rows :
    SetFieldValueCases.all (fun row =>
      decide (row.2.kind = Kind.Bool →
        row.2.guard = false ∧ row.2.target = Loc.event row.2.mismatch)) = true := by
  decide!

theorem forced_eq (k : List Nat → Bool) :
    ∀ (l acc : List Nat), forced k l acc = k (l.reverse ++ acc)
  | [], acc => rfl
  | n :: rest, acc => by
    cases n with
    | zero => simp [forced, forced_eq k rest]
    | succ m => simp [forced, forced_eq k rest]

theorem absent_iff (n : Nat) (l : List Nat) : absent n l = true ↔ n ∉ l := by
  induction l with
  | nil => simp [absent]
  | cons m rest ih =>
    by_cases h : n = m
    · subst h
      simp [absent]
    · have hb : Nat.beq n m = false := by
        cases hb : Nat.beq n m with
        | false => rfl
        | true => exact absurd (Nat.eq_of_beq_eq_true hb) h
      simp [absent, hb, ih, h]

theorem nodup_of_distinctNats (l : List Nat) (h : distinctNats l = true) : l.Nodup := by
  induction l with
  | nil => exact List.nodup_nil
  | cons n rest ih =>
    cases ha : absent n rest with
    | false => simp [distinctNats, ha] at h
    | true =>
      simp only [distinctNats, ha, cond_true] at h
      exact List.nodup_cons.2 ⟨(absent_iff n rest).1 ha, ih h⟩

theorem set_paths_nodup : (SetFieldValueCases.map fun row => row.2.target.path).Nodup := by
  have h := path_codes_distinct
  rw [forced_eq, List.append_nil] at h
  have h1 := List.nodup_reverse.1 (nodup_of_distinctNats _ h)
  have h2 : (SetFieldValueCases.map fun row => pathCode row.2.target.path) =
      (SetFieldValueCases.map fun row => row.2.target.path).map pathCode := by
    rw [List.map_map]
    rfl
  rw [h2] at h1
  exact List.Nodup.of_map _ h1

theorem set_case_unique {f g : String} {c d : SetCase}
    (hc : switchCase f SetFieldValueCases = some c)
    (hd : switchCase g SetFieldValueCases = some d) (h : c.target.path = d.target.path) :
    f = g := by
  have := List.inj_on_of_nodup_map set_paths_nodup (switchCase_mem hc) (switchCase_mem hd) h
  exact (Prod.mk.inj this).1

/-! ## C21: `CheckSocketAvailable` -/

/-- C21: `CheckSocketAvailable` returns false exactly when the path cannot be stat'ed, or
its mode has no socket bit, or dialling it fails with an error that is a permission error;
so for a socket file it returns true when the dial succeeds and when the dial fails with any
other error (connection refused, timeout, ...). -/
theorem C21_socket_available (sys : SysCalls) (path : String) (timeout : Int) :
    (CheckSocketAvailable sys path timeout = false ↔
      ((∃ err, sys.Stat path = .error err) ∨
        (∃ f, sys.Stat path = .ok f ∧ f.Mode &&& ModeSocket = 0) ∨
        (∃ err, sys.DialTimeout "unix" path timeout = some err ∧ err.isPermission = true))) ∧
    (∀ f, sys.Stat path = .ok f → f.Mode &&& ModeSocket ≠ 0 →
      (sys.DialTimeout "unix" path timeout = none → CheckSocketAvailable sys path timeout = true) ∧
      (∀ err, sys.DialTimeout "unix" path timeout = some err → err.isPermission = false →
        CheckSocketAvailable sys path timeout = true)) := by
  refine ⟨?_, ?_⟩
  · cases hs : sys.Stat path with
    | error err => simp [CheckSocketAvailable, checkSocketExists, hs]
    | ok f =>
      by_cases hm : f.Mode &&& ModeSocket = 0
      · simp [CheckSocketAvailable, checkSocketExists, hs, hm]
      · cases hd : sys.DialTimeout "unix" path timeout with
        | none => simp [CheckSocketAvailable, checkSocketExists, hs, hm, hd]
        | some err =>
          cases hp : err.isPermission <;>
            simp [CheckSocketAvailable, checkSocketExists, hs, hm, hd, hp]
  · intro f hs hm
    refine ⟨fun hd => ?_, fun err hd hp => ?_⟩
    · simp [CheckSocketAvailable, checkSocketExists, hs, hm, hd]
    · simp [CheckSocketAvailable, checkSocketExists, hs, hm, hd, hp]

/-! ## C22: `SendEventPlatformEvent` -/

/-- C22: `SendEventPlatformEvent` does not block. Without a pipeline for the event type it
returns the error `unknown event type: <eventType>` and the forwarder is unchanged; with a
pipeline whose input channel has free capacity it returns nil, the message becomes the
newest element of that channel, and every other pipeline is unchanged; with a pipeline whose
channel is full it returns an error and the forwarder, the queue included, is unchanged. -/
theorem C22_send_is_non_blocking (s : DefaultEventPlatformForwarder) (e : Message)
    (eventType : String) :
    (s.pipelines eventType = none →
      SendEventPlatformEvent s e eventType =
        (s, some ("unknown event type: " ++ eventType))) ∧
    (∀ p, s.pipelines eventType = some p →
      ((s.heap p).input.queue.length < (s.heap p).input.cap →
        (SendEventPlatformEvent s e eventType).2 = none ∧
        ((SendEventPlatformEvent s e eventType).1.heap p).input.queue =
          (s.heap p).input.queue ++ [e] ∧
        ((SendEventPlatformEvent s e eventType).1.heap p).input.cap = (s.heap p).input.cap ∧
        (SendEventPlatformEvent s e eventType).1.pipelines = s.pipelines ∧
        (∀ q, q ≠ p → (SendEventPlatformEvent s e eventType).1.heap q = s.heap q)) ∧
      (¬ (s.heap p).input.queue.length < (s.heap p).input.cap →
        SendEventPlatformEvent s e eventType =
          (s, some ("pipeline channel for eventType " ++ eventType ++ " is full")))) := by
  refine ⟨fun h => by simp [SendEventPlatformEvent, h], fun p hp => ⟨fun hroom => ?_, fun hfull => ?_⟩⟩
  · refine ⟨?_, ?_, ?_, ?_, ?_⟩
    · simp [SendEventPlatformEvent, hp, hroom]
    · simp [SendEventPlatformEvent, hp, hroom]
    · simp [SendEventPlatformEvent, hp, hroom]
    · simp [SendEventPlatformEvent, hp, hroom]
    · intro q hq
      simp [SendEventPlatformEvent, hp, hroom, hq]
  · simp [SendEventPlatformEvent, hp, hfull]

theorem socket_example :
    CheckSocketAvailable sampleSysCalls "/run/agent.sock" 1 = true ∧
      CheckSocketAvailable sampleSysCalls "/run/none.sock" 1 = false := by
  constructor <;> decide

theorem forwarder_example :
    ((SendEventPlatformEvent sampleForwarder 8 "dbm-sample").1.heap 0).input.queue = [7, 8] ∧
      (SendEventPlatformEvent sampleForwarder 8 "dbm-sample").2 = none ∧
      (SendEventPlatformEvent (SendEventPlatformEvent sampleForwarder 8 "dbm-sample").1 9
        "dbm-sample").2 = some "pipeline channel for eventType dbm-sample is full" ∧
      (SendEventPlatformEvent sampleForwarder 8 "dbm-metrics").2 =
        some "unknown event type: dbm-metrics" := by
  refine ⟨by decide, by decide, by decide, by decide⟩

/-! ## C23: setting and reading `process.ancestors.pid` -/

set_option maxRecDepth 100000 in
theorem ancestors_pid_value_case :
    switchCase "process.ancestors.pid" GetFieldValueCases =
      some (ValueCase.ints (Expr.attr "ProcessContext.Pid")) := by
  decide!

set_option maxRecDepth 100000 in
theorem ancestors_tid_value_case :
    switchCase "process.ancestors.tid" GetFieldValueCases =
      some (ValueCase.ints (Expr.attr "ProcessContext.Tid")) := by
  decide!

set_option maxRecDepth 100000 in
theorem ancestors_tid_set_case :
    switchCase "process.ancestors.tid" SetFieldValueCases =
      some (SetCase.int true "ProcessContext.Ancestor.ProcessContext.Tid"
        (Loc.ancestor "ProcessContext.Tid") Conv.uint32) := by
  decide!

theorem GetFieldValue_ints_attr (rs : Resolvers) (e : Event) {field p : String}
    (h : switchCase field GetFieldValueCases = some (ValueCase.ints (Expr.attr p))) :
    GetFieldValue rs e field =
      ⟨(Value.ints (e.ancestors.map fun a => toInt (a.attrs.ints p)), none),
        Call.Front :: loopCalls (elementInt rs e (Expr.attr p)) e.ancestors⟩ := by
  rw [GetFieldValue_of_case rs e h]
  simp only [ValueCase.run, traverse_eq, NewContext]
  rfl

theorem ancestor_set_get (rs : Resolvers) (e : Event) (field p m : String) (v : Int)
    (hg : switchCase field GetFieldValueCases = some (ValueCase.ints (Expr.attr p)))
    (hs : switchCase field SetFieldValueCases =
      some (SetCase.int true m (Loc.ancestor p) Conv.uint32))
    (hv : 0 ≤ v ∧ v < 2 ^ 32) :
    ∃ e' old, SetFieldValue e field (Value.int v) = some (e', none) ∧
      (GetFieldValue rs e field).ret = (Value.ints old, none) ∧
      old.length = e.ancestors.length ∧
      (GetFieldValue rs e' field).ret = (Value.ints (v :: old.drop 1), none) ∧
      (v :: old.drop 1).length = max e.ancestors.length 1 := by
  have hconv : toInt (Conv.uint32.apply v) = v := by
    simp only [Conv.apply, toInt]
    omega
  rcases e with ⟨attrs, _ | ⟨s, anc⟩⟩
  · refine ⟨⟨attrs, some (.mk (Struct.zero.setInt p (Conv.uint32.apply v)) none)⟩, [], ?_, ?_,
      rfl, ?_, rfl⟩
    · rw [SetFieldValue_of_case _ _ hs]
      rfl
    · rw [GetFieldValue_ints_attr rs _ hg]
      rfl
    · rw [GetFieldValue_ints_attr rs _ hg]
      simp [Event.ancestors, ProcessCacheEntry.chain, ProcessCacheEntry.attrs,
        Struct.setInt_ints, hconv]
  · refine ⟨⟨attrs, some (.mk (s.setInt p (Conv.uint32.apply v)) anc)⟩,
      (Event.mk attrs (some (.mk s anc))).ancestors.map (fun a => toInt (a.attrs.ints p)),
      ?_, ?_, by simp, ?_, ?_⟩
    · rw [SetFieldValue_of_case _ _ hs]
      rfl
    · rw [GetFieldValue_ints_attr rs _ hg]
    · rw [GetFieldValue_ints_attr rs _ hg]
      cases anc <;>
        simp [Event.ancestors, ProcessCacheEntry.chain, ProcessCacheEntry.attrs,
          Struct.setInt_ints, hconv]
    · cases anc <;> simp [Event.ancestors, ProcessCacheEntry.chain]

/-- C23: for `process.ancestors.pid` and `process.ancestors.tid`, every event and every
`int` `v` in the `uint32` range: `SetFieldValue` returns nil, and `GetFieldValue` then
returns a sequence (not the scalar) whose first element is `v`, whose length is the maximum
of 1 and the number of ancestors before the call, and whose other elements are the values
the older ancestors had before the call. -/
theorem C23_ancestor_pid_set_then_get (rs : Resolvers) (e : Event) (field : String) (v : Int)
    (hf : field = "process.ancestors.pid" ∨ field = "process.ancestors.tid")
    (hv : 0 ≤ v ∧ v < 2 ^ 32) :
    ∃ e' old, SetFieldValue e field (Value.int v) = some (e', none) ∧
      (GetFieldValue rs e field).ret = (Value.ints old, none) ∧
      old.length = e.ancestors.length ∧
      (GetFieldValue rs e' field).ret = (Value.ints (v :: old.drop 1), none) ∧
      (v :: old.drop 1).length = max e.ancestors.length 1 := by
  rcases hf with rfl | rfl
  · exact ancestor_set_get rs e _ _ _ v ancestors_pid_value_case ancestors_pid_set_case hv
  · exact ancestor_set_get rs e _ _ _ v ancestors_tid_value_case ancestors_tid_set_case hv

/-- C23 at `process.ancestors.pid` with the value 5 on the sample event, whose ancestors
have the pids 200 and 300. -/
theorem C23_ancestor_pid_set_then_get_witness :
    ("process.ancestors.pid" = "process.ancestors.pid" ∨
      "process.ancestors.pid" = "process.ancestors.tid") ∧
    ((0 : Int) ≤ 5 ∧ (5 : Int) < 2 ^ 32) ∧
    sampleEvent.ancestors.length = 2 ∧
    ∃ e' old, SetFieldValue sampleEvent "process.ancestors.pid" (Value.int 5) =
        some (e', none) ∧
      (GetFieldValue sampleResolvers sampleEvent "process.ancestors.pid").ret =
        (Value.ints old, none) ∧
      old.length = sampleEvent.ancestors.length ∧
      (GetFieldValue sampleResolvers e' "process.ancestors.pid").ret =
        (Value.ints (5 :: old.drop 1), none) ∧
      (5 :: old.drop 1).length = max sampleEvent.ancestors.length 1 :=
  ⟨Or.inl rfl, by omega, by rw [sampleEvent_ancestors]; rfl,
    C23_ancestor_pid_set_then_get sampleResolvers sampleEvent "process.ancestors.pid" 5
      (Or.inl rfl) (by omega)⟩

/-! ## C24, C25: register ids, and `GetFieldValue` against the evaluator -/

/-- C24: the register id plays no part in `GetEvaluator`: for every field and every two
register ids the two results are the same, so two evaluators returned for them have the same
variant, `Field` and `Weight`, and their closures return the same outcome on every
context. -/
theorem C24_register_id_is_ignored (rs : Resolvers) (field : String) (r1 r2 : RegisterID) :
    GetEvaluator rs field r1 = GetEvaluator rs field r2 ∧
    ∀ ev1 ev2, GetEvaluator rs field r1 = (some ev1, none) →
      GetEvaluator rs field r2 = (some ev2, none) →
      ev1.variant = ev2.variant ∧ ev1.Field = ev2.Field ∧ ev1.Weight = ev2.Weight ∧
      ∀ ctx, ev1.Eval ctx = ev2.Eval ctx := by
  have h : GetEvaluator rs field r1 = GetEvaluator rs field r2 := by
    simp only [GetEvaluator]
  refine ⟨h, ?_⟩
  intro ev1 ev2 h1 h2
  rw [h, h2] at h1
  simp only [Prod.mk.injEq, Option.some.injEq, and_true] at h1
  subst h1
  exact ⟨rfl, rfl, rfl, fun _ => rfl⟩

/-- C25: for every registered field and every event, `GetFieldValue` returns a nil error
and the value that the closure of the evaluator of `GetEvaluator` returns on a new context
(empty cache) for the event, a scalar as `int`, `string` or `bool` and a
`process.ancestors.*` field as the same ordered `[]int` or `[]string`; both make the same
iterator steps and resolver calls (a resolver being a function of the event and of the
sub-structure it is pointed at). -/
theorem C25_value_agrees_with_evaluator (rs : Resolvers) (regID : RegisterID) (field : String)
    (e : Event) (hf : field ∈ GetFields) :
    ∃ ev out, GetEvaluator rs field regID = (some ev, none) ∧
      ev.Eval (NewContext e) = some out ∧
      GetFieldValue rs e field = ⟨(out.value, none), out.calls⟩ := by
  obtain ⟨c, hc⟩ := GetEvaluator_case_of_mem hf
  obtain ⟨v, hv, hform⟩ := value_case_of_eval_case hc
  rw [GetFieldValue_of_case rs e hv]
  rcases c with ⟨x, w⟩ | ⟨x, w⟩ | ⟨x, w⟩ | ⟨x, w⟩ | ⟨x, w⟩ <;> cases v <;>
    simp only [valueForm, decide_eq_true_eq, Bool.false_eq_true] at hform <;> subst hform
  · exact ⟨_, _, GetEvaluator_of_case rs regID hc, rfl, rfl⟩
  · exact ⟨_, _, GetEvaluator_of_case rs regID hc, rfl, rfl⟩
  · exact ⟨_, _, GetEvaluator_of_case rs regID hc, rfl, rfl⟩
  · refine ⟨_, _, GetEvaluator_of_case rs regID hc,
      Eval_IntArray_miss rs _ _ _ (NewContext e) rfl, ?_⟩
    simp only [ValueCase.run, traverse_eq, NewContext]
  · refine ⟨_, _, GetEvaluator_of_case rs regID hc,
      Eval_StringArray_miss rs _ _ _ (NewContext e) rfl, ?_⟩
    simp only [ValueCase.run, traverse_eq, NewContext]

set_option maxRecDepth 100000 in
/-- C25 at the field `process.ancestors.user` on the sample event. -/
theorem C25_value_agrees_with_evaluator_witness :
    "process.ancestors.user" ∈ GetFields ∧
    ∃ ev out, GetEvaluator sampleResolvers "process.ancestors.user" "" = (some ev, none) ∧
      ev.Eval (NewContext sampleEvent) = some out ∧
      GetFieldValue sampleResolvers sampleEvent "process.ancestors.user" =
        ⟨(out.value, none), out.calls⟩ :=
  ⟨by decide!, C25_value_agrees_with_evaluator sampleResolvers "" "process.ancestors.user"
    sampleEvent (by decide!)⟩

/-! ## Lemmas on the frame of `SetFieldValue` -/

theorem set_case_of_plain_field {f : String} {c : SetCase}
    (hc : switchCase f SetFieldValueCases = some c)
    (hna : hasPrefix "process.ancestors." f = false) :
    c.guard = false ∧ ∃ p, c.target = Loc.event p := by
  have hrow := List.all_eq_true.1 set_guard_rows _ (switchCase_mem hc)
  simp only [Bool.and_eq_true, decide_eq_true_eq] at hrow
  rw [hna] at hrow
  refine ⟨hrow.1, ?_⟩
  have ht := hrow.2.trans hrow.1
  cases htar : c.target with
  | event p => exact ⟨p, rfl⟩
  | ancestor p => simp [htar, Loc.isAncestor] at ht

theorem set_case_of_ancestor_field {f : String} {c : SetCase}
    (hc : switchCase f SetFieldValueCases = some c)
    (hp : hasPrefix "process.ancestors." f = true) :
    c.guard = true ∧ c.kind ≠ Kind.Bool := by
  have hrow := List.all_eq_true.1 set_guard_rows _ (switchCase_mem hc)
  simp only [Bool.and_eq_true, decide_eq_true_eq] at hrow
  rw [hp] at hrow
  have hb := List.all_eq_true.1 bool_set_rows _ (switchCase_mem hc)
  simp only [decide_eq_true_eq] at hb
  refine ⟨hrow.1, fun hk => ?_⟩
  have := (hb hk).1
  rw [hrow.1] at this
  simp at this

theorem set_kind_of_case {f : String} {c : SetCase}
    (hc : switchCase f SetFieldValueCases = some c) :
    GetFieldType f = (c.kind, none) ∧ c.mismatch = c.target.path := by
  obtain ⟨k, hk, hr⟩ := aligned_switchCase set_type_aligned hc
  obtain ⟨hkind, hmis, -⟩ := of_decide_eq_true hr
  rw [GetFieldType_of_case hk, hkind]
  exact ⟨rfl, hmis⟩

theorem Event.put_frame (e e' : Event) (p : String) (stored : Value)
    (h : e.put (Loc.event p) stored = some e') :
    e'.Ancestor = e.Ancestor ∧
      ∀ q, q ≠ p → e'.attrs.ints q = e.attrs.ints q ∧ e'.attrs.strs q = e.attrs.strs q ∧
        e'.attrs.bools q = e.attrs.bools q := by
  cases stored <;> simp only [Event.put, Event.assign, Option.some.injEq] at h <;> subst h <;>
    refine ⟨rfl, fun q hq => ?_⟩ <;>
    simp [Struct.setInt, Struct.setStr, Struct.setBool, hq]

theorem SetCase.run_plain (c : SetCase) (e : Event) (value : Value) (p : String)
    (hg : c.guard = false) (ht : c.target = Loc.event p) (hk : value.kind = c.kind) :
    ∃ e' stored, c.run e value = some (e', none) ∧ e.put (Loc.event p) stored = some e' := by
  rcases c with ⟨g, m, t, cv⟩ | ⟨g, m, t⟩ | ⟨g, m, t⟩ <;>
    simp only [SetCase.guard, SetCase.target] at hg ht <;> subst hg <;> subst ht <;>
    cases value <;> simp only [SetCase.kind, Value.kind] at hk <;>
    first
      | exact absurd hk (by decide)
      | skip
  · rename_i v
    exact ⟨_, Value.int (cv.apply v), rfl, rfl⟩
  · rename_i v
    exact ⟨_, Value.string v, rfl, rfl⟩
  · rename_i v
    exact ⟨_, Value.bool v, rfl, rfl⟩

theorem GetFieldValue_directly_read (rs : Resolvers) (e e' : Event) (g q : String)
    (hread : switchCase g GetFieldValueCases = some (ValueCase.int (Expr.attr q)) ∨
      switchCase g GetFieldValueCases = some (ValueCase.string (Expr.attr q)) ∨
      switchCase g GetFieldValueCases = some (ValueCase.bool (Expr.attr q)))
    (h : e'.attrs.ints q = e.attrs.ints q ∧ e'.attrs.strs q = e.attrs.strs q ∧
      e'.attrs.bools q = e.attrs.bools q) :
    GetFieldValue rs e' g = GetFieldValue rs e g := by
  rcases hread with hg | hg | hg <;>
    rw [GetFieldValue_of_case rs e' hg, GetFieldValue_of_case rs e hg] <;>
    simp only [ValueCase.run, Expr.int, Expr.string, Expr.bool, h.1, h.2.1, h.2.2]

theorem directly_read_set_path {g q : String}
    (hread : switchCase g GetFieldValueCases = some (ValueCase.int (Expr.attr q)) ∨
      switchCase g GetFieldValueCases = some (ValueCase.string (Expr.attr q)) ∨
      switchCase g GetFieldValueCases = some (ValueCase.bool (Expr.attr q))) :
    ∃ d, switchCase g SetFieldValueCases = some d ∧ d.target = Loc.event q := by
  rcases hread with hg | hg | hg
  · obtain ⟨m, hc⟩ := int_set_case hg
    exact ⟨_, hc, rfl⟩
  · obtain ⟨m, hc⟩ := string_set_case hg
    exact ⟨_, hc, rfl⟩
  · obtain ⟨m, hc⟩ := bool_set_case hg
    exact ⟨_, hc, rfl⟩

theorem GetFieldValue_ancestors_read (rs : Resolvers) (e e' : Event) (g : String)
    (hread : directlyReadAncestors g = true) (h : e'.Ancestor = e.Ancestor) :
    GetFieldValue rs e' g = GetFieldValue rs e g := by
  have ha : e'.ancestors = e.ancestors := by
    simp only [Event.ancestors, h]
  unfold directlyReadAncestors at hread
  split at hread
  · next p hp =>
    rw [GetFieldValue_of_case rs e' hp, GetFieldValue_of_case rs e hp]
    simp only [ValueCase.run, traverse_eq, NewContext, ha]
    rfl
  · next p hp =>
    rw [GetFieldValue_of_case rs e' hp, GetFieldValue_of_case rs e hp]
    simp only [ValueCase.run, traverse_eq, NewContext, ha]
    rfl
  · exact absurd hread (by simp)

/-! ## C26, C27, C28, C29: what `SetFieldValue` changes -/

/-- C26: for every registered field `f` outside `process.ancestors.*` and every value of
the declared type, `SetFieldValue` returns nil and changes only the backing attribute of
`f`: the event after the call is the event with one value stored at one attribute path, the
ancestor chain and every attribute at another path are unchanged, and for every other
directly-read field `g`, scalar or `process.ancestors.*`, `GetFieldValue` returns after the
call what it returned before (no two fields share a backing attribute). -/
theorem C26_set_changes_only_its_attribute (rs : Resolvers) (e : Event) (f : String)
    (value : Value) (hf : f ∈ GetFields) (hna : hasPrefix "process.ancestors." f = false)
    (hk : value.kind = (GetFieldType f).1) :
    ∃ e' p stored, SetFieldValue e f value = some (e', none) ∧
      e.put (Loc.event p) stored = some e' ∧ e'.Ancestor = e.Ancestor ∧
      (∀ q, q ≠ p → e'.attrs.ints q = e.attrs.ints q ∧ e'.attrs.strs q = e.attrs.strs q ∧
        e'.attrs.bools q = e.attrs.bools q) ∧
      (∀ g, directlyRead g = true ∨ directlyReadAncestors g = true → g ≠ f →
        GetFieldValue rs e' g = GetFieldValue rs e g) := by
  obtain ⟨c, hc⟩ := switchCase_isSome_of_mem (SetFieldValueCases_labels ▸ hf)
  obtain ⟨hg, p, ht⟩ := set_case_of_plain_field hc hna
  obtain ⟨hty, -⟩ := set_kind_of_case hc
  rw [hty] at hk
  obtain ⟨e', stored, hrun, hput⟩ := SetCase.run_plain c e value p hg ht hk
  obtain ⟨hanc, hframe⟩ := Event.put_frame e e' p stored hput
  refine ⟨e', p, stored, ?_, hput, hanc, hframe, ?_⟩
  · rw [SetFieldValue_of_case _ _ hc]
    exact hrun
  · intro g hd hne
    rcases hd with hd | hd
    swap
    · exact GetFieldValue_ancestors_read rs e e' g hd hanc
    obtain ⟨q, hread⟩ := directlyRead_case hd
    obtain ⟨d, hdc, hdt⟩ := directly_read_set_path hread
    have hqp : q ≠ p := by
      intro hqp
      apply hne
      apply set_case_unique hdc hc
      rw [hdt, ht, hqp]
    exact GetFieldValue_directly_read rs e e' g q hread (hframe q hqp)

set_option maxRecDepth 100000 in
/-- C26 at the field `open.file.mode` with the value 420 on the sample `open` event. -/
theorem C26_set_changes_only_its_attribute_witness :
    "open.file.mode" ∈ GetFields ∧ hasPrefix "process.ancestors." "open.file.mode" = false ∧
    (Value.int 420).kind = (GetFieldType "open.file.mode").1 ∧
    ∃ e' p stored, SetFieldValue openEvent "open.file.mode" (Value.int 420) = some (e', none) ∧
      openEvent.put (Loc.event p) stored = some e' ∧ e'.Ancestor = openEvent.Ancestor ∧
      (∀ q, q ≠ p → e'.attrs.ints q = openEvent.attrs.ints q ∧
        e'.attrs.strs q = openEvent.attrs.strs q ∧
        e'.attrs.bools q = openEvent.attrs.bools q) ∧
      (∀ g, directlyRead g = true ∨ directlyReadAncestors g = true → g ≠ "open.file.mode" →
        GetFieldValue sampleResolvers e' g = GetFieldValue sampleResolvers openEvent g) :=
  ⟨by decide!, by decide, by decide!,
    C26_set_changes_only_its_attribute sampleResolvers openEvent "open.file.mode"
      (Value.int 420) (by decide!) (by decide) (by decide!)⟩

/-- C27: a call of `SetFieldValue` that returns an error leaves the event unchanged when
the field is unknown (the error is then `ErrFieldNotFound` with the name) and when the field
is a registered field outside `process.ancestors.*` whose declared type is `Int` or
`String` (the error is then an `ErrValueTypeMismatch`). -/
theorem C27_error_leaves_event_unchanged (e e' : Event) (f : String) (value : Value)
    (err : Error) (h : SetFieldValue e f value = some (e', some err))
    (hcase : f ∉ GetFields ∨
      (hasPrefix "process.ancestors." f = false ∧
        ((GetFieldType f).1 = Kind.Int ∨ (GetFieldType f).1 = Kind.String))) :
    e' = e ∧ (f ∉ GetFields → err = Error.ErrFieldNotFound f) ∧
      (f ∈ GetFields → ∃ m, err = Error.ErrValueTypeMismatch m) := by
  rcases switchCase_labels SetFieldValueCases_labels f with ⟨hf, c, hc⟩ | ⟨hf, hc⟩
  · rcases hcase with hno | ⟨hna, hkind⟩
    · exact absurd hf hno
    · obtain ⟨hg, p, ht⟩ := set_case_of_plain_field hc hna
      obtain ⟨hty, -⟩ := set_kind_of_case hc
      rw [hty] at hkind
      rw [SetFieldValue_of_case _ _ hc] at h
      rcases c with ⟨g, m, t, cv⟩ | ⟨g, m, t⟩ | ⟨g, m, t⟩ <;>
        simp only [SetCase.guard, SetCase.target, SetCase.kind] at hg ht hkind <;>
        first
          | (rcases hkind with hk | hk <;> exact absurd hk (by decide))
          | skip
      all_goals
        subst hg
        subst ht
        cases value <;>
          simp only [SetCase.run, Event.assign, Option.map_some', Option.some.injEq,
            Prod.mk.injEq, Bool.false_eq_true, if_false] at h <;>
          first
            | (exact absurd h.2 (by simp))
            | (obtain ⟨rfl, rfl⟩ := h
               exact ⟨rfl, fun hno => absurd hf hno, fun _ => ⟨_, rfl⟩⟩)
  · simp only [SetFieldValue, hc, Option.some.injEq, Prod.mk.injEq] at h
    obtain ⟨rfl, rfl⟩ := h
    exact ⟨rfl, fun _ => rfl, fun hin => absurd hin hf⟩

set_option maxRecDepth 100000 in
/-- C27 at the string field `open.file.path` with an `int` value. -/
theorem C27_error_leaves_event_unchanged_witness :
    SetFieldValue openEvent "open.file.path" (Value.int 1) =
      some (openEvent, some (Error.ErrValueTypeMismatch "Open.File.PathnameStr")) ∧
    ("open.file.path" ∉ GetFields ∨
      (hasPrefix "process.ancestors." "open.file.path" = false ∧
        ((GetFieldType "open.file.path").1 = Kind.Int ∨
          (GetFieldType "open.file.path").1 = Kind.String))) ∧
    (openEvent = openEvent ∧
      ("open.file.path" ∉ GetFields →
        Error.ErrValueTypeMismatch "Open.File.PathnameStr" =
          Error.ErrFieldNotFound "open.file.path") ∧
      ("open.file.path" ∈ GetFields →
        ∃ m, Error.ErrValueTypeMismatch "Open.File.PathnameStr" =
          Error.ErrValueTypeMismatch m)) := by
  have hc : switchCase "open.file.path" SetFieldValueCases =
      some (SetCase.string false "Open.File.PathnameStr"
        (Loc.event "Open.File.PathnameStr")) := by
    decide!
  have hs : SetFieldValue openEvent "open.file.path" (Value.int 1) =
      some (openEvent, some (Error.ErrValueTypeMismatch "Open.File.PathnameStr")) := by
    rw [SetFieldValue_of_case _ _ hc]
    rfl
  have hcase : "open.file.path" ∉ GetFields ∨
      (hasPrefix "process.ancestors." "open.file.path" = false ∧
        ((GetFieldType "open.file.path").1 = Kind.Int ∨
          (GetFieldType "open.file.path").1 = Kind.String)) :=
    Or.inr ⟨by decide, Or.inr (by decide!)⟩
  exact ⟨hs, hcase, C27_error_leaves_event_unchanged openEvent openEvent "open.file.path"
    (Value.int 1) _ hs hcase⟩

/-- C28: for every registered field of declared type `Bool` and every value that is not a
`bool`, `SetFieldValue` returns an `ErrValueTypeMismatch` naming the backing attribute and
leaves that attribute set to false, whatever it was before the call; the attribute is the
one a call with a `bool` assigns. -/
theorem C28_failed_bool_set_clears_attribute (e : Event) (f : String) (value : Value)
    (hf : f ∈ GetFields) (hb : (GetFieldType f).1 = Kind.Bool)
    (hv : value.kind ≠ Kind.Bool) :
    ∃ p, SetFieldValue e f value =
        some (⟨e.attrs.setBool p false, e.Ancestor⟩, some (Error.ErrValueTypeMismatch p)) ∧
      (e.attrs.setBool p false).bools p = false ∧
      (∀ e0 b, SetFieldValue e0 f (Value.bool b) =
        some (⟨e0.attrs.setBool p b, e0.Ancestor⟩, none)) := by
  obtain ⟨c, hc⟩ := switchCase_isSome_of_mem (SetFieldValueCases_labels ▸ hf)
  obtain ⟨hty, -⟩ := set_kind_of_case hc
  rw [hty] at hb
  have hrow := List.all_eq_true.1 bool_set_rows _ (switchCase_mem hc)
  simp only [decide_eq_true_eq] at hrow
  obtain ⟨hg, ht⟩ := hrow hb
  rcases c with ⟨g, m, t, cv⟩ | ⟨g, m, t⟩ | ⟨g, m, t⟩ <;>
    simp only [SetCase.kind] at hb <;>
    first
      | exact absurd hb (by decide)
      | skip
  simp only [SetCase.guard, SetCase.target, SetCase.mismatch] at hg ht
  subst hg
  subst ht
  refine ⟨m, ?_, Struct.setBool_bools _ _ _, fun e0 b => ?_⟩
  · rw [SetFieldValue_of_case _ _ hc]
    cases value <;> first
      | rfl
      | exact absurd rfl hv
  · rw [SetFieldValue_of_case _ _ hc]
    rfl

set_option maxRecDepth 100000 in
/-- C28 at `exec.args_truncated` with an `int` value on an event whose attribute is true
before the call. -/
theorem C28_failed_bool_set_clears_attribute_witness :
    "exec.args_truncated" ∈ GetFields ∧
    (GetFieldType "exec.args_truncated").1 = Kind.Bool ∧
    (Value.int 1).kind ≠ Kind.Bool ∧
    truncatedEvent.attrs.bools "Exec.ArgsTruncated" = true ∧
    ∃ p, SetFieldValue truncatedEvent "exec.args_truncated" (Value.int 1) =
        some (⟨truncatedEvent.attrs.setBool p false, truncatedEvent.Ancestor⟩,
          some (Error.ErrValueTypeMismatch p)) ∧
      (truncatedEvent.attrs.setBool p false).bools p = false ∧
      (∀ e0 b, SetFieldValue e0 "exec.args_truncated" (Value.bool b) =
        some (⟨e0.attrs.setBool p b, e0.Ancestor⟩, none)) :=
  ⟨by decide!, by decide!, by decide, by decide,
    C28_failed_bool_set_clears_attribute truncatedEvent "exec.args_truncated" (Value.int 1)
      (by decide!) (by decide!) (by decide)⟩

/-- C29: for every `process.ancestors.*` field, on an event whose
`ProcessContext.Ancestor` is nil, `SetFieldValue` with a value of a wrong type returns
`ErrValueTypeMismatch` and yet changes the event: a new zero-valued ancestor entry was
allocated before the type check, so `GetFieldValue` of `process.ancestors.pid`, the empty
sequence before the call, returns `[0]` after it. -/
theorem C29_failed_ancestor_set_allocates (rs : Resolvers) (e : Event) (f : String)
    (value : Value) (hf : f ∈ GetFields) (hp : hasPrefix "process.ancestors." f = true)
    (hn : e.Ancestor = none) (hv : value.kind ≠ (GetFieldType f).1) :
    ∃ m, SetFieldValue e f value =
        some (⟨e.attrs, some (.mk Struct.zero none)⟩, some (Error.ErrValueTypeMismatch m)) ∧
      (GetFieldValue rs e "process.ancestors.pid").ret = (Value.ints [], none) ∧
      (GetFieldValue rs ⟨e.attrs, some (.mk Struct.zero none)⟩ "process.ancestors.pid").ret =
        (Value.ints [0], none) := by
  obtain ⟨c, hc⟩ := switchCase_isSome_of_mem (SetFieldValueCases_labels ▸ hf)
  obtain ⟨hty, -⟩ := set_kind_of_case hc
  rw [hty] at hv
  obtain ⟨hg, hnb⟩ := set_case_of_ancestor_field hc hp
  rcases e with ⟨attrs, anc⟩
  simp only at hn
  subst hn
  have hget0 : (GetFieldValue rs ⟨attrs, none⟩ "process.ancestors.pid").ret =
      (Value.ints [], none) := by
    rw [GetFieldValue_ints_attr rs _ ancestors_pid_value_case]
    rfl
  have hget1 : (GetFieldValue rs ⟨attrs, some (.mk Struct.zero none)⟩
      "process.ancestors.pid").ret = (Value.ints [0], none) := by
    rw [GetFieldValue_ints_attr rs _ ancestors_pid_value_case]
    simp [Event.ancestors, ProcessCacheEntry.chain, ProcessCacheEntry.attrs, Struct.zero, toInt]
  rcases c with ⟨g, m, t, cv⟩ | ⟨g, m, t⟩ | ⟨g, m, t⟩ <;>
    simp only [SetCase.guard, SetCase.kind] at hg hnb hv <;>
    first
      | exact absurd rfl hnb
      | skip
  all_goals
    subst hg
    refine ⟨m, ?_, hget0, hget1⟩
    rw [SetFieldValue_of_case _ _ hc]
    cases value <;> first
      | rfl
      | exact absurd rfl hv

set_option maxRecDepth 100000 in
/-- C29 at `process.ancestors.pid` with a string value on the event without an ancestor. -/
theorem C29_failed_ancestor_set_allocates_witness :
    "process.ancestors.pid" ∈ GetFields ∧
    hasPrefix "process.ancestors." "process.ancestors.pid" = true ∧
    orphanEvent.Ancestor = none ∧
    (Value.string "x").kind ≠ (GetFieldType "process.ancestors.pid").1 ∧
    ∃ m, SetFieldValue orphanEvent "process.ancestors.pid" (Value.string "x") =
        some (⟨orphanEvent.attrs, some (.mk Struct.zero none)⟩,
          some (Error.ErrValueTypeMismatch m)) ∧
      (GetFieldValue sampleResolvers orphanEvent "process.ancestors.pid").ret =
        (Value.ints [], none) ∧
      (GetFieldValue sampleResolvers ⟨orphanEvent.attrs, some (.mk Struct.zero none)⟩
        "process.ancestors.pid").ret = (Value.ints [0], none) :=
  ⟨by decide!, by decide, rfl, by decide!,
    C29_failed_ancestor_set_allocates sampleResolvers orphanEvent "process.ancestors.pid"
      (Value.string "x") (by decide!) (by decide) rfl (by decide!)⟩

/-! ## C30: the frame of the array cache -/

theorem Eval_cache_frame (rs : Resolvers) (field : String) (c : EvalCase) (ctx : Context)
    (out : Outcome Value) (h : (c.build rs field).Eval ctx = some out) :
    ∀ K, K ≠ field → out.ctx.Cache K = ctx.Cache K := by
  intro K hK
  rcases c with ⟨x, w⟩ | ⟨x, w⟩ | ⟨x, w⟩ | ⟨x, w⟩ | ⟨x, w⟩
  · simp only [EvalCase.build, Evaluator.Eval, Option.some.injEq] at h
    subst h
    rfl
  · simp only [EvalCase.build, Evaluator.Eval, Option.some.injEq] at h
    subst h
    rfl
  · simp only [EvalCase.build, Evaluator.Eval, Option.some.injEq] at h
    subst h
    rfl
  · simp only [EvalCase.build, Evaluator.Eval, evalIntArray] at h
    rcases hc : ctx.Cache field with _ | (vs | vs) <;> simp [hc] at h <;> subst h <;>
      simp [Context.store, hK]
  · simp only [EvalCase.build, Evaluator.Eval, evalStringArray] at h
    rcases hc : ctx.Cache field with _ | (vs | vs) <;> simp [hc] at h <;> subst h <;>
      simp [Context.store, hK]

theorem Eval_store_other (rs : Resolvers) (G F : String) (c : EvalCase) (ctx : Context)
    (entry : CacheEntry) (h : G ≠ F) :
    ((c.build rs G).Eval (ctx.store F entry)).map (fun o => (o.value, o.calls)) =
      ((c.build rs G).Eval ctx).map (fun o => (o.value, o.calls)) := by
  have hcache : (ctx.store F entry).Cache G = ctx.Cache G := by
    simp [Context.store, h]
  rcases c with ⟨x, w⟩ | ⟨x, w⟩ | ⟨x, w⟩ | ⟨x, w⟩ | ⟨x, w⟩
  · rfl
  · rfl
  · rfl
  · simp only [EvalCase.build, Evaluator.Eval, evalIntArray, hcache]
    rcases hc : ctx.Cache G with _ | (vs | vs) <;> simp [traverse_eq, Context.store]
  · simp only [EvalCase.build, Evaluator.Eval, evalStringArray, hcache]
    rcases hc : ctx.Cache G with _ | (vs | vs) <;> simp [traverse_eq, Context.store]

theorem Eval_isSome_of_miss (rs : Resolvers) (field : String) (c : EvalCase) (ctx : Context)
    (h : ctx.Cache field = none) : ((c.build rs field).Eval ctx).isSome = true := by
  rcases c with ⟨x, w⟩ | ⟨x, w⟩ | ⟨x, w⟩ | ⟨x, w⟩ | ⟨x, w⟩
  · rfl
  · rfl
  · rfl
  · rw [Eval_IntArray_miss rs field x w ctx h]
    rfl
  · rw [Eval_StringArray_miss rs field x w ctx h]
    rfl

/-- C30: evaluating the evaluator of a `process.ancestors.*` field `F` returns a result when
the cache has no entry for `F`, and a result it returns leaves the event of the context and
every cache entry under another key unchanged; and the value and the calls of the evaluator
of a different field `G` are the same whether or not the cache holds a result for `F`. -/
theorem C30_cache_frame (rs : Resolvers) (regID : RegisterID) (F G : String) (ctx : Context)
    (entry : CacheEntry) (hF : F ∈ GetFields)
    (_hp : hasPrefix "process.ancestors." F = true) (hG : G ≠ F) :
    ∃ evF, GetEvaluator rs F regID = (some evF, none) ∧
      (ctx.Cache F = none → (evF.Eval ctx).isSome = true) ∧
      (∀ out, evF.Eval ctx = some out →
        out.ctx.Object = ctx.Object ∧ ∀ K, K ≠ F → out.ctx.Cache K = ctx.Cache K) ∧
      (∀ evG, GetEvaluator rs G regID = (some evG, none) →
        (evG.Eval (ctx.store F entry)).map (fun o => (o.value, o.calls)) =
          (evG.Eval ctx).map (fun o => (o.value, o.calls))) := by
  obtain ⟨c, hc⟩ := GetEvaluator_case_of_mem hF
  refine ⟨_, GetEvaluator_of_case rs regID hc, Eval_isSome_of_miss rs F c ctx, ?_, ?_⟩
  · intro out hout
    exact ⟨Eval_Object rs F c ctx out hout, Eval_cache_frame rs F c ctx out hout⟩
  · intro evG hevG
    cases hd : switchCase G GetEvaluatorCases with
    | none => simp [GetEvaluator, hd] at hevG
    | some d =>
      rw [GetEvaluator_of_case rs regID hd] at hevG
      simp only [Prod.mk.injEq, Option.some.injEq, and_true] at hevG
      subst hevG
      exact Eval_store_other rs G F d ctx entry hG

set_option maxRecDepth 100000 in
/-- C30 for `F = process.ancestors.pid` and `G = process.ancestors.tid` on a new context
for the sample event. -/
theorem C30_cache_frame_witness :
    "process.ancestors.pid" ∈ GetFields ∧
    hasPrefix "process.ancestors." "process.ancestors.pid" = true ∧
    "process.ancestors.tid" ≠ "process.ancestors.pid" ∧
    ∃ evF, GetEvaluator sampleResolvers "process.ancestors.pid" "" = (some evF, none) ∧
      ((NewContext sampleEvent).Cache "process.ancestors.pid" = none →
        (evF.Eval (NewContext sampleEvent)).isSome = true) ∧
      (∀ out, evF.Eval (NewContext sampleEvent) = some out →
        out.ctx.Object = (NewContext sampleEvent).Object ∧
          ∀ K, K ≠ "process.ancestors.pid" →
            out.ctx.Cache K = (NewContext sampleEvent).Cache K) ∧
      (∀ evG, GetEvaluator sampleResolvers "process.ancestors.tid" "" = (some evG, none) →
        (evG.Eval ((NewContext sampleEvent).store "process.ancestors.pid"
            (CacheEntry.ints [1]))).map (fun o => (o.value, o.calls)) =
          (evG.Eval (NewContext sampleEvent)).map (fun o => (o.value, o.calls))) :=
  ⟨by decide!, by decide, by decide,
    C30_cache_frame sampleResolvers "" "process.ancestors.pid" "process.ancestors.tid"
      (NewContext sampleEvent) (CacheEntry.ints [1]) (by decide!) (by decide) (by decide)⟩

/-! ## C31: `GetEventTypes` against `GetFieldEventType` -/

theorem GetEventTypes_increasing : strictlyIncreasing GetEventTypes = true := by decide

set_option maxRecDepth 100000 in
theorem event_type_owners :
    GetEventTypes.all (fun t =>
      match GetFieldEventTypeCases.find? (fun row => row.2 == t) with
      | some row => decide (switchCase row.1 GetFieldEventTypeCases = some t)
      | none => false) = true := by
  decide!

theorem star_not_listed : "*" ∉ GetEventTypes := by decide

/-- C31: `GetEventTypes` returns 15 event types, each less in byte order than the one after
it, hence pairwise different and ascending; and an event type is one of them exactly when it
is not `*` and `GetFieldEventType` assigns it to a registered field. -/
theorem C31_event_types_are_those_of_the_fields :
    GetEventTypes.length = 15 ∧
    List.Chain' (fun a b => byteLess a b = true) GetEventTypes ∧
    List.Pairwise (fun a b : String => a < b) GetEventTypes ∧
    GetEventTypes.Nodup ∧
    (∀ t, t ∈ GetEventTypes ↔
      t ≠ "*" ∧ ∃ f, f ∈ GetFields ∧ GetFieldEventType f = (t, none)) := by
  refine ⟨rfl, chain_of_increasing _ GetEventTypes_increasing, ?_,
    nodup_of_increasing _ GetEventTypes_increasing, ?_⟩
  · exact List.chain'_iff_pairwise.1
      ((chain_of_increasing _ GetEventTypes_increasing).imp (fun _ _ hab => byteLess_lt hab))
  · intro t
    constructor
    · intro ht
      refine ⟨fun h => star_not_listed (h ▸ ht), ?_⟩
      have hrow := List.all_eq_true.1 event_type_owners t ht
      split at hrow
      · next row _ =>
        have hc := of_decide_eq_true hrow
        refine ⟨row.1, ?_, by simp [GetFieldEventType, hc]⟩
        rw [← GetFieldEventTypeCases_labels]
        exact List.mem_map.2 ⟨(row.1, t), switchCase_mem hc, rfl⟩
      · exact absurd hrow (by simp)
    · rintro ⟨hne, f, hf, hft⟩
      obtain ⟨c, hc⟩ := switchCase_isSome_of_mem (GetFieldEventTypeCases_labels ▸ hf)
      have hrow := List.all_eq_true.1 eventType_rows _ (switchCase_mem hc)
      obtain ⟨h1, h2⟩ := of_decide_eq_true hrow
      simp only at h1 h2
      simp only [GetFieldEventType, hc, Prod.mk.injEq, and_true] at hft
      subst hft
      by_cases hp : (hasPrefix "container." f || hasPrefix "process." f) = true
      · rw [if_pos hp] at h1
        exact absurd h1 hne
      · rw [if_neg hp] at h1
        rw [h1]
        exact h2 (by simpa using hp)

/-! ## C32: `IsAutoconfigEnabled` -/

theorem autoconfig_examples :
    (IsAutoconfigEnabled (sampleHost (oneVariable "AUTOCONFIG_FROM_ENVIRONMENT" "0"))).1 =
        false ∧
      (IsAutoconfigEnabled (sampleHost (oneVariable "AUTCONFIG_FROM_ENVIRONMENT" "yes"))).1 =
        false ∧
      (IsAutoconfigEnabled (sampleHost (oneVariable "AUTCONFIG_FROM_ENVIRONMENT" "T"))).1 =
        true ∧
      (IsAutoconfigEnabled (sampleHost (fun _ => none))).1 = true := by
  refine ⟨by decide, by decide, by decide, by decide⟩

/-- C32: the precedence of `IsAutoconfigEnabled`. When `AUTOCONFIG_FROM_ENVIRONMENT` is set
the result is its value parsed by `strconv.ParseBool`, false when it does not parse, whatever
the misspelt variable and the configuration hold; when only `AUTCONFIG_FROM_ENVIRONMENT` is
set the result is that variable parsed in the same way; when neither is set it is
`Datadog.GetBool("autoconfig_from_environment")`. -/
theorem C32_autoconfig_precedence (host : Host) :
    (∀ s, host.LookupEnv "AUTOCONFIG_FROM_ENVIRONMENT" = some s →
      (IsAutoconfigEnabled host).1 =
        (match ParseBool s with
          | .ok b => b
          | .error _ => false) ∧
      ∀ other : Host, other.LookupEnv "AUTOCONFIG_FROM_ENVIRONMENT" = some s →
        (IsAutoconfigEnabled other).1 = (IsAutoconfigEnabled host).1) ∧
    (host.LookupEnv "AUTOCONFIG_FROM_ENVIRONMENT" = none →
      ∀ s, host.LookupEnv "AUTCONFIG_FROM_ENVIRONMENT" = some s →
        (IsAutoconfigEnabled host).1 =
          (match ParseBool s with
            | .ok b => b
            | .error _ => false)) ∧
    (host.LookupEnv "AUTOCONFIG_FROM_ENVIRONMENT" = none →
      host.LookupEnv "AUTCONFIG_FROM_ENVIRONMENT" = none →
        IsAutoconfigEnabled host = (host.GetBool "autoconfig_from_environment", [])) := by
  have first : ∀ (h : Host) s, h.LookupEnv "AUTOCONFIG_FROM_ENVIRONMENT" = some s →
      (IsAutoconfigEnabled h).1 =
        (match ParseBool s with
          | .ok b => b
          | .error _ => false) := by
    intro h s hs
    simp only [IsAutoconfigEnabled, IsAutoconfigEnabled.loop, autoconfEnvironmentVariable, hs]
    cases ParseBool s <;> rfl
  refine ⟨fun s hs => ⟨first host s hs, fun other ho => ?_⟩, fun h1 s h2 => ?_, fun h1 h2 => ?_⟩
  · rw [first host s hs, first other s ho]
  · simp only [IsAutoconfigEnabled, IsAutoconfigEnabled.loop, autoconfEnvironmentVariable,
      autoconfEnvironmentVariableWithTypo, h1, h2]
    cases ParseBool s <;> rfl
  · simp only [IsAutoconfigEnabled, IsAutoconfigEnabled.loop, autoconfEnvironmentVariable,
      autoconfEnvironmentVariableWithTypo, h1, h2]

/-! ## C33: `detectFeatures` and `IsFeaturePresent` -/

theorem erase_all_keys (excluded : List String) (fm : FeatureMap) :
    excluded.foldl (fun m ef => (⟨m.keys.erase ef⟩ : FeatureMap)) fm =
      ⟨fm.keys \ excluded.toFinset⟩ := by
  induction excluded generalizing fm with
  | nil => simp
  | cons ef rest ih =>
    rw [List.foldl_cons, ih, FeatureMap.mk.injEq]
    ext f
    simp only [Finset.mem_sdiff, Finset.mem_erase, List.toFinset_cons, Finset.mem_insert,
      List.mem_toFinset]
    tauto

theorem detection_examples :
    (IsFeaturePresent (detectFeatures (sampleHost (fun _ => none)) ⟨none⟩).1 "kubernetes").1 =
        true ∧
      (IsFeaturePresent (detectFeatures (sampleHost (fun _ => none)) ⟨none⟩).1 "docker").1 =
        false ∧
      (IsFeaturePresent (detectFeatures
        (sampleHost (oneVariable "AUTOCONFIG_FROM_ENVIRONMENT" "false")) ⟨none⟩).1
          "kubernetes").1 = false ∧
      IsFeaturePresent ⟨none⟩ "kubernetes" =
        (false, [LogRecord.Critical "Trying to access features before detection has run"]) := by
  refine ⟨by decide, by decide, by decide, rfl⟩

/-- C33: after `detectFeatures` the variable `detectedFeatures` holds a map, not nil, and
no feature of `autoconfig_exclude_features` is a key of it; with autoconfig enabled its keys
are what `detectContainerFeatures` put into the new map less the excluded features, with
autoconfig disabled it has no key, so that `IsFeaturePresent` is false for every feature; and
`IsFeaturePresent` is true exactly for the keys of the map (for no feature while the variable
is nil). -/
theorem C33_detected_features (host : Host) (g : Globals) :
    (∃ fm, (detectFeatures host g).1.detectedFeatures = some fm ∧
      GetDetectedFeatures (detectFeatures host g).1 = (some fm, []) ∧
      (∀ ef, ef ∈ host.GetStringSlice "autoconfig_exclude_features" → ef ∉ fm.keys) ∧
      ((IsAutoconfigEnabled host).1 = true →
        fm.keys = (host.detectContainerFeatures ⟨∅⟩).keys \
          (host.GetStringSlice "autoconfig_exclude_features").toFinset) ∧
      ((IsAutoconfigEnabled host).1 = false →
        fm.keys = ∅ ∧ ∀ f, (IsFeaturePresent (detectFeatures host g).1 f).1 = false) ∧
      (∀ f, (IsFeaturePresent (detectFeatures host g).1 f).1 = true ↔ f ∈ fm.keys)) ∧
    (∀ (g0 : Globals) f, (IsFeaturePresent g0 f).1 = true ↔
      ∃ fm, g0.detectedFeatures = some fm ∧ f ∈ fm.keys) := by
  have general : ∀ (g0 : Globals) f, (IsFeaturePresent g0 f).1 = true ↔
      ∃ fm, g0.detectedFeatures = some fm ∧ f ∈ fm.keys := by
    intro g0 f
    rcases g0 with ⟨_ | fm⟩ <;> simp [IsFeaturePresent]
  refine ⟨?_, general⟩
  cases he : (IsAutoconfigEnabled host).1 with
  | true =>
    refine ⟨⟨(host.detectContainerFeatures ⟨∅⟩).keys \
        (host.GetStringSlice "autoconfig_exclude_features").toFinset⟩, ?_, ?_, ?_, ?_, ?_, ?_⟩
    · simp only [detectFeatures, he, if_true, erase_all_keys]
    · simp only [detectFeatures, he, if_true, GetDetectedFeatures, erase_all_keys]
    · intro ef hef
      simp [hef]
    · intro _
      rfl
    · intro h
      exact absurd h (by simp)
    · intro f
      simp only [detectFeatures, he, if_true, IsFeaturePresent, erase_all_keys,
        decide_eq_true_eq]
  | false =>
    refine ⟨⟨∅⟩, ?_, ?_, ?_, ?_, ?_, ?_⟩
    · simp only [detectFeatures, he, Bool.false_eq_true, if_false]
    · simp only [detectFeatures, he, Bool.false_eq_true, if_false, GetDetectedFeatures]
    · intro ef _
      simp
    · intro h
      exact absurd h (by simp)
    · intro _
      refine ⟨rfl, fun f => ?_⟩
      simp [detectFeatures, he, IsFeaturePresent]
    · intro f
      simp [detectFeatures, he, IsFeaturePresent]

/-! ## C34: `FeatureMap.String` -/

theorem foldl_append_each (visit init : List String) :
    visit.foldl (fun features f => features ++ [f]) init = init ++ visit := by
  induction visit generalizing init with
  | nil => simp
  | cons f rest ih => simp [ih]

theorem Join_empty_strings (n : Nat) (v : String) (vs : List String) :
    (Join (List.replicate n "" ++ v :: vs) ",").data =
      List.replicate n ',' ++ (Join (v :: vs) ",").data := by
  induction n with
  | zero => rfl
  | succ k ih =>
    have h : List.replicate (k + 1) "" ++ v :: vs =
        "" :: (List.replicate k "" ++ v :: vs) := rfl
    rw [h]
    cases k with
    | zero =>
      simp only [List.replicate_zero, List.nil_append, Join, String.data_append]
      rfl
    | succ j =>
      have h2 : List.replicate (j + 1) "" ++ v :: vs =
          "" :: (List.replicate j "" ++ v :: vs) := rfl
      rw [h2, Join, ← h2, String.data_append, String.data_append, ih]
      rfl

theorem Join_count (v : String) (vs : List String) :
    (Join (v :: vs) ",").data.count ',' =
      vs.length + ((v :: vs).map fun f => f.data.count ',').sum := by
  induction vs generalizing v with
  | nil => simp [Join]
  | cons w rest ih =>
    rw [Join, String.data_append, String.data_append, List.count_append, List.count_append,
      ih w]
    have : (",".data).count ',' = 1 := rfl
    simp only [this, List.map_cons, List.sum_cons, List.length_cons]
    omega

/-- C34: for a map with `n` features and any order `visit` in which the `range` yields its
keys, `FeatureMap.String` joins `2n` strings with `,`: `n` empty strings, then the `n`
feature names in that order. So the result is `n` commas followed by the names joined with
`,`; for `n >= 1` it holds `2n-1` separators (its commas are these and the commas inside
names), and for `n = 0` it is the empty string. -/
theorem C34_string_of_feature_map (fm : FeatureMap) (visit : List Feature)
    (hv : visit.Nodup) (hk : visit.toFinset = fm.keys) :
    visit.length = fm.keys.card ∧
    fm.String visit = Join (List.replicate fm.keys.card "" ++ visit) "," ∧
    (List.replicate fm.keys.card "" ++ visit).length = 2 * fm.keys.card ∧
    (fm.String visit).data = List.replicate fm.keys.card ',' ++ (Join visit ",").data ∧
    (1 ≤ fm.keys.card →
      (fm.String visit).data.count ',' =
        (2 * fm.keys.card - 1) + (visit.map fun f => f.data.count ',').sum) ∧
    (fm.keys.card = 0 → fm.String visit = "") := by
  have hlen : visit.length = fm.keys.card := by
    rw [← hk, List.toFinset_card_of_nodup hv]
  have hs : fm.String visit = Join (List.replicate fm.keys.card "" ++ visit) "," := by
    simp only [FeatureMap.String, foldl_append_each]
  have hd : (fm.String visit).data =
      List.replicate fm.keys.card ',' ++ (Join visit ",").data := by
    rw [hs]
    cases visit with
    | nil =>
      rw [← hlen]
      rfl
    | cons v vs => exact Join_empty_strings _ v vs
  refine ⟨hlen, hs, by simp [hlen]; omega, hd, ?_, ?_⟩
  · intro hn
    rw [hd, List.count_append]
    cases visit with
    | nil =>
      simp only [List.length_nil] at hlen
      omega
    | cons v vs =>
      rw [Join_count v vs, List.count_replicate_self]
      have e : fm.keys.card = vs.length + 1 := by simpa using hlen.symm
      have e2 : 2 * (vs.length + 1) - 1 = vs.length + 1 + vs.length := by omega
      rw [e, e2]
      simp only [Nat.add_assoc]
  · intro h0
    rw [hs, h0]
    rw [h0] at hlen
    rw [List.length_eq_zero.1 hlen]
    rfl

/-- C34 on the map of `docker` and `kubernetes`, visited in the order `kubernetes`,
`docker`: the result is `,,kubernetes,docker`. -/
theorem C34_string_of_feature_map_witness :
    ["kubernetes", "docker"].Nodup ∧
    ["kubernetes", "docker"].toFinset = sampleFeatures.keys ∧
    sampleFeatures.String ["kubernetes", "docker"] = ",,kubernetes,docker" ∧
    (["kubernetes", "docker"].length = sampleFeatures.keys.card ∧
      sampleFeatures.String ["kubernetes", "docker"] =
        Join (List.replicate sampleFeatures.keys.card "" ++ ["kubernetes", "docker"]) "," ∧
      (List.replicate sampleFeatures.keys.card "" ++ ["kubernetes", "docker"]).length =
        2 * sampleFeatures.keys.card ∧
      (sampleFeatures.String ["kubernetes", "docker"]).data =
        List.replicate sampleFeatures.keys.card ',' ++
          (Join ["kubernetes", "docker"] ",").data ∧
      (1 ≤ sampleFeatures.keys.card →
        (sampleFeatures.String ["kubernetes", "docker"]).data.count ',' =
          (2 * sampleFeatures.keys.card - 1) +
            (["kubernetes", "docker"].map fun f => f.data.count ',').sum) ∧
      (sampleFeatures.keys.card = 0 → sampleFeatures.String ["kubernetes", "docker"] = "")) :=
  ⟨by decide, by decide, by decide,
    C34_string_of_feature_map sampleFeatures ["kubernetes", "docker"] (by decide) (by decide)⟩


end Probe
